import Mathlib

/-!
# SuperMarket-MVC: the checkout transaction

A shallow embedding of `controllers/OrderController.js` (`checkout`) over an
explicit model of the MySQL connection it drives: four tables, an
`AUTO_INCREMENT` counter for `orders`, and the transaction state of the
single shared connection (`const conn = db`).

Conventions.
* Ids and timestamps are natural numbers; `0` is the falsy id of JavaScript.
* Quantities are integers.  A price or amount column holds a decimal with two
  places, kept as an integer number of minor units (cents).
* What JavaScript computes from such values it computes in `Double`, a model
  of the IEEE 754 binary64 numbers: `Number(x)` is the double nearest to `x`,
  and `*` and `+` round their exact result to the nearest double.
* A statement that fails leaves the tables as they were and calls back with
  an error; which statements fail is chosen by `Faults`.
-/

namespace SupermarketAppMVC

/-! ## Tables -/

/-- A row of `products` (the primary key `id` is the key of the table). -/
structure Product where
  productName : String
  quantity : Int
  price : Int
  deriving DecidableEq, Repr

/-- A row of `cart_items`. -/
structure CartItem where
  id : Nat
  user_id : Nat
  product_id : Nat
  quantity : Int
  deriving DecidableEq, Repr

/-- A row of `orders`. -/
structure Order where
  id : Nat
  user_id : Nat
  orderDate : Nat
  totalAmount : Int
  status : String
  createdAt : Nat
  deriving DecidableEq, Repr

/-- A row of `order_items` (its own surrogate key is left out). -/
structure OrderItem where
  order_id : Nat
  product_id : Nat
  quantity : Int
  price : Int
  createdAt : Nat
  deriving DecidableEq, Repr

/-- The four tables checkout touches.  `products` is keyed by its primary key;
`orders`, `order_items` and `cart_items` are kept in insertion order. -/
structure Tables where
  orders : List Order
  order_items : List OrderItem
  products : Nat → Option Product
  cart_items : List CartItem

/-- The shared connection: the current contents of the tables, the contents
saved when the open transaction began (`none` when no transaction is open),
and the `AUTO_INCREMENT` counter of `orders`, which a rollback does not
restore. -/
structure Db where
  tables : Tables
  snapshot : Option Tables
  nextOrderId : Nat

/-! ## JavaScript numbers -/

/-- A finite value of the Number type of JavaScript, an IEEE 754 binary64
float: the number `mantissa * 2 ^ exponent`.  Every value has one form: zero is
`⟨0, 0⟩`, a normal number has `2 ^ 52 ≤ |mantissa| < 2 ^ 53`, a subnormal one
has exponent `-1074`.  `Infinity` and `NaN` are not represented: an amount
column holds at most 65 digits and a quantity at most 20, so no price, line
amount or sum over the rows of a table reaches `2 ^ 1024`.  The sign of zero is
not kept; a sum that starts from `0` never shows it. -/
structure Double where
  mantissa : Int
  exponent : Int
  deriving DecidableEq, Repr

/-- The integer nearest to `num / den`, the even one of the two when `num /
den` lies halfway between them. -/
def roundHalfEven (num den : Nat) : Nat :=
  if 2 * (num % den) < den then num / den
  else if den < 2 * (num % den) then num / den + 1
  else num / den + (num / den) % 2

/-- The number of binary digits of `n`, found in at most `fuel` halvings. -/
def bitLength : Nat → Nat → Nat
  | 0, _ => 0
  | fuel + 1, n => if n = 0 then 0 else bitLength fuel (n / 2) + 1

/-- The position of the leading binary digit of `n`. -/
def ilog2 (n : Nat) : Nat := bitLength n n - 1

/-- The integer part of the binary logarithm of `a / d`, for positive `a` and
`d`. -/
def floorLog2 (a d : Nat) : Int :=
  if a * 2 ^ ilog2 d < d * 2 ^ ilog2 a then (ilog2 a : Int) - ilog2 d - 1
  else (ilog2 a : Int) - ilog2 d

/-- The fraction `a / d` in units of `2 ^ e`, rounded to the nearest integer,
halves to even. -/
def Double.scaled (a d : Nat) (e : Int) : Nat :=
  if 0 ≤ e then roundHalfEven a (d * 2 ^ e.toNat) else roundHalfEven (a * 2 ^ (-e).toNat) d

/-- The double nearest to the fraction `n / d` (round to nearest, ties to
even): 53 significant binary digits, and no unit below `2 ^ -1074`. -/
def Double.round (n : Int) (d : Nat) : Double :=
  if n = 0 then ⟨0, 0⟩ else
  if Double.scaled n.natAbs d (max (floorLog2 n.natAbs d - 52) (-1074)) = 0 then ⟨0, 0⟩
  else if Double.scaled n.natAbs d (max (floorLog2 n.natAbs d - 52) (-1074)) = 2 ^ 53 then
    ⟨n.sign * 2 ^ 52, max (floorLog2 n.natAbs d - 52) (-1074) + 1⟩
  else
    ⟨n.sign * Double.scaled n.natAbs d (max (floorLog2 n.natAbs d - 52) (-1074)),
      max (floorLog2 n.natAbs d - 52) (-1074)⟩

/-- The double nearest to `n * 2 ^ e`. -/
def Double.ofDyadic (n : Int) (e : Int) : Double :=
  if 0 ≤ e then Double.round (n * 2 ^ e.toNat) 1 else Double.round n (2 ^ (-e).toNat)

/-- The operator `+` on numbers: the exact sum, rounded once. -/
def Double.add (x y : Double) : Double :=
  Double.ofDyadic
    (x.mantissa * 2 ^ (x.exponent - min x.exponent y.exponent).toNat +
      y.mantissa * 2 ^ (y.exponent - min x.exponent y.exponent).toNat)
    (min x.exponent y.exponent)

/-- The operator `*` on numbers: the exact product, rounded once. -/
def Double.mul (x y : Double) : Double :=
  Double.ofDyadic (x.mantissa * y.mantissa) (x.exponent + y.exponent)

/-- The expression `Number(q)` for the value of an integer column. -/
def Double.ofInt (q : Int) : Double := Double.round q 1

/-- The expression `Number(v)` for the value `v` of a column with two decimals
that holds `c` minor units (the driver hands such a value over as the text
`c / 100`, for instance `"0.10"`). -/
def Double.ofCents (c : Int) : Double := Double.round c 100

/-- The integer nearest to `n / d`, halves away from zero. -/
def roundHalfAway (n : Int) (d : Nat) : Int :=
  n.sign * (((2 * n.natAbs + d) / (2 * d) : Nat) : Int)

/-- Modelled from the spec: the declaration of the table `orders` is not in the
sources, and the amounts of the spec have two decimals (`10.00`, `3.50`,
`23.50`).  What such a column keeps of a number given to an insert, in minor
units: the value rounded to two decimals, halves away from zero.  (The driver
sends the number as the shortest decimal text that reads back as the same
double; the value of that text is taken to be the double.) -/
def amountColumn (x : Double) : Int :=
  if 0 ≤ x.exponent then 100 * x.mantissa * 2 ^ x.exponent.toNat
  else roundHalfAway (100 * x.mantissa) (2 ^ (-x.exponent).toNat)

/-! ## Connection primitives -/

/-- The call `conn.beginTransaction`: whatever was open is committed, and the
current contents become the point a rollback returns to. -/
def Db.beginTransaction (db : Db) : Db :=
  { db with snapshot := some db.tables }

/-- The call `conn.rollback`: back to the contents saved at `beginTransaction`;
without an open transaction nothing happens. -/
def Db.rollback (db : Db) : Db :=
  match db.snapshot with
  | some saved => { db with tables := saved, snapshot := none }
  | none => db

/-- The call `conn.commit`: the current contents become permanent. -/
def Db.commit (db : Db) : Db :=
  { db with snapshot := none }

/-- The statement `INSERT INTO orders (user_id, orderDate, totalAmount, status,
createdAt) VALUES (?, NOW(), ?, "Pending", NOW())` with the number
`totalAmount` as its second parameter; the new row takes the next
`AUTO_INCREMENT` id, which is the `insertId` of the result, and its amount
column keeps `amountColumn totalAmount`. -/
def Db.insertOrder (db : Db) (userId : Nat) (totalAmount : Double) (now : Nat) : Db :=
  { db with
    tables := { db.tables with
      orders := db.tables.orders ++
        [{ id := db.nextOrderId, user_id := userId, orderDate := now,
           totalAmount := amountColumn totalAmount, status := "Pending",
           createdAt := now }] }
    nextOrderId := db.nextOrderId + 1 }

/-- The statement `INSERT INTO order_items (order_id, product_id, quantity,
price, createdAt) VALUES (?, ?, ?, ?, NOW()), ...` with one tuple per row. -/
def Db.insertOrderItems (db : Db) (items : List OrderItem) : Db :=
  { db with tables := { db.tables with order_items := db.tables.order_items ++ items } }

/-- The statement `UPDATE products SET quantity = quantity - ? WHERE id = ?`. -/
def Tables.decrementStock (t : Tables) (qty : Int) (productId : Nat) : Tables :=
  { t with products := fun id =>
      if id = productId then
        (t.products id).map (fun p => { p with quantity := p.quantity - qty })
      else t.products id }

/-- The statement `DELETE FROM cart_items WHERE user_id = ?`. -/
def Tables.deleteCart (t : Tables) (userId : Nat) : Tables :=
  { t with cart_items := t.cart_items.filter (fun ci => decide (ci.user_id ≠ userId)) }

/-! ## The request -/

/-- The object `req.session.user`. -/
structure SessionUser where
  id : Nat
  role : String
  deriving DecidableEq, Repr

/-- The object `req.session`; an absent field is `none`. -/
structure Session where
  user : Option SessionUser
  userId : Option Nat
  deriving DecidableEq, Repr

/-- The request, as far as checkout reads it. -/
structure Request where
  session : Option Session
  deriving DecidableEq, Repr

/-- The expression `req.session?.user?.id || req.session?.userId`, with `0`
for a falsy result. -/
def sessionUserId (req : Request) : Nat :=
  let fromUser : Nat := ((req.session.bind (fun s => s.user)).map (fun u => u.id)).getD 0
  if fromUser ≠ 0 then fromUser else (req.session.bind (fun s => s.userId)).getD 0

/-! ## Failure injection and outcomes -/

/-- Which statements of one checkout call fail.  `stockUpdate i` is the
`UPDATE products` issued for the `i`-th cart row. -/
structure Faults where
  begin : Bool
  loadCart : Bool
  insertOrder : Bool
  insertItems : Bool
  stockUpdate : Nat → Bool
  clearCart : Bool
  commit : Bool

/-- No statement fails. -/
def Faults.none : Faults :=
  { begin := false, loadCart := false, insertOrder := false, insertItems := false,
    stockUpdate := fun _ => false, clearCart := false, commit := false }

/-- What one call sees besides the database: the clock behind `NOW()` and the
failures injected into its statements. -/
structure Env where
  now : Nat
  faults : Faults

/-- The first argument of checkout's `rollback(code, err)`. -/
inductive Code
  | BEGIN_FAIL
  | LOAD_CART_FAIL
  | EMPTY_CART
  | OUT_OF_STOCK
  | INSERT_ORDER_FAIL
  | INSERT_ITEMS_FAIL
  | DECREMENT_FAIL
  | CLEAR_CART_FAIL
  | COMMIT_FAIL
  deriving DecidableEq, Repr

/-- What checkout hands back to the HTTP layer. -/
inductive CheckoutResponse
  /-- The call `res.redirect('/login')`. -/
  | redirectLogin
  /-- The calls `req.flash('error', msg)` and `res.redirect('/cart')`. -/
  | redirectCart (flashError : String)
  /-- The call `next(err || new Error(code))`. -/
  | nextError (code : Code)
  /-- The call `res.redirect('/orders/' + orderId + '/receipt')`. -/
  | redirectReceipt (orderId : Nat)
  deriving DecidableEq, Repr

/-! ## `OrderController.checkout` -/

/-- A row of checkout's `cartSql` result. -/
structure CartRow where
  cart_id : Nat
  product_id : Nat
  cart_qty : Int
  stock_qty : Int
  price : Int
  deriving DecidableEq, Repr

/-- The query `SELECT ci.id AS cart_id, ci.product_id, ci.quantity AS cart_qty,
p.quantity AS stock_qty, p.price FROM cart_items ci JOIN products p
ON p.id = ci.product_id WHERE ci.user_id = ? FOR UPDATE`: an inner join, so a
cart line without a product row yields no result row. -/
def cartSql (t : Tables) (userId : Nat) : List CartRow :=
  (t.cart_items.filter (fun ci => decide (ci.user_id = userId))).filterMap (fun ci =>
    match t.products ci.product_id with
    | some p =>
      some { cart_id := ci.id, product_id := ci.product_id, cart_qty := ci.quantity,
             stock_qty := p.quantity, price := p.price }
    | none => none)

/-- The expression `Number(x || 0)` on a numeric column. -/
def numberOr0 (x : Int) : Int :=
  if x = 0 then 0 else x

/-- The reduction `cartRows.reduce((sum, row) => sum + Number(row.price || 0) *
Number(row.cart_qty || 0), 0)`, in the number arithmetic of JavaScript: each
product and each partial sum is rounded to a double. -/
def totalAmount (cartRows : List CartRow) : Double :=
  cartRows.foldl (fun sum row =>
    sum.add ((Double.ofCents (numberOr0 row.price)).mul
      (Double.ofInt (numberOr0 row.cart_qty)))) ⟨0, 0⟩

/-- The parameters of the `order_items` insert: per cart row the order id,
`row.product_id`, `Number(row.cart_qty)` and `Number(row.price || 0)`. -/
def orderItemsOf (orderId : Nat) (now : Nat) (cartRows : List CartRow) : List OrderItem :=
  cartRows.map (fun row =>
    { order_id := orderId, product_id := row.product_id, quantity := row.cart_qty,
      price := numberOr0 row.price, createdAt := now })

/-- The array `stockUpdates`: one `UPDATE products SET quantity = quantity - ?
WHERE id = ?` per cart row, all issued on the connection in row order, from
row index `i` on.  Returns the tables after every update has run and whether
some update failed (so that `Promise.all` rejects). -/
def stockUpdates (fails : Nat → Bool) : Nat → List CartRow → Tables → Tables × Bool
  | _, [], t => (t, false)
  | i, row :: rest, t =>
    if fails i then
      ((stockUpdates fails (i + 1) rest t).1, true)
    else
      stockUpdates fails (i + 1) rest (t.decrementStock row.cart_qty row.product_id)

/-- The closure `rollback(code, err)` of checkout: roll the connection back,
then answer according to `code`. -/
def rollback (db : Db) (code : Code) : CheckoutResponse × Db :=
  match code with
  | .EMPTY_CART => (.redirectCart "Your cart is empty.", db.rollback)
  | .OUT_OF_STOCK => (.redirectCart "Not enough stock for one or more items.", db.rollback)
  | c => (.nextError c, db.rollback)

/-- The callback of `conn.commit`: a failed commit goes to `rollback`, a
successful one redirects to the receipt. -/
def commitStep (db : Db) (env : Env) (orderId : Nat) : CheckoutResponse × Db :=
  if env.faults.commit then rollback db .COMMIT_FAIL else
  (.redirectReceipt orderId, db.commit)

/-- The `then` branch of `Promise.all(stockUpdates)`: delete the user's cart
lines, then commit. -/
def clearCartStep (db : Db) (env : Env) (userId orderId : Nat) : CheckoutResponse × Db :=
  if env.faults.clearCart then rollback db .CLEAR_CART_FAIL else
  commitStep { db with tables := db.tables.deleteCart userId } env orderId

/-- The callback of the `order_items` insert: issue every stock update, and
go on only when none was rejected. -/
def stockStep (db : Db) (env : Env) (userId orderId : Nat) (cartRows : List CartRow) :
    CheckoutResponse × Db :=
  let updated := stockUpdates env.faults.stockUpdate 0 cartRows db.tables
  let db4 : Db := { db with tables := updated.1 }
  if updated.2 then rollback db4 .DECREMENT_FAIL else
  clearCartStep db4 env userId orderId

/-- The callback of the `orders` insert: insert one order line per cart row. -/
def itemsStep (db : Db) (env : Env) (userId orderId : Nat) (cartRows : List CartRow) :
    CheckoutResponse × Db :=
  if env.faults.insertItems then rollback db .INSERT_ITEMS_FAIL else
  stockStep (db.insertOrderItems (orderItemsOf orderId env.now cartRows)) env userId orderId
    cartRows

/-- The part of the cart callback after validation: compute the total and
insert the order header; `orderId` is the `insertId` of that insert. -/
def orderStep (db : Db) (env : Env) (userId : Nat) (cartRows : List CartRow) :
    CheckoutResponse × Db :=
  if env.faults.insertOrder then rollback db .INSERT_ORDER_FAIL else
  itemsStep (db.insertOrder userId (totalAmount cartRows) env.now) env userId db.nextOrderId
    cartRows

/-- The callback of `conn.beginTransaction` and of the cart query: load the
cart rows, reject an empty cart, reject a row that asks for more than the
stock, otherwise go on to the inserts. -/
def cartStep (db : Db) (env : Env) (userId : Nat) : CheckoutResponse × Db :=
  if env.faults.loadCart then rollback db .LOAD_CART_FAIL else
  let cartRows := cartSql db.tables userId
  if cartRows.length = 0 then rollback db .EMPTY_CART else
  match cartRows.find? (fun row => decide (row.cart_qty > row.stock_qty)) with
  | some _ => rollback db .OUT_OF_STOCK
  | none => orderStep db env userId cartRows

/-- The handler `OrderController.checkout`. -/
def checkout (db : Db) (req : Request) (env : Env) : CheckoutResponse × Db :=
  let userId := sessionUserId req
  if userId = 0 then (.redirectLogin, db) else
  if env.faults.begin then rollback db .BEGIN_FAIL else
  cartStep db.beginTransaction env userId

/-- Whether the response is the redirect to the receipt, the only success. -/
def CheckoutResponse.isReceipt : CheckoutResponse → Bool
  | .redirectReceipt _ => true
  | _ => false

/-- A run of checkout calls, one after another on the same connection. -/
def runCheckouts (db : Db) : List (Request × Env) → Db
  | [] => db
  | call :: rest => runCheckouts (checkout db call.1 call.2).2 rest

/-! ## Sample data -/

/-- A request whose session holds the logged-in user `id`. -/
def requestOf (id : Nat) : Request :=
  { session := some { user := some { id := id, role := "user" }, userId := none } }

/-- A clock value and no failing statement. -/
def calmEnv : Env := { now := 7, faults := Faults.none }

/-- A products table given by its rows `(id, row)`. -/
def productsOf (rows : List (Nat × Product)) : Nat → Option Product :=
  fun id => rows.lookup id

/-- An idle connection over the given products and cart lines, with no order
yet and `AUTO_INCREMENT` at 1. -/
def dbOf (products : List (Nat × Product)) (cart : List CartItem) : Db :=
  { tables := { orders := [], order_items := [], products := productsOf products,
                cart_items := cart },
    snapshot := none, nextOrderId := 1 }

/-- Scenario 1: user 1 holds 2 of product 1 (stock 5, price 10.00) and 1 of
product 2 (stock 1, price 3.50). -/
def scenario1 : Db :=
  dbOf [(1, ⟨"A", 5, 1000⟩), (2, ⟨"B", 1, 350⟩)]
    [⟨1, 1, 1, 2⟩, ⟨2, 1, 2, 1⟩]

/-- Scenario 2: user 1 holds 3 of product 1, whose stock is 2. -/
def scenario2 : Db :=
  dbOf [(1, ⟨"A", 2, 1000⟩)] [⟨1, 1, 1, 3⟩]

/-- The clock of `calmEnv`, with the commit failing. -/
def commitFails : Env := { now := 7, faults := { Faults.none with commit := true } }

/-- User 1 holds two lines of 2 units each for product 1, whose stock is 3. -/
def duplicateLines : Db :=
  dbOf [(1, ⟨"A", 3, 1000⟩)] [⟨1, 1, 1, 2⟩, ⟨2, 1, 1, 2⟩]

/-- User 1 holds 5 of product 2, whose stock is 1. -/
def scenario2b : Db :=
  dbOf [(2, ⟨"B", 1, 350⟩)] [⟨1, 1, 2, 5⟩]

/-- User 1 holds 1 of product 1 (stock 5) and 1 of product 99, which has no
row in `products`. -/
def danglingCart : Db :=
  dbOf [(1, ⟨"A", 5, 1000⟩)] [⟨1, 1, 1, 1⟩, ⟨2, 1, 99, 1⟩]

/-! ## Quantities the statements below speak about -/

/-- The offending lines of a cart, as the specification reports them: product
id, requested quantity and available stock of every row that asks for more
than the stock. -/
def insufficientLines (t : Tables) (userId : Nat) : List (Nat × Int × Int) :=
  ((cartSql t userId).filter (fun row => decide (row.cart_qty > row.stock_qty))).map
    (fun row => (row.product_id, row.cart_qty, row.stock_qty))

/-- The tables without the cart lines whose product has no row. -/
def withoutDangling (t : Tables) : Tables :=
  { t with cart_items := t.cart_items.filter (fun ci => (t.products ci.product_id).isSome) }

/-- The total quantity the cart rows request of product `productId`. -/
def requestedOf (cartRows : List CartRow) (productId : Nat) : Int :=
  ((cartRows.filter (fun row => decide (row.product_id = productId))).map
    (fun row => row.cart_qty)).sum

/-- The products table with every product's stock lowered by what the cart
rows request of it. -/
def productsAfter (products : Nat → Option Product) (cartRows : List CartRow) :
    Nat → Option Product :=
  fun id => (products id).map (fun p => { p with quantity := p.quantity - requestedOf cartRows id })

/-- The tables a checkout of `userId` commits when it starts from `t`, draws
order id `orderId` and runs at time `now`. -/
def committedTables (t : Tables) (userId orderId now : Nat) : Tables :=
  { orders := t.orders ++
      [{ id := orderId, user_id := userId, orderDate := now,
         totalAmount := amountColumn (totalAmount (cartSql t userId)),
         status := "Pending", createdAt := now }]
    order_items := t.order_items ++ orderItemsOf orderId now (cartSql t userId)
    products := productsAfter t.products (cartSql t userId)
    cart_items := t.cart_items.filter (fun ci => decide (ci.user_id ≠ userId)) }

/-- Every product has a stock of at least zero. -/
def StockNonneg (t : Tables) : Prop :=
  ∀ (id : Nat) (p : Product), t.products id = some p → 0 ≤ p.quantity

/-- No user has two cart lines for the same product. -/
def OneLinePerProduct (t : Tables) : Prop :=
  t.cart_items.Pairwise (fun a b => a.user_id = b.user_id → a.product_id ≠ b.product_id)

/-- Two table sets that agree on everything but the cart. -/
def Tables.agreeOffCart (s t : Tables) : Prop :=
  s.orders = t.orders ∧ s.order_items = t.order_items ∧ s.products = t.products

/-- Two connection states that agree on everything but the cart, in the
current contents and in the contents saved for a rollback. -/
def Db.agreeOffCart (a b : Db) : Prop :=
  a.tables.agreeOffCart b.tables ∧ a.nextOrderId = b.nextOrderId ∧
    (match a.snapshot, b.snapshot with
     | none, none => True
     | some s, some t => s.agreeOffCart t
     | _, _ => False)

/-- The outcome of a call that was undone: no receipt, the tables back at
`t0`, no transaction left open. -/
def RolledBack (t0 : Tables) (r : CheckoutResponse × Db) : Prop :=
  r.1.isReceipt = false ∧ r.2.tables = t0 ∧ r.2.snapshot = none

/-- User 1 holds two lines of 1 unit each for product 1, whose stock is 1. -/
def duplicateSingles : Db :=
  dbOf [(1, ⟨"A", 1, 1000⟩)] [⟨1, 1, 1, 1⟩, ⟨2, 1, 1, 1⟩]

/-- Scenario 4: users 1 and 2 each hold 1 of product 1, whose stock is 1. -/
def scenario4 : Db :=
  dbOf [(1, ⟨"A", 1, 1000⟩)] [⟨1, 1, 1, 1⟩, ⟨2, 2, 1, 1⟩]

/-! ## `models/Product.js`: the conditional decrement -/

/-- What a model function hands to its callback: `cb(err)` or `cb(null, value)`. -/
inductive Callback (α : Type)
  | error
  | result (value : α)
  deriving DecidableEq, Repr

/-- The products table with the row of `productId` replaced by `row`. -/
def Tables.setProduct (t : Tables) (productId : Nat) (row : Product) : Tables :=
  { t with products := fun id => if id = productId then some row else t.products id }

/-- The statement `UPDATE products SET quantity = quantity - ? WHERE id = ? AND
quantity >= ?`: the tables after it and its `affectedRows`. -/
def Tables.reduceStockSql (t : Tables) (qty : Int) (productId : Nat) (atLeast : Int) :
    Tables × Nat :=
  match t.products productId with
  | some p =>
    if p.quantity ≥ atLeast then
      (t.setProduct productId { p with quantity := p.quantity - qty }, 1)
    else (t, 0)
  | none => (t, 0)

/-- The function `Product.reduceStock(conn, productId, qty, cb)`, also in its
form `reduceStock(productId, qty, cb)`: both run the same statement with the
parameters `[Number(qty || 0), Number(productId || 0), Number(qty || 0)]` on
the shared connection and call back with `affectedRows`, or with the error of
a failed query. -/
def reduceStock (t : Tables) (productId : Nat) (qty : Int) (queryFails : Bool) :
    Callback Nat × Tables :=
  if queryFails then (.error, t) else
  let res := t.reduceStockSql (numberOr0 qty) productId (numberOr0 qty)
  (.result res.2, res.1)

/-! ## `models/Cart.js` and `controllers/CartController.js`: clearing the cart -/

/-- The result of `Number(x)`.  A finite value is held exactly. -/
inductive JsNumber
  | finite (value : ℚ)
  | nan
  | posInf
  | negInf
  deriving DecidableEq

/-- A field of `req.body` (or of a model payload) as the cart code reads it:
whether the value is truthy, what `Number(value)` gives and what
`parseInt(value, 10)` gives (`none` for `NaN`). -/
structure BodyField where
  truthy : Bool
  number : JsNumber
  parseInt10 : Option Int
  deriving DecidableEq

/-- A field that is not there (`undefined`). -/
def BodyField.absent : BodyField :=
  { truthy := false, number := .nan, parseInt10 := none }

/-- The body of a cart request.  Ids are numbers, `0` when absent. -/
structure CartBody where
  id : Nat
  productId : Nat
  product_id : Nat
  quantity : BodyField
  qty : BodyField
  deriving DecidableEq

/-- A request to a cart handler: the session, `Number(req.params.id)` when the
route has an `:id`, the body, whether the client wants JSON (`req.xhr` or an
`Accept` header with `application/json`), and the `Referer` header. -/
structure CartRequest where
  session : Option Session
  paramsId : Option Nat
  body : CartBody
  wantsJSON : Bool
  referer : Option String
  deriving DecidableEq

/-- The helper `uid(req)`: `req.session?.userId || (u && (u.id || u.user_id ||
u.userId)) || null`, with `0` for `null`; the session user carries `id` only. -/
def uid (req : CartRequest) : Nat :=
  let fromSession : Nat := (req.session.bind (fun s => s.userId)).getD 0
  if fromSession ≠ 0 then fromSession
  else ((req.session.bind (fun s => s.user)).map (fun u => u.id)).getD 0

/-- The texts the cart handlers send. -/
inductive CartMessage
  /-- The text 'Not authenticated'. -/
  | notAuthenticated
  /-- The text 'Invalid request: missing productId'. -/
  | missingProductId
  /-- The text 'Product not found'. -/
  | productNotFound
  /-- The text 'Cannot add product. Only N available and you already have M
  in your cart.' -/
  | cannotAdd (available inCart : Int)
  /-- The text 'Added to cart'. -/
  | added
  /-- The text 'Added N (limited by stock)'. -/
  | addedLimited (allowed : Int)
  /-- The text 'Item removed from cart'. -/
  | itemRemoved
  /-- The text 'Cart updated'. -/
  | cartUpdated
  /-- The text 'Cannot set quantity to Q. Only N available.' -/
  | cannotSet (quantity : ℚ) (available : Int)
  /-- The text 'Cart item not found'. -/
  | cartItemNotFound
  /-- The text 'Failed to update cart'. -/
  | failedToUpdate
  /-- The text 'Cart cleared'. -/
  | cartCleared
  /-- The text 'Failed to clear cart'. -/
  | failedToClear
  deriving DecidableEq

/-- The fields a JSON answer carries besides `success` and `message`. -/
inductive JsonPayload
  | none
  /-- The fields `available` and `inCart`. -/
  | stock (available inCart : Int)
  /-- The fields `cartItemId` (after an insert), `cartItem: { product_id,
  quantity }`, `available` and `inCart` (equal to the quantity). -/
  | cartItem (cartItemId : Option Nat) (product_id : Nat) (quantity available : Int)
  /-- The fields `product_id` and `quantity`. -/
  | updated (product_id : Nat) (quantity : ℚ)
  /-- The field `removed`. -/
  | removed (count : Nat)
  deriving DecidableEq

/-- What a cart handler answers. -/
inductive CartResponse
  /-- The call `res.redirect(url)`. -/
  | redirect (url : String)
  /-- The calls `req.flash(kind, message)` and `res.redirect(url)`. -/
  | flash (kind : String) (message : CartMessage) (url : String)
  /-- The call `res.status(status).json({ success, message, ... })`. -/
  | json (status : Nat) (success : Bool) (message : Option CartMessage) (payload : JsonPayload)
  /-- The call `res.status(status).send(message)`. -/
  | send (status : Nat) (message : CartMessage)
  /-- The call `res.status(status).render('cart', { items: [], error })`. -/
  | renderCart (status : Nat) (error : CartMessage)
  /-- The call `next(err)`. -/
  | next
  deriving DecidableEq

/-- The function `Cart.clearByUser(user_id, cb)`: `DELETE FROM cart_items WHERE
user_id = ?`, calling back with the `affectedRows` of the delete. -/
def Cart.clearByUser (t : Tables) (user_id : Nat) (queryFails : Bool) :
    Callback Nat × Tables :=
  if queryFails then (.error, t) else
  (.result (t.cart_items.filter (fun ci => decide (ci.user_id = user_id))).length,
    t.deleteCart user_id)

/-- The handler `CartController.clear`. -/
def CartController.clear (t : Tables) (req : CartRequest) (queryFails : Bool) :
    CartResponse × Tables :=
  let userId := uid req
  if userId = 0 then (.redirect "/login", t) else
  if queryFails then
    (if req.wantsJSON then .json 500 false (some .failedToClear) .none
     else .renderCart 500 .failedToClear, t)
  else
    let affectedRows := (t.cart_items.filter (fun ci => decide (ci.user_id = userId))).length
    (if req.wantsJSON then .json 200 true none (.removed affectedRows)
     else .flash "success" .cartCleared "/cart", t.deleteCart userId)

/-- A cart request of the logged-in user `id` with nothing in the body. -/
def cartRequestOf (id : Nat) : CartRequest :=
  { session := some { user := some { id := id, role := "user" }, userId := some id },
    paramsId := none,
    body := { id := 0, productId := 0, product_id := 0, quantity := BodyField.absent,
              qty := BodyField.absent },
    wantsJSON := true, referer := none }

/-! ## `controllers/CartController.js` and `models/Cart.js`: adding and updating -/

/-- What MySQL stores in an integer column for an exact numeric value: the
nearest integer, halves away from zero. -/
def mysqlRound (q : ℚ) : Int :=
  if 0 ≤ q then ⌊q + 1 / 2⌋ else -⌊-q + 1 / 2⌋

/-- The statement `UPDATE cart_items SET quantity = ? WHERE id = ?`. -/
def Tables.updateCartQuantityById (t : Tables) (quantity : Int) (id : Nat) : Tables :=
  { t with cart_items := t.cart_items.map (fun ci =>
      if ci.id = id then { ci with quantity := quantity } else ci) }

/-- The statement `UPDATE cart_items SET quantity = ? WHERE id = ? AND user_id = ?`. -/
def Tables.updateCartQuantityByIdUser (t : Tables) (quantity : Int) (id userId : Nat) : Tables :=
  { t with cart_items := t.cart_items.map (fun ci =>
      if ci.id = id ∧ ci.user_id = userId then { ci with quantity := quantity } else ci) }

/-- The statement `INSERT INTO cart_items (user_id, product_id, quantity)
VALUES (?, ?, ?)`; `insertId` is the id the table gives the new row. -/
def Tables.insertCartItem (t : Tables) (insertId userId productId : Nat) (quantity : Int) :
    Tables :=
  { t with cart_items := t.cart_items ++
      [{ id := insertId, user_id := userId, product_id := productId, quantity := quantity }] }

/-- The statement `DELETE FROM cart_items WHERE id = ? AND user_id = ?`. -/
def Tables.deleteCartItemByIdUser (t : Tables) (id userId : Nat) : Tables :=
  { t with cart_items := t.cart_items.filter (fun ci =>
      decide (¬ (ci.id = id ∧ ci.user_id = userId))) }

/-- The statement `DELETE FROM cart_items WHERE user_id = ? AND product_id = ?`. -/
def Tables.deleteCartItemByUserProduct (t : Tables) (userId productId : Nat) : Tables :=
  { t with cart_items := t.cart_items.filter (fun ci =>
      decide (¬ (ci.user_id = userId ∧ ci.product_id = productId))) }

/-- The query `SELECT ... FROM cart_items WHERE user_id = ? AND product_id = ?
LIMIT 1`. -/
def Tables.cartLineOf (t : Tables) (userId productId : Nat) : Option CartItem :=
  t.cart_items.find? (fun ci => decide (ci.user_id = userId ∧ ci.product_id = productId))

/-- The query `SELECT id, product_id, user_id FROM cart_items WHERE id = ?
LIMIT 1`. -/
def Tables.cartLineById (t : Tables) (id : Nat) : Option CartItem :=
  t.cart_items.find? (fun ci => decide (ci.id = id))

/-- JSON when the client asked for it, otherwise a flash message and a
redirect. -/
def reply (wantsJSON : Bool) (status : Nat) (success : Bool) (kind : String)
    (message : CartMessage) (payload : JsonPayload) (url : String) : CartResponse :=
  if wantsJSON then .json status success (some message) payload
  else .flash kind message url

/-- Which queries of one `CartController.add` call fail. -/
structure AddFaults where
  selectProduct : Bool
  selectCart : Bool
  write : Bool

/-- The quantity `CartController.add` works with: `parseInt(req.body.quantity
|| req.body.qty || '1', 10) || 1`, raised to 1 when below 1. -/
def addQty (body : CartBody) : Int :=
  let parsed : Option Int :=
    if body.quantity.truthy then body.quantity.parseInt10
    else if body.qty.truthy then body.qty.parseInt10
    else some 1
  let qty : Int :=
    match parsed with
    | some n => if n = 0 then 1 else n
    | none => 1
  if qty < 1 then 1 else qty

/-- The expression `Number(req.body.productId || req.body.product_id ||
req.body.id || 0)` of `CartController.add`. -/
def addProductId (body : CartBody) : Nat :=
  if body.productId ≠ 0 then body.productId
  else if body.product_id ≠ 0 then body.product_id
  else body.id

/-- The handler `CartController.add`. -/
def CartController.add (t : Tables) (req : CartRequest) (insertId : Nat) (f : AddFaults) :
    CartResponse × Tables :=
  let userId := uid req
  if userId = 0 then
    (if req.wantsJSON then .json 401 false (some .notAuthenticated) .none
     else .redirect "/login", t)
  else
  let productId := addProductId req.body
  let qty := addQty req.body
  let fallback := req.referer.getD "/"
  if productId = 0 then
    (reply req.wantsJSON 400 false "error" .missingProductId .none fallback, t)
  else
  if f.selectProduct then (.next, t) else
  match t.products productId with
  | none => (reply req.wantsJSON 404 false "error" .productNotFound .none fallback, t)
  | some product =>
    let available := numberOr0 product.quantity
    if f.selectCart then (.next, t) else
    let cartRow := t.cartLineOf userId productId
    let existingInCart : Int :=
      match cartRow with
      | some row => numberOr0 row.quantity
      | none => 0
    let canAdd := max 0 (available - existingInCart)
    if canAdd ≤ 0 then
      (reply req.wantsJSON 400 false "error" (.cannotAdd available existingInCart)
        (.stock available existingInCart) fallback, t)
    else
    let allowedToAdd := if qty > canAdd then canAdd else qty
    let msg : CartMessage := if allowedToAdd < qty then .addedLimited allowedToAdd else .added
    match cartRow with
    | some row =>
      let newQty := existingInCart + allowedToAdd
      if f.write then (.next, t) else
      (reply req.wantsJSON 200 true "success" msg
        (.cartItem none productId newQty available) fallback,
        t.updateCartQuantityById newQty row.id)
    | none =>
      if f.write then (.next, t) else
      (reply req.wantsJSON 200 true "success" msg
        (.cartItem (some insertId) productId allowedToAdd available) fallback,
        t.insertCartItem insertId userId productId allowedToAdd)

/-- Which queries of one `CartController.update` call fail. -/
structure UpdateFaults where
  selectItem : Bool
  selectProduct : Bool
  selectLine : Bool
  write : Bool

/-- The quantity `CartController.update` works with: `Number(req.body.quantity
|| req.body.qty || 0)`, set to 0 when it is not finite or below 0. -/
def updateQuantity (body : CartBody) : ℚ :=
  let n : JsNumber :=
    if body.quantity.truthy then body.quantity.number
    else if body.qty.truthy then body.qty.number
    else .finite 0
  match n with
  | .finite q => if q < 0 then 0 else q
  | _ => 0

/-- The helper `sendError(msg, status)` of `CartController.update`. -/
def sendError (wantsJSON : Bool) (message : CartMessage) (status : Nat) : CartResponse :=
  if wantsJSON then .json status false (some message) .none
  else .flash "error" message "/cart"

/-- The closure `performUpdateFor(productId, cartRowId)` of
`CartController.update`; `cartRowId` is `0` for `null`. -/
def performUpdateFor (t : Tables) (wantsJSON : Bool) (userId : Nat) (quantity : ℚ)
    (insertId : Nat) (f : UpdateFaults) (productId cartRowId : Nat) : CartResponse × Tables :=
  if f.selectProduct then (.send 500 .failedToUpdate, t) else
  match t.products productId with
  | none => (sendError wantsJSON .productNotFound 404, t)
  | some product =>
    let available := numberOr0 product.quantity
    if quantity = 0 then
      if f.write then (.send 500 .failedToUpdate, t) else
      (if wantsJSON then .json 200 true (some .itemRemoved) .none
       else .flash "success" .itemRemoved "/cart",
        if cartRowId ≠ 0 then t.deleteCartItemByIdUser cartRowId userId
        else t.deleteCartItemByUserProduct userId productId)
    else
    if quantity > (available : ℚ) then
      (sendError wantsJSON (.cannotSet quantity available) 400, t)
    else
    let updated : CartResponse :=
      if wantsJSON then .json 200 true (some .cartUpdated) (.updated productId quantity)
      else .flash "success" .cartUpdated "/cart"
    if cartRowId ≠ 0 then
      if f.write then (.send 500 .failedToUpdate, t) else
      (updated, t.updateCartQuantityByIdUser (mysqlRound quantity) cartRowId userId)
    else
      if f.selectLine then (.send 500 .failedToUpdate, t) else
      match t.cartLineOf userId productId with
      | some row =>
        if f.write then (.send 500 .failedToUpdate, t) else
        (updated, t.updateCartQuantityById (mysqlRound quantity) row.id)
      | none =>
        if f.write then (.send 500 .failedToUpdate, t) else
        (updated, t.insertCartItem insertId userId productId (mysqlRound quantity))

/-- The expression `req.params.id ? Number(req.params.id) : Number(req.body.id
|| 0)` of `CartController.update`. -/
def updateCartItemId (req : CartRequest) : Nat :=
  match req.paramsId with
  | some id => id
  | none => req.body.id

/-- The expression `Number(req.body.productId || req.body.product_id || 0)` of
`CartController.update`. -/
def updateProductId (body : CartBody) : Nat :=
  if body.productId ≠ 0 then body.productId else body.product_id

/-- The handler `CartController.update`. -/
def CartController.update (t : Tables) (req : CartRequest) (insertId : Nat)
    (f : UpdateFaults) : CartResponse × Tables :=
  let userId := uid req
  if userId = 0 then (.redirect "/login", t) else
  let cartItemId : Nat := updateCartItemId req
  let productIdFromBody : Nat := updateProductId req.body
  let quantity := updateQuantity req.body
  if cartItemId = 0 ∧ productIdFromBody = 0 then (.redirect "/cart", t) else
  if cartItemId ≠ 0 then
    if f.selectItem then (.send 500 .failedToUpdate, t) else
    match t.cartLineById cartItemId with
    | none => (sendError req.wantsJSON .cartItemNotFound 404, t)
    | some row =>
      if row.user_id ≠ userId then (sendError req.wantsJSON .cartItemNotFound 404, t)
      else performUpdateFor t req.wantsJSON userId quantity insertId f row.product_id row.id
  else performUpdateFor t req.wantsJSON userId quantity insertId f productIdFromBody 0

/-- The payload of `Cart.add`: `{ user_id | userId, product_id | productId,
quantity | qty }`; the positional form `add(userId, productId, quantity, cb)`
fills `user_id`, `product_id` and `quantity`. -/
structure CartAddData where
  user_id : Nat
  userId : Nat
  product_id : Nat
  productId : Nat
  quantity : BodyField
  qty : BodyField

/-- The expression `data.user_id || data.userId`. -/
def cartAddUserId (data : CartAddData) : Nat :=
  if data.user_id ≠ 0 then data.user_id else data.userId

/-- The expression `data.product_id || data.productId`. -/
def cartAddProductId (data : CartAddData) : Nat :=
  if data.product_id ≠ 0 then data.product_id else data.productId

/-- The expression `Math.max(1, Number(data.quantity || data.qty || 1))`. -/
def cartAddQuantity (data : CartAddData) : JsNumber :=
  let n : JsNumber :=
    if data.quantity.truthy then data.quantity.number
    else if data.qty.truthy then data.qty.number
    else .finite 1
  match n with
  | .finite q => .finite (max 1 q)
  | .nan => .nan
  | .posInf => .posInf
  | .negInf => .finite 1

/-- The statement `UPDATE cart_items SET quantity = quantity + ? WHERE user_id
= ? AND product_id = ?`: the tables after it and its `affectedRows`. -/
def Tables.addToCartQuantity (t : Tables) (quantity : ℚ) (userId productId : Nat) :
    Tables × Nat :=
  ({ t with cart_items := t.cart_items.map (fun ci =>
      if ci.user_id = userId ∧ ci.product_id = productId then
        { ci with quantity := mysqlRound ((ci.quantity : ℚ) + quantity) }
      else ci) },
    (t.cart_items.filter
      (fun ci => decide (ci.user_id = userId ∧ ci.product_id = productId))).length)

/-- The function `Cart.add` of the model: update the line if there is one,
insert it otherwise.  A parameter that is not finite is not a number literal
in the statement, which then fails. -/
def Cart.add (t : Tables) (data : CartAddData) (insertId : Nat)
    (updateFails insertFails : Bool) : Callback Nat × Tables :=
  let user_id := cartAddUserId data
  let product_id := cartAddProductId data
  if user_id = 0 ∨ product_id = 0 then (.error, t) else
  match cartAddQuantity data with
  | .finite quantity =>
    if updateFails then (.error, t) else
    let r := t.addToCartQuantity quantity user_id product_id
    if r.2 > 0 then (.result r.2, r.1) else
    if insertFails then (.error, t) else
    (.result 1, t.insertCartItem insertId user_id product_id (mysqlRound quantity))
  | _ => (.error, t)

/-- Every cart line holds a quantity of at least 1. -/
def QuantitiesPositive (t : Tables) : Prop :=
  ∀ line ∈ t.cart_items, 0 < line.quantity

/-- No statement of a cart handler fails. -/
def AddFaults.none : AddFaults := { selectProduct := false, selectCart := false, write := false }

/-- No statement of a cart update fails. -/
def UpdateFaults.none : UpdateFaults :=
  { selectItem := false, selectProduct := false, selectLine := false, write := false }

/-- The request `POST /cart/update/:id` of user `userId` for cart line `id`,
with the form field `quantity` given by `quantity`. -/
def updateRequestOf (userId id : Nat) (quantity : BodyField) : CartRequest :=
  { session := some { user := some { id := userId, role := "user" }, userId := some userId },
    paramsId := some id,
    body := { id := 0, productId := 0, product_id := 0, quantity := quantity,
              qty := BodyField.absent },
    wantsJSON := true, referer := none }

/-- The form value `"0.4"`. -/
def fieldPointFour : BodyField :=
  { truthy := true, number := .finite (2 / 5), parseInt10 := some 0 }

/-- The form value `"0"`. -/
def fieldZero : BodyField :=
  { truthy := true, number := .finite 0, parseInt10 := some 0 }

/-- User 1 holds cart line 1: 2 of product 1 (stock 5). -/
def oneLine : Tables :=
  { orders := [], order_items := [], products := productsOf [(1, ⟨"A", 5, 1000⟩)],
    cart_items := [⟨1, 1, 1, 2⟩] }

/-- User 1 holds cart line 1 for product 99, which has no row, and cart line 2
for product 1. -/
def danglingLine : Tables :=
  { orders := [], order_items := [], products := productsOf [(1, ⟨"A", 5, 1000⟩)],
    cart_items := [⟨1, 1, 99, 2⟩, ⟨2, 1, 1, 1⟩] }

/-! ## Editing a product and showing a receipt -/

/-- What MySQL stores in a price column with two decimals, in minor units. -/
def priceColumn (q : ℚ) : Int :=
  mysqlRound (q * 100)

/-- The result of `normalize(data)` in `models/Product.js`, before the checks:
the trimmed `productName`, `parseFloat(data.price)` and `parseInt(data.quantity,
10)` (`none` for `NaN`).  The `image` column is not part of the rows modelled
here. -/
structure ProductData where
  productName : String
  price : JsNumber
  quantity : Option Int

/-- The statement `UPDATE products SET productName = ?, quantity = ?, price = ?
... WHERE id = ?`: the tables after it and its `affectedRows`. -/
def Tables.updateProductSql (t : Tables) (id : Nat) (row : Product) : Tables × Nat :=
  match t.products id with
  | some _ => (t.setProduct id row, 1)
  | none => (t, 0)

/-- The function `Product.update(id, data, cb)`: an empty name or a price that
is not finite is an error; the quantity is 0 when it does not parse. -/
def Product.update (t : Tables) (id : Nat) (data : ProductData) (queryFails : Bool) :
    Callback Nat × Tables :=
  match data.price with
  | .finite price =>
    if data.productName = "" then (.error, t) else
    if queryFails then (.error, t) else
    let res := t.updateProductSql id
      { productName := data.productName, quantity := data.quantity.getD 0,
        price := priceColumn price }
    (.result res.2, res.1)
  | _ => (.error, t)

/-- The fields of the edit form as MySQL reads them from the submitted text. -/
structure AdminUpdateBody where
  productName : String
  price : ℚ
  quantity : ℚ

/-- What `adminUpdate` answers: a flash message, then a redirect to
`/admin/inventory`. -/
inductive AdminResponse
  /-- The flash `('error', 'Failed to update product')`. -/
  | failed
  /-- The flash `('success', 'Product updated')`. -/
  | updated
  deriving DecidableEq, Repr

/-- The handler `ProductController.adminUpdate`: one `UPDATE products SET
productName = ?, quantity = ?, price = ?, image = ?, category_id = ? WHERE id =
?` with the submitted values; the lookup of the category and the columns
`image` and `category_id` lie outside the tables modelled here. -/
def ProductController.adminUpdate (t : Tables) (id : Nat) (body : AdminUpdateBody)
    (queryFails : Bool) : AdminResponse × Tables :=
  if queryFails then (.failed, t) else
  (.updated,
    (t.updateProductSql id
      { productName := body.productName, quantity := mysqlRound body.quantity,
        price := priceColumn body.price }).1)

/-- A row of the receipt's `itemsSql` result. -/
structure ReceiptItem where
  product_id : Nat
  quantity : Int
  price : Int
  productName : Option String
  deriving DecidableEq, Repr

/-- The query `SELECT oi.id, oi.product_id, oi.quantity, oi.price, p.productName
FROM order_items oi LEFT JOIN products p ON p.id = oi.product_id WHERE
oi.order_id = ?`. -/
def itemsSql (t : Tables) (orderId : Nat) : List ReceiptItem :=
  (t.order_items.filter (fun oi => decide (oi.order_id = orderId))).map (fun oi =>
    { product_id := oi.product_id, quantity := oi.quantity, price := oi.price,
      productName := (t.products oi.product_id).map (fun p => p.productName) })

/-- What `showReceipt` answers. -/
inductive ReceiptResponse
  /-- The call `res.redirect('/login')`. -/
  | redirectLogin
  /-- The call `res.status(status).send(text)`. -/
  | send (status : Nat) (text : String)
  /-- The call `res.render('receipt', { orderId, createdAt, items, totalAmount })`. -/
  | render (orderId createdAt : Nat) (items : List ReceiptItem) (totalAmount : Int)
  deriving DecidableEq, Repr

/-- The prices a receipt shows, in item order (none when nothing is rendered). -/
def ReceiptResponse.prices : ReceiptResponse → List Int
  | .render _ _ items _ => items.map (fun item => item.price)
  | _ => []

/-- Which queries of one `showReceipt` call fail. -/
structure ReceiptFaults where
  selectOrder : Bool
  selectItems : Bool

/-- The expression `(req.session && req.session.userId) || (sessionUser &&
sessionUser.id) || null` of `showReceipt`, with `0` for `null`. -/
def receiptUserId (req : Request) : Nat :=
  let fromSession : Nat := (req.session.bind (fun s => s.userId)).getD 0
  if fromSession ≠ 0 then fromSession
  else ((req.session.bind (fun s => s.user)).map (fun u => u.id)).getD 0

/-- The test `req.session.user && req.session.user.role === 'admin'`. -/
def sessionIsAdmin (req : Request) : Bool :=
  match req.session.bind (fun s => s.user) with
  | some u => decide (u.role = "admin")
  | none => false

/-- The handler `OrderController.showReceipt` for `req.params.id = orderId`. -/
def showReceipt (t : Tables) (req : Request) (orderId : Nat) (f : ReceiptFaults) :
    ReceiptResponse :=
  let userId := receiptUserId req
  if userId = 0 then .redirectLogin else
  if f.selectOrder then .send 500 "Failed to load order" else
  match t.orders.find? (fun o => decide (o.id = orderId)) with
  | none => .send 404 "Order not found"
  | some order =>
    if order.user_id ≠ userId ∧ sessionIsAdmin req = false then .send 403 "Forbidden" else
    if f.selectItems then .send 500 "Failed to load order items" else
    .render order.id order.createdAt (itemsSql t orderId) order.totalAmount

/-! ## The statements that create an order header -/

/-- An `INSERT INTO orders` statement: the columns it names with the values it
gives them; a column the statement does not name is `none`. -/
structure OrderInsert where
  user_id : Nat
  totalAmount : Double
  orderDate : Option Nat
  status : Option String
  createdAt : Option Nat
  address : Option String
  deriving DecidableEq, Repr

/-- The insert of `CartController.confirmPayment`: `INSERT INTO orders (user_id,
totalAmount, status, createdAt) VALUES (?, ?, ?, NOW())` with the parameters
`[userId, total, 'Pending']`. -/
def confirmPaymentOrderInsert (userId : Nat) (total : Double) (now : Nat) : OrderInsert :=
  { user_id := userId, totalAmount := total, orderDate := none,
    status := some "Pending", createdAt := some now, address := none }

/-- The insert of `OrderController.placeOrder`, taken when `Order.create` is
not exported: `INSERT INTO orders (user_id, totalAmount, createdAt) VALUES (?,
?, ?)` with `createdAt = new Date()`. -/
def placeOrderInsert (userId : Nat) (total : Double) (createdAt : Nat) : OrderInsert :=
  { user_id := userId, totalAmount := total, orderDate := none,
    status := none, createdAt := some createdAt, address := none }

/-- The payload of the model's `Order.create`; an absent field is `0`, `""` or
`none`. -/
structure OrderPayload where
  userId : Nat
  user_id : Nat
  totalAmount : Option Double
  total : Double
  address : String
  status : String
  createdAt : Option Nat

/-- The function `normalize(payload)` of `models/Order.js`, with `now` for
`new Date()`. -/
def Order.normalize (payload : OrderPayload) (now : Nat) : OrderInsert :=
  { user_id := if payload.userId ≠ 0 then payload.userId else payload.user_id,
    totalAmount :=
      match payload.totalAmount with
      | some amount => amount
      | none => payload.total,
    orderDate := none,
    status := some (if payload.status ≠ "" then payload.status else "pending"),
    createdAt := some (payload.createdAt.getD now),
    address := some payload.address }

/-- The function `create(data, cb)` of `models/Order.js`: the statement it
issues, `INSERT INTO orders (user_id, totalAmount, address, status, createdAt)
VALUES (?, ?, ?, ?, ?)`, or `none` when it calls back with 'Missing user_id'. -/
def Order.create (payload : OrderPayload) (now : Nat) : Option OrderInsert :=
  let p := Order.normalize payload now
  if p.user_id = 0 then none else some p

/-- A payload for user 1 and an amount of 23.50 with the given status. -/
def payloadWithStatus (status : String) : OrderPayload :=
  { userId := 1, user_id := 0, totalAmount := some (Double.ofCents 2350), total := ⟨0, 0⟩,
    address := "", status := status, createdAt := none }

/-- Order 1 of user 1 with one line: 2 of product 1 at 10.00; product 1 now
costs 12.00. -/
def orderedOnce : Tables :=
  { orders := [⟨1, 1, 7, 2000, "Pending", 7⟩], order_items := [⟨1, 1, 2, 1000, 7⟩],
    products := productsOf [(1, ⟨"A", 3, 1200⟩)], cart_items := [] }

/-! ## `models/Order.js`: what the module exports -/

/-- The functions `models/Order.js` defines; `createDirect` is the function
assigned to `module.exports.create` after the first export object. -/
inductive OrderFn
  | create
  | getById
  | getAll
  | getByUser
  | updateById
  | deleteById
  | createDirect
  | updateStatus
  deriving DecidableEq, Repr

/-- A statement of the module that writes `module.exports`. -/
inductive ExportStatement
  /-- The assignment `module.exports = { ... }`. -/
  | assign (object : List (String × OrderFn))
  /-- The assignment `module.exports.name = fn`. -/
  | setProperty (name : String) (fn : OrderFn)

/-- The export object after one more statement. -/
def ExportStatement.run (exports : List (String × OrderFn)) :
    ExportStatement → List (String × OrderFn)
  | .assign object => object
  | .setProperty name fn => (name, fn) :: exports.filter (fun entry => entry.1 ≠ name)

/-- The three statements of `models/Order.js` that write `module.exports`, in
source order: the export object with all aliases, the replacement of `create`,
and the final export object. -/
def orderModuleStatements : List ExportStatement :=
  [ .assign
      [ ("create", .create), ("add", .create), ("insert", .create), ("placeOrder", .create),
        ("getById", .getById), ("findById", .getById), ("findOne", .getById),
        ("getOne", .getById),
        ("getAll", .getAll), ("findAll", .getAll), ("list", .getAll), ("all", .getAll),
        ("getByUser", .getByUser), ("findByUser", .getByUser), ("listByUser", .getByUser),
        ("findAllByUser", .getByUser),
        ("updateById", .updateById), ("update", .updateById), ("updateOrder", .updateById),
        ("save", .updateById),
        ("deleteById", .deleteById), ("delete", .deleteById), ("remove", .deleteById),
        ("del", .deleteById), ("destroy", .deleteById) ],
    .setProperty "create" .createDirect,
    .assign [("getAll", .getAll), ("updateStatus", .updateStatus)] ]

/-- The object `require('../models/Order')` yields. -/
def orderExports : List (String × OrderFn) :=
  orderModuleStatements.foldl (fun exports statement => statement.run exports) []

/-- The helper `pick(obj, ...names)` of `OrderController.js`: the first of the
names that `obj` holds a function under, bound, or `null`. -/
def pick (obj : List (String × OrderFn)) : List String → Option OrderFn
  | [] => none
  | name :: rest =>
    match obj.lookup name with
    | some fn => some fn
    | none => pick obj rest

/-- The binding `orderCreate`. -/
def orderCreate (order : List (String × OrderFn)) : Option OrderFn :=
  pick order ["create", "add", "insert", "placeOrder"]

/-- The binding `orderGetById`. -/
def orderGetById (order : List (String × OrderFn)) : Option OrderFn :=
  pick order ["getById", "findById", "findOne", "getOne"]

/-- The binding `orderListByUser`. -/
def orderListByUser (order : List (String × OrderFn)) : Option OrderFn :=
  pick order ["getByUser", "findByUser", "listByUser", "findAllByUser"]

/-- What `orderHistory` and `viewOrder` answer, both in JSON. -/
inductive OrderJsonResponse
  /-- The call `res.status(status).json({ error })`. -/
  | error (status : Nat) (message : String)
  /-- The call `res.json({ orders })`. -/
  | orders (rows : List Order)
  /-- The call `res.json({ order })`. -/
  | order (row : Order)
  deriving DecidableEq, Repr

/-- The query `SELECT * FROM orders WHERE user_id = ? ORDER BY id DESC` of
`getByUser`. -/
def ordersOfUser (t : Tables) (userId : Nat) : List Order :=
  (t.orders.filter (fun o => decide (o.user_id = userId))).insertionSort
    (fun a b => a.id ≥ b.id)

/-- The handler `OrderController.orderHistory`, over the export object of the
Order model. -/
def orderHistory (order : List (String × OrderFn)) (t : Tables) (req : Request)
    (queryFails : Bool) : OrderJsonResponse :=
  match req.session.bind (fun s => s.user) with
  | none => .error 401 "Not authenticated"
  | some user =>
    match orderListByUser order with
    | none => .error 501 "Order.getByUser not implemented"
    | some _ =>
      if queryFails then .error 500 "Failed to load orders"
      else .orders (ordersOfUser t user.id)

/-- The handler `OrderController.viewOrder` for `req.params.id = orderId`.  The
row of `SELECT *` has a `user_id` column and no `userId`, so the test on
`order.userId` never forbids. -/
def viewOrder (order : List (String × OrderFn)) (t : Tables) (req : Request) (orderId : Nat)
    (queryFails : Bool) : OrderJsonResponse :=
  match req.session.bind (fun s => s.user) with
  | none => .error 401 "Not authenticated"
  | some _ =>
    match orderGetById order with
    | none => .error 501 "Order.getById not implemented"
    | some _ =>
      if queryFails then .error 500 "Failed to load order" else
      match t.orders.find? (fun o => decide (o.id = orderId)) with
      | none => .error 404 "Order not found"
      | some row => .order row

/-! ## `OrderController.placeOrder` -/

/-- The values the `orders` table gives the columns an insert does not name.
The schema is not part of the sources, so they are a parameter. -/
structure OrderColumnDefaults where
  status : String
  orderDate : Nat
  createdAt : Nat

/-- An `INSERT INTO orders` run on the connection: the new row takes the next
`AUTO_INCREMENT` id and the column defaults where the statement names no
column. -/
def Db.runOrderInsert (db : Db) (statement : OrderInsert) (defaults : OrderColumnDefaults) :
    Db :=
  { db with
    tables := { db.tables with
      orders := db.tables.orders ++
        [{ id := db.nextOrderId, user_id := statement.user_id,
           orderDate := statement.orderDate.getD defaults.orderDate,
           totalAmount := amountColumn statement.totalAmount,
           status := statement.status.getD defaults.status,
           createdAt := statement.createdAt.getD defaults.createdAt }] }
    nextOrderId := db.nextOrderId + 1 }

/-- A row of `Cart.getByUser`: `SELECT ci.id, ci.user_id, ci.product_id,
ci.quantity, p.* FROM cart_items ci JOIN products p ON p.id = ci.product_id
WHERE ci.user_id = ? ORDER BY ci.id DESC`.  The driver keeps the last of two
columns with the same name, so `id` and `quantity` hold the product's id and
stock, not the cart line's. -/
structure CartViewRow where
  id : Nat
  user_id : Nat
  product_id : Nat
  quantity : Int
  productName : String
  price : Int
  deriving DecidableEq, Repr

/-- The function `Cart.getByUser`. -/
def Cart.getByUser (t : Tables) (userId : Nat) : List CartViewRow :=
  ((t.cart_items.filter (fun ci => decide (ci.user_id = userId))).insertionSort
      (fun a b => a.id ≥ b.id)).filterMap (fun ci =>
    match t.products ci.product_id with
    | some p =>
      some { id := ci.product_id, user_id := ci.user_id, product_id := ci.product_id,
             quantity := p.quantity, productName := p.productName, price := p.price }
    | none => none)

/-- The result of `normalize(payload)` in `models/Order_Item.js` for the
payload `placeOrder` builds from a cart row: `quantity: it.quantity || it.qty
|| 1`, `price: it.price || it.unitPrice || 0`. -/
def placeOrderItem (orderId now : Nat) (it : CartViewRow) : OrderItem :=
  { order_id := orderId, product_id := it.product_id,
    quantity := numberOr0 (if it.quantity = 0 then 1 else it.quantity),
    price := numberOr0 it.price, createdAt := now }

/-- Which queries of one `placeOrder` call fail; `insertItem i` is the insert
of the `i`-th order line. -/
structure PlaceOrderFaults where
  loadCart : Bool
  insertOrder : Bool
  insertItem : Nat → Bool
  clearCart : Bool

/-- No query of `placeOrder` fails. -/
def PlaceOrderFaults.none : PlaceOrderFaults :=
  { loadCart := false, insertOrder := false, insertItem := fun _ => false,
    clearCart := false }

/-- What `placeOrder` answers. -/
inductive PlaceOrderResponse
  /-- The call `res.redirect('/login')`. -/
  | redirectLogin
  /-- The call `res.status(status).send(text)`. -/
  | send (status : Nat) (text : String)
  /-- The flash 'Your cart is empty' and the redirect to `/cart`. -/
  | emptyCart
  /-- The call `res.redirect('/orders/receipt/' + orderId)`. -/
  | redirectReceipt (orderId : Nat)
  deriving DecidableEq, Repr

/-- The reduction `items.reduce((s, it) => s + (Number(it.price || 0) *
Number(it.quantity || it.qty || 0)), 0)`. -/
def placeOrderTotal (items : List CartViewRow) : Double :=
  items.foldl (fun s it =>
    s.add ((Double.ofCents (numberOr0 it.price)).mul (Double.ofInt (numberOr0 it.quantity))))
    ⟨0, 0⟩

/-- The `forEach` of `proceedInsertItems`: one `OrderItem.create` per cart
row, from row index `i` on; a line without order id or product id is refused
by the model, a failed insert is logged, and either way the loop goes on. -/
def insertOrderItems (fails : Nat → Bool) (orderId now : Nat) :
    Nat → List CartViewRow → Tables → Tables
  | _, [], t => t
  | i, it :: rest, t =>
    if orderId = 0 ∨ it.product_id = 0 ∨ fails i then
      insertOrderItems fails orderId now (i + 1) rest t
    else
      insertOrderItems fails orderId now (i + 1) rest
        { t with order_items := t.order_items ++ [placeOrderItem orderId now it] }

/-- The statement by which `placeOrder` creates the order: the direct insert
when the Order model exports no `create`, otherwise what the exported function
issues for `{ userId, totalAmount, createdAt }` (`none`: it calls back with an
error). -/
def placeOrderStatement (order : List (String × OrderFn)) (userId : Nat) (total : Double)
    (createdAt : Nat) : Option OrderInsert :=
  match order.lookup "create" with
  | none => some (placeOrderInsert userId total createdAt)
  | some .create =>
    Order.create
      { userId := userId, user_id := 0, totalAmount := some total, total := ⟨0, 0⟩,
        address := "", status := "", createdAt := some createdAt } createdAt
  | some .createDirect => some (placeOrderInsert userId total createdAt)
  | some _ => Option.none

/-- The function `finish` of `placeOrder`: clear the cart, then redirect to the
receipt whether or not the delete failed. -/
def placeOrderFinish (db : Db) (userId orderId : Nat) (clearFails : Bool) :
    PlaceOrderResponse × Db :=
  (.redirectReceipt orderId,
    if clearFails then db else { db with tables := db.tables.deleteCart userId })

/-- The handler `OrderController.placeOrder`, over the export object of the
Order model; `now` is `new Date()`.  It opens no transaction: every statement
takes effect on the connection at once. -/
def placeOrder (order : List (String × OrderFn)) (defaults : OrderColumnDefaults) (db : Db)
    (req : Request) (now : Nat) (f : PlaceOrderFaults) : PlaceOrderResponse × Db :=
  let userId := receiptUserId req
  if userId = 0 then (.redirectLogin, db) else
  if f.loadCart then (.send 500 "Failed to load cart", db) else
  let items := Cart.getByUser db.tables userId
  if items.length = 0 then (.emptyCart, db) else
  let total := placeOrderTotal items
  if f.insertOrder then (.send 500 "Failed to create order", db) else
  match placeOrderStatement order userId total now with
  | none => (.send 500 "Failed to create order", db)
  | some statement =>
    let orderId := db.nextOrderId
    let db1 := db.runOrderInsert statement defaults
    let db2 : Db :=
      { db1 with tables := insertOrderItems f.insertItem orderId now 0 items db1.tables }
    placeOrderFinish db2 userId orderId f.clearCart

/-- Column defaults used in the examples. -/
def sampleDefaults : OrderColumnDefaults :=
  { status := "Pending", orderDate := 0, createdAt := 0 }

/-- A request whose session holds only a user object with the given id. -/
def requestOfUserObject (id : Nat) : Request :=
  { session := some { user := some { id := id, role := "user" }, userId := none } }

/-- Every order-line insert of `placeOrder` fails, nothing else does. -/
def itemInsertsFail : PlaceOrderFaults :=
  { loadCart := false, insertOrder := false, insertItem := fun _ => true,
    clearCart := false }

/-! ## `ProductController.decrementStockUsingConn` -/

/-- An element `{ productId, quantity }` of the `items` argument; an absent
field is `0`.  Quantities are whole numbers, as `confirmPayment` reads them
from the integer column of `cart_items`. -/
structure DecrementItem where
  productId : Nat
  quantity : Int
  deriving DecidableEq, Repr

/-- What `decrementStockUsingConn` passes to its callback. -/
inductive DecrementOutcome
  /-- The call `cb(null)`. -/
  | done
  /-- The call `cb(err)` with the error of a failed query. -/
  | queryError
  /-- The call `cb(new Error('Insufficient stock for product id ' + pid))`. -/
  | insufficientStock (pid : Nat)
  deriving DecidableEq, Repr

/-- The list `items.filter(it => it && Number(it.quantity) > 0 &&
Number(it.productId))`. -/
def decrementable (items : List DecrementItem) : List DecrementItem :=
  items.filter (fun it => decide (0 < it.quantity) && decide (it.productId ≠ 0))

/-- The closure `next` of `decrementStockUsingConn`, about to take item number
`i`: one `UPDATE products SET quantity = quantity - ? WHERE id = ? AND
quantity >= ?` per item, each issued from the callback of the one before; a
failed query and an update with `affectedRows` 0 end the loop with an error.
`fails i` says that the query of item `i` fails. -/
def decrementNext (fails : Nat → Bool) :
    Nat → List DecrementItem → Tables → DecrementOutcome × Tables
  | _, [], t => (.done, t)
  | i, it :: rest, t =>
    if it.productId = 0 ∨ numberOr0 it.quantity ≤ 0 then
      decrementNext fails (i + 1) rest t
    else if fails i then (.queryError, t)
    else if (t.reduceStockSql (numberOr0 it.quantity) it.productId
        (numberOr0 it.quantity)).2 = 0 then
      (.insufficientStock it.productId,
        (t.reduceStockSql (numberOr0 it.quantity) it.productId (numberOr0 it.quantity)).1)
    else
      decrementNext fails (i + 1) rest
        (t.reduceStockSql (numberOr0 it.quantity) it.productId (numberOr0 it.quantity)).1

/-- The function `ProductController.decrementStockUsingConn(conn, items, cb)`
on the shared connection: what the callback receives and the tables then. -/
def decrementStockUsingConn (t : Tables) (items : List DecrementItem) (fails : Nat → Bool) :
    DecrementOutcome × Tables :=
  decrementNext fails 0 (decrementable items) t

/-- The quantity the items ask of product `pid` in total. -/
def demandOf (pid : Nat) (items : List DecrementItem) : Int :=
  ((items.filter (fun it => decide (it.productId = pid))).map (fun it => it.quantity)).sum

/-- The products table with every product's stock lowered by what the items
ask of it. -/
def productsLess (products : Nat → Option Product) (items : List DecrementItem) :
    Nat → Option Product :=
  fun id => (products id).map (fun p => { p with quantity := p.quantity - demandOf id items })

/-- Item `it`, number `k` of `items`, finds less stock than its quantity at
its turn: its product has a row, and the stock of that row in `t` less what
the `k` items before it took is below the item's quantity. -/
def ShortAtTurn (t : Tables) (items : List DecrementItem) (k : Nat) (it : DecrementItem) :
    Prop :=
  ∃ p : Product, t.products it.productId = some p ∧
    p.quantity - demandOf it.productId (items.take k) < it.quantity

/-! ## `CartController.confirmPayment` -/

/-- A row of `confirmPayment`'s cart query. -/
structure PayRow where
  cart_id : Nat
  product_id : Nat
  quantity : Int
  unit_price : Int
  product_name : String
  stock : Int
  deriving DecidableEq, Repr

/-- The query `SELECT ci.id AS cart_id, ci.product_id, ci.quantity, p.price AS
unit_price, p.productName AS product_name, p.quantity AS stock FROM cart_items
ci JOIN products p ON p.id = ci.product_id WHERE ci.user_id = ? FOR UPDATE`. -/
def payCartSql (t : Tables) (userId : Nat) : List PayRow :=
  (t.cart_items.filter (fun ci => decide (ci.user_id = userId))).filterMap (fun ci =>
    match t.products ci.product_id with
    | some p =>
      some { cart_id := ci.id, product_id := ci.product_id, quantity := ci.quantity,
             unit_price := p.price, product_name := p.productName, stock := p.quantity }
    | none => none)

/-- The `error` text `confirmPayment` renders the cart with. -/
inductive PayMessage
  | text (message : String)
  /-- The text 'Cannot checkout. "NAME" only has N available.' -/
  | onlyHas (product_name : String) (avail : Int)
  deriving DecidableEq, Repr

/-- What `confirmPayment` answers. -/
inductive PayResponse
  /-- The call `res.redirect('/login')`. -/
  | redirectLogin
  /-- The call `res.status(status).render('cart', { error, items: [],
  cartItems: [], total: 0 })`. -/
  | renderCart (status : Nat) (error : PayMessage)
  /-- The call `res.redirect('/cart')`. -/
  | redirectCart
  /-- The call `res.redirect('/orders/' + orderId + '/receipt')`. -/
  | redirectReceipt (orderId : Nat)
  deriving DecidableEq, Repr

/-- Which steps of one `confirmPayment` call fail for a reason of their own;
`decrement i` is the update of item `i` in `decrementStockUsingConn`. -/
structure PayFaults where
  getConnection : Bool
  begin : Bool
  loadCart : Bool
  insertOrder : Bool
  insertItems : Bool
  decrement : Nat → Bool

/-- No step fails for a reason of its own. -/
def PayFaults.none : PayFaults :=
  { getConnection := false, begin := false, loadCart := false, insertOrder := false,
    insertItems := false, decrement := fun _ => false }

/-- A value in the `VALUES` list of an insert. -/
inductive SqlValue
  | number (value : Int)
  /-- The expression `NOW()`. -/
  | now
  deriving DecidableEq, Repr

/-- An `INSERT INTO order_items (columns) VALUES tuple, tuple, ...`. -/
structure ItemsInsert where
  columns : List String
  tuples : List (List SqlValue)
  deriving DecidableEq, Repr

/-- The row an accepted tuple stores: each named column takes the value at its
position. -/
def ItemsInsert.row (columns : List String) (now : Nat) (tuple : List SqlValue) : OrderItem :=
  let cell : String → Int := fun name =>
    match (columns.zip tuple).lookup name with
    | some (.number value) => value
    | some .now => now
    | none => 0
  { order_id := (cell "order_id").toNat, product_id := (cell "product_id").toNat,
    quantity := cell "quantity", price := cell "price",
    createdAt := (cell "createdAt").toNat }

/-- Running an `order_items` insert: MySQL rejects the whole statement when a
tuple does not hold one value per named column (error 1136, 'Column count
doesn't match value count'); `none` is a failed query. -/
def Db.runItemsInsert (db : Db) (statement : ItemsInsert) (now : Nat) (fails : Bool) :
    Option Db :=
  if fails then none
  else if statement.tuples.all (fun tuple => tuple.length == statement.columns.length) then
    some (db.insertOrderItems (statement.tuples.map (ItemsInsert.row statement.columns now)))
  else none

/-- The batch insert of `confirmPayment`: `INSERT INTO order_items (order_id,
product_id, quantity, price, createdAt) VALUES (?, ?, ?, ?), ...` with the
values `[orderId, r.product_id, r.quantity, Number(r.unit_price || 0)]` per
cart row: five columns, four values per tuple. -/
def confirmPaymentItemsInsert (orderId : Nat) (cartRows : List PayRow) : ItemsInsert :=
  { columns := ["order_id", "product_id", "quantity", "price", "createdAt"],
    tuples := cartRows.map (fun r =>
      [.number orderId, .number r.product_id, .number r.quantity,
       .number (numberOr0 r.unit_price)]) }

/-- The closure `rollbackFail(message)`: roll back, then render the cart with
status 400. -/
def rollbackFail (db : Db) (message : PayMessage) : PayResponse × Db :=
  (.renderCart 400 message, db.rollback)

/-- The closure `finalize`: its whole body is `return res.redirect('/orders/' +
orderId + '/receipt')`. -/
def finalize (db : Db) (orderId : Nat) : PayResponse × Db :=
  (.redirectReceipt orderId, db)

/-- The list `itemsToDecrement`: `{ productId: Number(r.product_id ||
r.productId || r.id), quantity: Number(r.quantity || r.qty || 0) }` per cart
row, filtered by `Number.isFinite(it.productId) && it.productId > 0 &&
it.quantity > 0`. -/
def itemsToDecrement (cartRows : List PayRow) : List DecrementItem :=
  (cartRows.map (fun r =>
    ({ productId := r.product_id, quantity := numberOr0 r.quantity } : DecrementItem))).filter
    (fun it => decide (it.productId > 0) && decide (it.quantity > 0))

/-- The callback of the `order_items` insert when the insert reported no error:
decrement the stock, then `finalize`. -/
def afterItemsInsert (db : Db) (orderId : Nat) (cartRows : List PayRow)
    (fails : Nat → Bool) : PayResponse × Db :=
  if (itemsToDecrement cartRows).length = 0 then finalize db orderId else
  match (decrementStockUsingConn db.tables (itemsToDecrement cartRows) fails).1 with
  | .done =>
    finalize
      { db with tables := (decrementStockUsingConn db.tables (itemsToDecrement cartRows) fails).2 }
      orderId
  | _ =>
    rollbackFail
      { db with tables := (decrementStockUsingConn db.tables (itemsToDecrement cartRows) fails).2 }
      (.text "Failed to decrement product stock")

/-- The handler `CartController.confirmPayment`.  The map `agg` it computes is
not read afterwards. -/
def confirmPayment (defaults : OrderColumnDefaults) (db : Db) (req : CartRequest) (now : Nat)
    (f : PayFaults) : PayResponse × Db :=
  if uid req = 0 then (.redirectLogin, db) else
  if f.getConnection then (.renderCart 500 (.text "Failed to start DB transaction"), db) else
  if f.begin then (.renderCart 500 (.text "Transaction start failed"), db) else
  if f.loadCart then rollbackFail db.beginTransaction (.text "Failed to read cart") else
  if (payCartSql db.tables (uid req)).length = 0 then
    (.redirectCart, db.beginTransaction.rollback)
  else
  match (payCartSql db.tables (uid req)).find?
      (fun r => decide (numberOr0 r.quantity > numberOr0 r.stock)) with
  | some r => rollbackFail db.beginTransaction (.onlyHas r.product_name (numberOr0 r.stock))
  | none =>
    if f.insertOrder then rollbackFail db.beginTransaction (.text "Failed to create order")
    else
    match (db.beginTransaction.runOrderInsert
        (confirmPaymentOrderInsert (uid req)
          ((payCartSql db.tables (uid req)).foldl
            (fun s r => s.add ((Double.ofCents (numberOr0 r.unit_price)).mul
              (Double.ofInt (numberOr0 r.quantity)))) ⟨0, 0⟩) now)
        defaults).runItemsInsert
        (confirmPaymentItemsInsert db.nextOrderId (payCartSql db.tables (uid req))) now
        f.insertItems with
    | none =>
      rollbackFail
        (db.beginTransaction.runOrderInsert
          (confirmPaymentOrderInsert (uid req)
            ((payCartSql db.tables (uid req)).foldl
              (fun s r => s.add ((Double.ofCents (numberOr0 r.unit_price)).mul
                (Double.ofInt (numberOr0 r.quantity)))) ⟨0, 0⟩) now)
          defaults)
        (.text "Failed to create order items")
    | some inserted =>
      afterItemsInsert inserted db.nextOrderId (payCartSql db.tables (uid req)) f.decrement

/-- The connection after `confirmPayment` of user 1 on scenario 1 has begun its
transaction and the order and its two lines have been inserted. -/
def paidScenario1 : Db :=
  ((scenario1.beginTransaction.runOrderInsert
      (confirmPaymentOrderInsert 1 (Double.ofCents 2350) 7)
    sampleDefaults).insertOrderItems [⟨1, 1, 2, 1000, 7⟩, ⟨1, 2, 1, 350, 7⟩])

/-! ## `OrderController.details` -/

/-- What `details` does in the end. -/
inductive DetailsResponse
  /-- The call `res.redirect('/login')`. -/
  | redirectLogin
  /-- The call `res.status(status).send(text)`. -/
  | send (status : Nat) (text : String)
  /-- The call `res.render('receipt', ...)` with the order and its items. -/
  | render (order : Order) (items : List ReceiptItem)
  /-- An uncaught `ReferenceError: NAME is not defined`, thrown inside the
  query callback; no response is sent. -/
  | referenceError (name : String)
  deriving DecidableEq, Repr

/-- The names bound where `details` builds the object for the view: the
parameters and constants of `details` and of its two callbacks, the top-level
bindings of `OrderController.js`, and the names every module has. -/
def detailsScope : List String :=
  ["req", "res", "sessionUser", "userId", "orderId", "err", "rows", "order", "itemsSql",
   "iErr", "itemRows", "items",
   "Order", "OrderItem", "Cart", "db", "unwrap", "pick", "orderCreate", "orderGetById",
   "orderListByUser", "orderListAll", "orderUpdateById", "cartGetByUser", "cartClearByUser",
   "orderItemCreate", "placeOrder", "orderHistory", "viewOrder", "adminOrdersPage",
   "adminUpdateOrderStatus", "checkout", "showReceipt", "history", "orderHistoryPage",
   "details",
   "exports", "require", "module", "__filename", "__dirname"]

/-- The identifiers the object literal `{ order: orderRow, items: orderItems,
total: totalAmount, user: req.session.user }` reads, in the order it evaluates
them. -/
def detailsLocals : List String := ["orderRow", "orderItems", "totalAmount", "req"]

/-- The handler `OrderController.details` for `req.params.id = orderId`. -/
def details (t : Tables) (req : Request) (orderId : Nat) (f : ReceiptFaults) :
    DetailsResponse :=
  if receiptUserId req = 0 then .redirectLogin else
  if f.selectOrder then .send 500 "Failed to load order" else
  match t.orders.find? (fun o => decide (o.id = orderId)) with
  | none => .send 404 "Order not found"
  | some order =>
    if order.user_id ≠ receiptUserId req ∧ sessionIsAdmin req = false then
      .send 403 "Forbidden"
    else
    if f.selectItems then .send 500 "Failed to load order items" else
    match detailsLocals.find? (fun name => !detailsScope.contains name) with
    | some name => .referenceError name
    | none => .render order (itemsSql t orderId)

/-! ## `models/Cart.js`: `checkout` -/

/-- A row of the select of the model's `checkout`. -/
structure ModelCartRow where
  product_id : Nat
  cartQty : Int
  productName : String
  stock : Int
  price : Int
  deriving DecidableEq, Repr

/-- The query `SELECT ci.product_id, ci.quantity AS cartQty, p.productName,
p.quantity AS stock, p.price FROM cart_items ci JOIN products p ON p.id =
ci.product_id WHERE ci.user_id = ? FOR UPDATE`. -/
def selectSql (t : Tables) (user_id : Nat) : List ModelCartRow :=
  (t.cart_items.filter (fun ci => decide (ci.user_id = user_id))).filterMap (fun ci =>
    match t.products ci.product_id with
    | some p =>
      some { product_id := ci.product_id, cartQty := ci.quantity,
             productName := p.productName, stock := p.quantity, price := p.price }
    | none => none)

/-- An element of `e.items` of the `INSUFFICIENT_STOCK` error. -/
structure InsufficientItem where
  product_id : Nat
  name : String
  requested : Int
  available : Int
  deriving DecidableEq, Repr

/-- What the model's `checkout` passes to its callback. -/
inductive ModelCheckoutResult
  /-- The call `cb(err)` with the error of the connection or of a query. -/
  | error
  /-- The call `cb(e)` with `e.code = 'INSUFFICIENT_STOCK'` and `e.items`. -/
  | insufficientStock (items : List InsufficientItem)
  /-- The call `cb(null, { count, total, items })`. -/
  | result (count : Nat) (total : Double) (items : List ModelCartRow)
  /-- The call `cb(e2, { count, total, items })` with the error of the commit. -/
  | commitError (count : Nat) (total : Double) (items : List ModelCartRow)
  deriving DecidableEq, Repr

/-- Which steps of one call of the model's `checkout` fail; `update i` is the
`UPDATE products` of row `i`. -/
structure ModelCheckoutFaults where
  getConn : Bool
  begin : Bool
  select : Bool
  update : Nat → Bool
  delete : Bool
  commit : Bool

/-- No step fails. -/
def ModelCheckoutFaults.none : ModelCheckoutFaults :=
  { getConn := false, begin := false, select := false, update := fun _ => false,
    delete := false, commit := false }

/-- The array `updates` of the model's `checkout`: one `UPDATE products SET
quantity = quantity - ? WHERE id = ?` per row with `Number(r.cartQty)`, all
issued at once in row order, from row `i` on.  Returns the tables after every
update has run and whether some update failed. -/
def updates (fails : Nat → Bool) : Nat → List ModelCartRow → Tables → Tables × Bool
  | _, [], t => (t, false)
  | i, r :: rest, t =>
    if fails i then
      ((updates fails (i + 1) rest t).1, true)
    else
      updates fails (i + 1) rest (t.decrementStock r.cartQty r.product_id)

/-- The list `insufficient.map(r => ({ product_id, name, requested, available
}))` over `items.filter(r => Number(r.stock) < Number(r.cartQty))`. -/
def insufficientItems (items : List ModelCartRow) : List InsufficientItem :=
  (items.filter (fun r => decide (r.stock < r.cartQty))).map (fun r =>
    { product_id := r.product_id, name := r.productName, requested := r.cartQty,
      available := r.stock })

/-- The function `checkout(user_id, cb)` of `models/Cart.js`. -/
def Cart.checkout (db : Db) (user_id : Nat) (f : ModelCheckoutFaults) :
    ModelCheckoutResult × Db :=
  if f.getConn then (.error, db) else
  if f.begin then (.error, db) else
  if f.select then (.error, db.beginTransaction.rollback) else
  if (selectSql db.tables user_id).length = 0 then
    (.result 0 ⟨0, 0⟩ [], db.beginTransaction.commit)
  else
  if (insufficientItems (selectSql db.tables user_id)).length ≠ 0 then
    (.insufficientStock (insufficientItems (selectSql db.tables user_id)),
      db.beginTransaction.rollback)
  else
  if (updates f.update 0 (selectSql db.tables user_id) db.tables).2 then
    (.error,
      Db.rollback { db.beginTransaction with
        tables := (updates f.update 0 (selectSql db.tables user_id) db.tables).1 })
  else
  if f.delete then
    (.error,
      Db.rollback { db.beginTransaction with
        tables := (updates f.update 0 (selectSql db.tables user_id) db.tables).1 })
  else
  if f.commit then
    (.commitError (selectSql db.tables user_id).length
      ((selectSql db.tables user_id).foldl
        (fun s r => s.add ((Double.ofCents (numberOr0 r.price)).mul
          (Double.ofInt (numberOr0 r.cartQty)))) ⟨0, 0⟩)
      (selectSql db.tables user_id),
      { db.beginTransaction with
        tables := ((updates f.update 0 (selectSql db.tables user_id) db.tables).1).deleteCart
          user_id })
  else
    (.result (selectSql db.tables user_id).length
      ((selectSql db.tables user_id).foldl
        (fun s r => s.add ((Double.ofCents (numberOr0 r.price)).mul
          (Double.ofInt (numberOr0 r.cartQty)))) ⟨0, 0⟩)
      (selectSql db.tables user_id),
      Db.commit { db.beginTransaction with
        tables := ((updates f.update 0 (selectSql db.tables user_id) db.tables).1).deleteCart
          user_id })

/-- A request whose session holds the logged-in administrator `id`. -/
def adminRequestOf (id : Nat) : Request :=
  { session := some { user := some { id := id, role := "admin" }, userId := none } }

/-- A request of user `userId` to add `quantity` (a decimal string of that
value) of product `productId` to the cart. -/
def addRequestOf (userId productId : Nat) (quantity : Int) : CartRequest :=
  { session := some { user := some { id := userId, role := "user" }, userId := some userId },
    paramsId := none,
    body := { id := 0, productId := productId, product_id := 0,
              quantity := { truthy := true, number := .finite quantity,
                            parseInt10 := some quantity },
              qty := BodyField.absent },
    wantsJSON := true, referer := none }

/-- The lines of a user's cart whose product has less stock than the line
asks for, in cart order, as the specification reports them: product id, name,
requested quantity and available stock. -/
def shortLines (t : Tables) (user_id : Nat) : List InsufficientItem :=
  (t.cart_items.filter (fun ci => decide (ci.user_id = user_id))).filterMap (fun ci =>
    match t.products ci.product_id with
    | some p =>
      if p.quantity < ci.quantity then
        some { product_id := ci.product_id, name := p.productName, requested := ci.quantity,
               available := p.quantity }
      else none
    | none => none)

/-- The tables the model's `checkout` of `user_id` leaves when every line is
satisfiable: stock lowered per cart row, the user's cart lines gone, orders and
order lines as they were. -/
def modelCommittedTables (t : Tables) (user_id : Nat) : Tables :=
  { orders := t.orders
    order_items := t.order_items
    products := productsAfter t.products (cartSql t user_id)
    cart_items := t.cart_items.filter (fun ci => decide (ci.user_id ≠ user_id)) }

/-- Only the commit of the model's `checkout` fails. -/
def modelCommitFails : ModelCheckoutFaults :=
  { getConn := false, begin := false, select := false, update := fun _ => false,
    delete := false, commit := true }

/-- The rational number a double stands for. -/
def Double.toRat (x : Double) : ℚ := (x.mantissa : ℚ) * (2 : ℚ) ^ x.exponent

/-- The rational `v` is the value of a double: `K * 2 ^ j` up to sign with `K`
below `2 ^ 53` and `j` at least `-1074`. -/
def Representable (v : ℚ) : Prop :=
  ∃ (K : Nat) (j : Int), K < 2 ^ 53 ∧ -1074 ≤ j ∧ |v| = (K : ℚ) * (2 : ℚ) ^ j

/-- The sum over the cart rows of price times quantity, in minor units and in
exact arithmetic. -/
def exactTotal (cartRows : List CartRow) : Int :=
  (cartRows.map (fun row => row.price * row.cart_qty)).sum

/-- User 1 holds 3 of product 1, which costs 0.10 and has a stock of 5. -/
def threeDimes : Db :=
  dbOf [(1, ⟨"A", 5, 10⟩)] [⟨1, 1, 1, 3⟩]


/-! ## Lemmas on the steps -/

set_option maxRecDepth 100000

@[simp] theorem rollback_isReceipt (db : Db) (c : Code) :
    (rollback db c).1.isReceipt = false := by
  cases c <;> rfl

@[simp] theorem rollback_snd (db : Db) (c : Code) : (rollback db c).2 = db.rollback := by
  cases c <;> rfl

theorem Db.rollback_of_snapshot (db : Db) (t0 : Tables) (h : db.snapshot = some t0) :
    db.rollback = { db with tables := t0, snapshot := none } := by
  unfold Db.rollback
  rw [h]

theorem requestedOf_cons (row : CartRow) (rest : List CartRow) (id : Nat) :
    requestedOf (row :: rest) id =
      (if row.product_id = id then row.cart_qty else 0) + requestedOf rest id := by
  unfold requestedOf
  by_cases h : row.product_id = id <;> simp [List.filter_cons, h]

theorem stockUpdates_frame (fails : Nat → Bool) (rows : List CartRow) :
    ∀ (i : Nat) (t : Tables),
      (stockUpdates fails i rows t).1.orders = t.orders ∧
      (stockUpdates fails i rows t).1.order_items = t.order_items ∧
      (stockUpdates fails i rows t).1.cart_items = t.cart_items := by
  induction rows with
  | nil => intro i t; simp [stockUpdates]
  | cons row rest ih =>
    intro i t
    unfold stockUpdates
    split
    · exact ih (i + 1) t
    · exact ih (i + 1) _

theorem stockUpdates_products (fails : Nat → Bool) (rows : List CartRow) :
    ∀ (i : Nat) (t : Tables), (stockUpdates fails i rows t).2 = false →
      (stockUpdates fails i rows t).1.products = productsAfter t.products rows := by
  induction rows with
  | nil =>
    intro i t _
    funext id
    simp [stockUpdates, productsAfter, requestedOf]
  | cons row rest ih =>
    intro i t h
    unfold stockUpdates at h ⊢
    split at h
    · simp at h
    · rename_i hi
      simp only [hi, if_false, Bool.false_eq_true]
      rw [ih (i + 1) _ h]
      funext id
      simp only [productsAfter, Tables.decrementStock, requestedOf_cons]
      by_cases hid : id = row.product_id
      · subst hid
        cases hp : t.products row.product_id <;> simp [hp, sub_sub]
      · have hid2 : ¬ row.product_id = id := fun e => hid e.symm
        simp [hid, hid2]

theorem stockUpdates_calm (rows : List CartRow) :
    ∀ (i : Nat) (t : Tables), (stockUpdates (fun _ => false) i rows t).2 = false := by
  induction rows with
  | nil => intro i t; rfl
  | cons row rest ih =>
    intro i t
    unfold stockUpdates
    simp [ih]

theorem stockUpdates_fst (fails : Nat → Bool) (rows : List CartRow) (t : Tables)
    (h : (stockUpdates fails 0 rows t).2 = false) :
    (stockUpdates fails 0 rows t).1 = { t with products := productsAfter t.products rows } := by
  have hf := stockUpdates_frame fails rows 0 t
  have hp := stockUpdates_products fails rows 0 t h
  cases hs : (stockUpdates fails 0 rows t).1 with
  | mk o oi p c =>
    rw [hs] at hf hp
    simp only at hf hp
    obtain ⟨h1, h2, h3⟩ := hf
    subst h1 h2 h3 hp
    rfl

theorem rollback_rolledBack (db : Db) (t0 : Tables) (c : Code) (h : db.snapshot = some t0) :
    RolledBack t0 (rollback db c) := by
  refine ⟨rollback_isReceipt db c, ?_, ?_⟩ <;>
    simp [Db.rollback_of_snapshot db t0 h]

theorem commitStep_cases (db : Db) (env : Env) (orderId : Nat) (t0 : Tables)
    (h : db.snapshot = some t0) :
    RolledBack t0 (commitStep db env orderId) ∨
      commitStep db env orderId =
        (.redirectReceipt orderId, ⟨db.tables, none, db.nextOrderId⟩) := by
  unfold commitStep
  split
  · exact Or.inl (rollback_rolledBack db t0 _ h)
  · exact Or.inr rfl

theorem clearCartStep_cases (db : Db) (env : Env) (userId orderId : Nat) (t0 : Tables)
    (h : db.snapshot = some t0) :
    RolledBack t0 (clearCartStep db env userId orderId) ∨
      clearCartStep db env userId orderId =
        (.redirectReceipt orderId, ⟨db.tables.deleteCart userId, none, db.nextOrderId⟩) := by
  unfold clearCartStep
  split
  · exact Or.inl (rollback_rolledBack db t0 _ h)
  · exact commitStep_cases _ env orderId t0 h

theorem stockStep_cases (db : Db) (env : Env) (userId orderId : Nat) (cartRows : List CartRow)
    (t0 : Tables) (h : db.snapshot = some t0) :
    RolledBack t0 (stockStep db env userId orderId cartRows) ∨
      stockStep db env userId orderId cartRows =
        (.redirectReceipt orderId,
          ⟨({ db.tables with products := productsAfter db.tables.products cartRows }
              : Tables).deleteCart userId, none, db.nextOrderId⟩) := by
  unfold stockStep
  simp only
  split
  · exact Or.inl (rollback_rolledBack _ t0 _ h)
  · rename_i hu
    have hu2 : (stockUpdates env.faults.stockUpdate 0 cartRows db.tables).2 = false := by
      simpa using hu
    have := clearCartStep_cases
      { db with tables := (stockUpdates env.faults.stockUpdate 0 cartRows db.tables).1 }
      env userId orderId t0 h
    rw [stockUpdates_fst _ _ _ hu2] at this ⊢
    exact this

theorem itemsStep_cases (db : Db) (env : Env) (userId orderId : Nat) (cartRows : List CartRow)
    (t0 : Tables) (h : db.snapshot = some t0) :
    RolledBack t0 (itemsStep db env userId orderId cartRows) ∨
      itemsStep db env userId orderId cartRows =
        (.redirectReceipt orderId,
          ⟨({ db.tables with
                order_items := db.tables.order_items ++ orderItemsOf orderId env.now cartRows
                products := productsAfter db.tables.products cartRows }
              : Tables).deleteCart userId, none, db.nextOrderId⟩) := by
  unfold itemsStep
  split
  · exact Or.inl (rollback_rolledBack db t0 _ h)
  · exact stockStep_cases (db.insertOrderItems _) env userId orderId cartRows t0 h

theorem orderStep_cases (db : Db) (env : Env) (userId : Nat) (cartRows : List CartRow)
    (t0 : Tables) (h : db.snapshot = some t0) :
    RolledBack t0 (orderStep db env userId cartRows) ∨
      orderStep db env userId cartRows =
        (.redirectReceipt db.nextOrderId,
          ⟨({ orders := db.tables.orders ++
                [{ id := db.nextOrderId, user_id := userId, orderDate := env.now,
                   totalAmount := amountColumn (totalAmount cartRows),
                   status := "Pending", createdAt := env.now }]
              order_items := db.tables.order_items ++
                orderItemsOf db.nextOrderId env.now cartRows
              products := productsAfter db.tables.products cartRows
              cart_items := db.tables.cart_items }
              : Tables).deleteCart userId, none, db.nextOrderId + 1⟩) := by
  unfold orderStep
  split
  · exact Or.inl (rollback_rolledBack db t0 _ h)
  · exact itemsStep_cases (db.insertOrder _ _ _) env userId db.nextOrderId cartRows t0 h

theorem cartStep_cases (db : Db) (env : Env) (userId : Nat) (t0 : Tables)
    (h : db.snapshot = some t0) :
    RolledBack t0 (cartStep db env userId) ∨
      (cartSql db.tables userId ≠ [] ∧
        (∀ row ∈ cartSql db.tables userId, row.cart_qty ≤ row.stock_qty) ∧
        cartStep db env userId =
          (.redirectReceipt db.nextOrderId,
            ⟨committedTables db.tables userId db.nextOrderId env.now, none,
              db.nextOrderId + 1⟩)) := by
  unfold cartStep
  simp only
  split
  · exact Or.inl (rollback_rolledBack db t0 _ h)
  · split
    · exact Or.inl (rollback_rolledBack db t0 _ h)
    · rename_i hlen
      split
      · exact Or.inl (rollback_rolledBack db t0 _ h)
      · rename_i hfind
        rcases orderStep_cases db env userId (cartSql db.tables userId) t0 h with hr | hs
        · exact Or.inl hr
        · refine Or.inr ⟨?_, ?_, ?_⟩
          · intro hnil
            exact hlen (by rw [hnil]; rfl)
          · intro row hrow
            have := List.find?_eq_none.mp hfind row hrow
            simpa using this
          · rw [hs]
            rfl

theorem checkout_cases (db : Db) (req : Request) (env : Env)
    (h : db.snapshot = none ∨ env.faults.begin = false) :
    ((checkout db req env).1.isReceipt = false ∧ (checkout db req env).2.tables = db.tables) ∨
      (sessionUserId req ≠ 0 ∧ cartSql db.tables (sessionUserId req) ≠ [] ∧
        (∀ row ∈ cartSql db.tables (sessionUserId req), row.cart_qty ≤ row.stock_qty) ∧
        checkout db req env =
          (.redirectReceipt db.nextOrderId,
            ⟨committedTables db.tables (sessionUserId req) db.nextOrderId env.now, none,
              db.nextOrderId + 1⟩)) := by
  unfold checkout
  simp only
  split
  · exact Or.inl ⟨rfl, rfl⟩
  · rename_i hu
    split
    · rename_i hb
      rcases h with hs | hf
      · refine Or.inl ⟨rollback_isReceipt _ _, ?_⟩
        simp [Db.rollback, hs]
      · rw [hf] at hb
        exact absurd hb (by decide)
    · rcases cartStep_cases db.beginTransaction env (sessionUserId req) db.tables rfl with hr | hs
      · exact Or.inl ⟨hr.1, hr.2.1⟩
      · exact Or.inr ⟨hu, hs.1, hs.2.1, hs.2.2⟩

theorem checkout_failure_tables (db : Db) (req : Request) (env : Env)
    (hstart : db.snapshot = none ∨ env.faults.begin = false)
    (hfail : (checkout db req env).1.isReceipt = false) :
    (checkout db req env).2.tables = db.tables := by
  rcases checkout_cases db req env hstart with hr | hs
  · exact hr.2
  · rw [hs.2.2.2] at hfail
    simp [CheckoutResponse.isReceipt] at hfail

theorem checkout_snapshot (db : Db) (req : Request) (env : Env)
    (hidle : db.snapshot = none) : (checkout db req env).2.snapshot = none := by
  unfold checkout
  simp only
  split
  · exact hidle
  · split
    · simp [Db.rollback, hidle]
    · rcases cartStep_cases db.beginTransaction env (sessionUserId req) db.tables rfl with
        hr | hs
      · exact hr.2.2
      · rw [hs.2.2]

theorem checkout_receipt (db : Db) (req : Request) (env : Env)
    (h : (checkout db req env).1.isReceipt = true) :
    sessionUserId req ≠ 0 ∧ cartSql db.tables (sessionUserId req) ≠ [] ∧
      (∀ row ∈ cartSql db.tables (sessionUserId req), row.cart_qty ≤ row.stock_qty) ∧
      checkout db req env =
        (.redirectReceipt db.nextOrderId,
          ⟨committedTables db.tables (sessionUserId req) db.nextOrderId env.now, none,
            db.nextOrderId + 1⟩) := by
  have hb : env.faults.begin = false := by
    cases hbv : env.faults.begin with
    | false => rfl
    | true =>
      exfalso
      unfold checkout at h
      simp only [hbv, if_true] at h
      split at h
      · simp [CheckoutResponse.isReceipt] at h
      · simp at h
  rcases checkout_cases db req env (Or.inr hb) with hr | hs
  · rw [hr.1] at h
    exact absurd h (by decide)
  · exact hs

theorem find?_exceeds_eq_none (rows : List CartRow)
    (hok : ∀ row ∈ rows, row.cart_qty ≤ row.stock_qty) :
    rows.find? (fun row => decide (row.cart_qty > row.stock_qty)) = none := by
  rw [List.find?_eq_none]
  intro row hrow
  have := hok row hrow
  simp only [gt_iff_lt, decide_eq_true_eq, not_lt]
  exact this

theorem checkout_calm (db : Db) (req : Request) (env : Env)
    (hu : sessionUserId req ≠ 0) (hcalm : env.faults = Faults.none)
    (hne : cartSql db.tables (sessionUserId req) ≠ [])
    (hok : ∀ row ∈ cartSql db.tables (sessionUserId req), row.cart_qty ≤ row.stock_qty) :
    checkout db req env =
      (.redirectReceipt db.nextOrderId,
        ⟨committedTables db.tables (sessionUserId req) db.nextOrderId env.now, none,
          db.nextOrderId + 1⟩) := by
  have hlen : ¬ (cartSql db.tables (sessionUserId req)).length = 0 := by
    intro h0
    exact hne (List.length_eq_zero.mp h0)
  have hrec : (checkout db req env).1.isReceipt = true := by
    unfold checkout cartStep orderStep itemsStep stockStep clearCartStep commitStep
    simp only [hcalm, Faults.none, hu, if_false, Bool.false_eq_true, Db.beginTransaction,
      hlen, find?_exceeds_eq_none _ hok, stockUpdates_calm]
    rfl
  exact (checkout_receipt db req env hrec).2.2.2

theorem numberOr0_eq (x : Int) : numberOr0 x = x := by
  unfold numberOr0
  split
  · rename_i h
    exact h.symm
  · rfl

/-! ## Lemmas on the number arithmetic -/

theorem bitLength_zero (fuel : Nat) : bitLength fuel 0 = 0 := by
  cases fuel <;> simp [bitLength]

theorem bitLength_spec : ∀ (fuel n : Nat), n ≤ fuel → 0 < n →
    2 ^ (bitLength fuel n - 1) ≤ n ∧ n < 2 ^ bitLength fuel n := by
  intro fuel
  induction fuel with
  | zero => intro n h1 h2; omega
  | succ fuel ih =>
    intro n hle hpos
    have hn : n ≠ 0 := by omega
    rw [bitLength]
    simp only [hn, if_false]
    by_cases h2 : n / 2 = 0
    · rw [h2, bitLength_zero]
      have : n = 1 := by omega
      subst this
      simp
    · have hh : 0 < n / 2 := Nat.pos_of_ne_zero h2
      have hfu : n / 2 ≤ fuel := by omega
      obtain ⟨l, u⟩ := ih (n / 2) hfu hh
      have hb : 1 ≤ bitLength fuel (n / 2) := by
        by_contra hc
        have : bitLength fuel (n / 2) = 0 := by omega
        rw [this] at u
        simp at u
        omega
      have e1 : bitLength fuel (n / 2) + 1 - 1 = (bitLength fuel (n / 2) - 1) + 1 := by omega
      rw [e1, pow_succ, pow_succ]
      constructor <;> omega

theorem ilog2_spec (n : Nat) (h : 0 < n) : 2 ^ ilog2 n ≤ n ∧ n < 2 ^ (ilog2 n + 1) := by
  have hs := bitLength_spec n n le_rfl h
  have hb : 1 ≤ bitLength n n := by
    by_contra hc
    have h0 : bitLength n n = 0 := by omega
    rw [h0] at hs
    simp at hs
    omega
  unfold ilog2
  have e : bitLength n n - 1 + 1 = bitLength n n := by omega
  rw [e]
  exact hs

theorem floorLog2_le (a d : Nat) (ha : 0 < a) (hd : 0 < d) :
    (2 : ℚ) ^ floorLog2 a d ≤ (a : ℚ) / d := by
  obtain ⟨la1, la2⟩ := ilog2_spec a ha
  obtain ⟨ld1, ld2⟩ := ilog2_spec d hd
  have hdq : (0 : ℚ) < d := by exact_mod_cast hd
  rw [le_div_iff₀ hdq]
  unfold floorLog2
  split
  · have e : ((ilog2 a : Int) - ilog2 d - 1) = (ilog2 a : Int) - ((ilog2 d + 1 : Nat) : Int) := by
      push_cast; ring
    rw [e, zpow_sub₀ (by norm_num), zpow_natCast, zpow_natCast, div_mul_eq_mul_div,
      div_le_iff₀ (by positivity)]
    have h1 : ((2 ^ ilog2 a : Nat) : ℚ) ≤ a := by exact_mod_cast la1
    have h2 : ((d : Nat) : ℚ) ≤ ((2 ^ (ilog2 d + 1) : Nat) : ℚ) := by exact_mod_cast le_of_lt ld2
    push_cast at h1 h2
    exact mul_le_mul h1 h2 (by positivity) (by positivity)
  · rename_i hnot
    rw [zpow_sub₀ (by norm_num), zpow_natCast, zpow_natCast, div_mul_eq_mul_div,
      div_le_iff₀ (by positivity)]
    have h1 : d * 2 ^ ilog2 a ≤ a * 2 ^ ilog2 d := by omega
    have h2 : ((d * 2 ^ ilog2 a : Nat) : ℚ) ≤ ((a * 2 ^ ilog2 d : Nat) : ℚ) := by exact_mod_cast h1
    push_cast at h2
    linarith

theorem roundHalfEven_mul (m den : Nat) (hden : 0 < den) : roundHalfEven (m * den) den = m := by
  unfold roundHalfEven
  simp [Nat.mul_mod_left, hden, Nat.mul_div_cancel _ hden]

theorem scaled_exact (a d : Nat) (e : Int) (M : Nat) (hd : 0 < d)
    (h : (a : ℚ) / d = (M : ℚ) * (2 : ℚ) ^ e) : Double.scaled a d e = M := by
  have hdq : (0 : ℚ) < d := by exact_mod_cast hd
  rw [div_eq_iff (ne_of_gt hdq)] at h
  unfold Double.scaled
  split
  · rename_i he
    have hcast : e = ((e.toNat : Nat) : Int) := (Int.toNat_of_nonneg he).symm
    rw [hcast, zpow_natCast] at h
    have hnat : a = M * (d * 2 ^ e.toNat) := by
      have : (a : ℚ) = ((M * (d * 2 ^ e.toNat) : Nat) : ℚ) := by
        push_cast
        rw [h]
        ring
      exact_mod_cast this
    rw [hnat]
    exact roundHalfEven_mul M _ (by positivity)
  · rename_i he
    have hneg : 0 ≤ -e := by omega
    have hcast : e = -(((-e).toNat : Nat) : Int) := by
      rw [Int.toNat_of_nonneg hneg]; ring
    rw [hcast, zpow_neg, zpow_natCast] at h
    have hnat : a * 2 ^ (-e).toNat = M * d := by
      have : ((a * 2 ^ (-e).toNat : Nat) : ℚ) = ((M * d : Nat) : ℚ) := by
        push_cast
        rw [h]
        field_simp
      exact_mod_cast this
    rw [hnat]
    exact roundHalfEven_mul M d hd

theorem Double.round_exact (n : Int) (d : Nat) (hd : 0 < d)
    (hrep : Representable ((n : ℚ) / d)) : (Double.round n d).toRat = (n : ℚ) / d := by
  by_cases hn : n = 0
  · subst hn
    simp [Double.round, Double.toRat]
  obtain ⟨K, j, hK, hj, hv⟩ := hrep
  have hdq : (0 : ℚ) < d := by exact_mod_cast hd
  have ha : 0 < n.natAbs := Int.natAbs_pos.mpr hn
  have haq : (0 : ℚ) < (n.natAbs : ℚ) := by exact_mod_cast ha
  have habs : |(n : ℚ) / d| = (n.natAbs : ℚ) / d := by
    rw [abs_div, abs_of_pos hdq]
    congr 1
    rw [Nat.cast_natAbs]
    push_cast
    rfl
  rw [habs] at hv
  have hKq : (K : ℚ) < 2 ^ (53 : ℤ) := by
    rw [show (53 : ℤ) = ((53 : ℕ) : ℤ) by norm_num, zpow_natCast]
    exact_mod_cast hK
  have hle : floorLog2 n.natAbs d - 52 ≤ j := by
    by_contra hc
    have h1 : j + 53 ≤ floorLog2 n.natAbs d := by omega
    have h2 : (2 : ℚ) ^ (j + 53) ≤ (2 : ℚ) ^ floorLog2 n.natAbs d :=
      zpow_le_zpow_right₀ (by norm_num) h1
    have h3 := floorLog2_le n.natAbs d ha hd
    have h4 : (n.natAbs : ℚ) / d < (2 : ℚ) ^ (j + 53) := by
      rw [hv, zpow_add₀ (by norm_num), mul_comm]
      exact mul_lt_mul_of_pos_left hKq (by positivity)
    linarith
  set e : Int := max (floorLog2 n.natAbs d - 52) (-1074) with he
  have hej : e ≤ j := max_le hle hj
  have ht : j = e + (((j - e).toNat : Nat) : Int) := by
    rw [Int.toNat_of_nonneg (by omega)]; ring
  have hM : (n.natAbs : ℚ) / d = ((K * 2 ^ (j - e).toNat : Nat) : ℚ) * (2 : ℚ) ^ e := by
    rw [hv]
    conv_lhs => rw [ht]
    rw [zpow_add₀ (by norm_num), zpow_natCast]
    push_cast
    ring
  have hs := scaled_exact n.natAbs d e _ hd hM
  have hMpos : K * 2 ^ (j - e).toNat ≠ 0 := by
    intro h0
    rw [h0] at hM
    simp at hM
    rcases hM with h | h
    · exact hn h
    · omega
  have hsign : ((n.sign : Int) : ℚ) * (n.natAbs : ℚ) = (n : ℚ) := by
    have h2 : ((n.sign * (n.natAbs : Int) : Int) : ℚ) = (n : ℚ) := by
      rw [Int.sign_mul_natAbs n]
    rw [Int.cast_mul, Int.cast_natCast] at h2
    exact h2
  unfold Double.round
  simp only [hn, if_false]
  rw [← he, hs]
  simp only [hMpos, if_false]
  have hfinal : ((n.sign : Int) : ℚ) * ((K * 2 ^ (j - e).toNat : Nat) : ℚ) * (2 : ℚ) ^ e =
      (n : ℚ) / d := by
    rw [mul_assoc, ← hM, mul_div_assoc', hsign]
  split
  · rename_i h53
    unfold Double.toRat
    simp only
    rw [← hfinal, h53, zpow_add₀ (by norm_num)]
    push_cast
    ring
  · unfold Double.toRat
    simp only
    rw [← hfinal]
    push_cast
    ring

theorem representable_zero : Representable 0 :=
  ⟨0, 0, by norm_num, by norm_num, by simp⟩

theorem representable_int (z : Int) (j : Int) (hj : -1074 ≤ j) (hz : z.natAbs < 2 ^ 53) :
    Representable ((z : ℚ) * (2 : ℚ) ^ j) := by
  refine ⟨z.natAbs, j, hz, hj, ?_⟩
  rw [abs_mul, abs_of_pos (show (0 : ℚ) < (2 : ℚ) ^ j by positivity), Nat.cast_natAbs]
  push_cast
  rfl

theorem Double.ofDyadic_exact (n e : Int) (hrep : Representable ((n : ℚ) * (2 : ℚ) ^ e)) :
    (Double.ofDyadic n e).toRat = (n : ℚ) * (2 : ℚ) ^ e := by
  unfold Double.ofDyadic
  split
  · rename_i he
    have hcast : e = ((e.toNat : Nat) : Int) := (Int.toNat_of_nonneg he).symm
    have hv : (((n * 2 ^ e.toNat : Int) : ℚ)) / ((1 : Nat) : ℚ) = (n : ℚ) * (2 : ℚ) ^ e := by
      conv_rhs => rw [hcast, zpow_natCast]
      push_cast
      ring
    rw [Double.round_exact _ 1 (by norm_num) (by rw [hv]; exact hrep), hv]
  · rename_i he
    have hneg : 0 ≤ -e := by omega
    have hcast : e = -(((-e).toNat : Nat) : Int) := by
      rw [Int.toNat_of_nonneg hneg]; ring
    have hv : (n : ℚ) / ((2 ^ (-e).toNat : Nat) : ℚ) = (n : ℚ) * (2 : ℚ) ^ e := by
      conv_rhs => rw [hcast, zpow_neg, zpow_natCast]
      push_cast
      rw [div_eq_mul_inv]
    rw [Double.round_exact _ _ (by positivity) (by rw [hv]; exact hrep), hv]

theorem Double.mul_exact (x y : Double) (hrep : Representable (x.toRat * y.toRat)) :
    (x.mul y).toRat = x.toRat * y.toRat := by
  have hv : ((x.mantissa * y.mantissa : Int) : ℚ) * (2 : ℚ) ^ (x.exponent + y.exponent) =
      x.toRat * y.toRat := by
    unfold Double.toRat
    rw [zpow_add₀ (by norm_num)]
    push_cast
    ring
  unfold Double.mul
  rw [Double.ofDyadic_exact _ _ (by rw [hv]; exact hrep), hv]

theorem zpow_split (e m : Int) (h : m ≤ e) :
    (2 : ℚ) ^ e = (2 : ℚ) ^ m * (((2 : Int) ^ (e - m).toNat : Int) : ℚ) := by
  have he : e = m + (((e - m).toNat : Nat) : Int) := by
    rw [Int.toNat_of_nonneg (by omega)]; ring
  conv_lhs => rw [he]
  rw [zpow_add₀ (by norm_num), zpow_natCast]
  push_cast
  ring

theorem Double.add_exact (x y : Double) (hrep : Representable (x.toRat + y.toRat)) :
    (x.add y).toRat = x.toRat + y.toRat := by
  have hv : ((x.mantissa * 2 ^ (x.exponent - min x.exponent y.exponent).toNat +
        y.mantissa * 2 ^ (y.exponent - min x.exponent y.exponent).toNat : Int) : ℚ) *
      (2 : ℚ) ^ (min x.exponent y.exponent) = x.toRat + y.toRat := by
    unfold Double.toRat
    rw [zpow_split x.exponent (min x.exponent y.exponent) (min_le_left _ _),
      zpow_split y.exponent (min x.exponent y.exponent) (min_le_right _ _)]
    push_cast
    ring
  unfold Double.add
  rw [Double.ofDyadic_exact _ _ (by rw [hv]; exact hrep), hv]

theorem Double.ofInt_exact (q : Int) (hq : q.natAbs < 2 ^ 53) : (Double.ofInt q).toRat = q := by
  have hrep : Representable ((q : ℚ) / ((1 : Nat) : ℚ)) := by
    have := representable_int q 0 (by norm_num) hq
    simpa using this
  unfold Double.ofInt
  rw [Double.round_exact q 1 (by norm_num) hrep]
  simp

theorem Double.ofCents_exact (c : Int) (hc : 25 ∣ c) (hb : c.natAbs < 25 * 2 ^ 53) :
    (Double.ofCents c).toRat = (c : ℚ) / 100 := by
  obtain ⟨k, rfl⟩ := hc
  have hk : k.natAbs < 2 ^ 53 := by
    rw [Int.natAbs_mul] at hb
    have : (25 : Int).natAbs = 25 := rfl
    rw [this] at hb
    omega
  have hv : (((25 * k : Int) : ℚ)) / ((100 : Nat) : ℚ) = (k : ℚ) * (2 : ℚ) ^ (-2 : ℤ) := by
    push_cast
    rw [zpow_neg]
    norm_num
    ring
  unfold Double.ofCents
  rw [Double.round_exact _ 100 (by norm_num)
    (by rw [hv]; exact representable_int k (-2) (by norm_num) hk)]
  push_cast
  rfl

theorem Double.ofInt_zero : Double.ofInt 0 = ⟨0, 0⟩ := by
  simp [Double.ofInt, Double.round]

theorem Double.ofCents_zero : Double.ofCents 0 = ⟨0, 0⟩ := by
  simp [Double.ofCents, Double.round]


theorem natAbs_lt_of_abs_lt (z : Int) (n : Nat) (h : |z| < (n : Int)) : z.natAbs < n := by
  rw [Int.abs_eq_natAbs] at h
  exact_mod_cast h

theorem representable_cents (V : Int) (h25 : 25 ∣ V) (hb : |V| < 25 * 2 ^ 53) :
    Representable ((V : ℚ) / 100) := by
  obtain ⟨k, rfl⟩ := h25
  have hk : |k| < 2 ^ 53 := by
    rw [abs_mul] at hb
    have : |(25 : Int)| = 25 := by norm_num
    rw [this] at hb
    omega
  have hv : (((25 * k : Int) : ℚ)) / 100 = (k : ℚ) * (2 : ℚ) ^ (-2 : ℤ) := by
    push_cast
    rw [zpow_neg]
    norm_num
    ring
  rw [hv]
  exact representable_int k (-2) (by norm_num) (natAbs_lt_of_abs_lt k (2 ^ 53) (by exact_mod_cast hk))

theorem lineAmount_exact (P Q : Int) (h25 : 25 ∣ P) (hb : |P * Q| < 25 * 2 ^ 53) :
    ((Double.ofCents (numberOr0 P)).mul (Double.ofInt (numberOr0 Q))).toRat =
      ((P * Q : Int) : ℚ) / 100 := by
  rw [numberOr0_eq, numberOr0_eq]
  by_cases hP : P = 0
  · subst hP
    have h0 : (Double.ofCents 0).toRat = 0 := by rw [Double.ofCents_zero]; simp [Double.toRat]
    rw [Double.mul_exact _ _ (by rw [h0, zero_mul]; exact representable_zero), h0]
    simp
  by_cases hQ : Q = 0
  · subst hQ
    have h0 : (Double.ofInt 0).toRat = 0 := by rw [Double.ofInt_zero]; simp [Double.toRat]
    rw [Double.mul_exact _ _ (by rw [h0, mul_zero]; exact representable_zero), h0]
    simp
  have hPpos : 25 ≤ |P| := by
    obtain ⟨k, rfl⟩ := h25
    have hk : k ≠ 0 := by
      rintro rfl
      exact hP (by ring)
    have : 1 ≤ |k| := Int.one_le_abs hk
    rw [abs_mul]
    have : |(25 : Int)| = 25 := by norm_num
    rw [this]
    omega
  have hQpos : 1 ≤ |Q| := Int.one_le_abs hQ
  rw [abs_mul] at hb
  have hPb : |P| < 25 * 2 ^ 53 := by nlinarith [abs_nonneg P, abs_nonneg Q]
  have hQb : |Q| < 2 ^ 53 := by nlinarith [abs_nonneg P, abs_nonneg Q]
  have e1 := Double.ofCents_exact P h25
    (natAbs_lt_of_abs_lt P (25 * 2 ^ 53) (by exact_mod_cast hPb))
  have e2 := Double.ofInt_exact Q (natAbs_lt_of_abs_lt Q (2 ^ 53) (by exact_mod_cast hQb))
  have hprod : (P : ℚ) / 100 * (Q : ℚ) = ((P * Q : Int) : ℚ) / 100 := by
    push_cast
    ring
  have hrep : Representable (((P * Q : Int) : ℚ) / 100) :=
    representable_cents (P * Q) (Dvd.dvd.mul_right h25 Q) (by rw [abs_mul]; exact hb)
  rw [Double.mul_exact _ _ (by rw [e1, e2, hprod]; exact hrep), e1, e2, hprod]

theorem foldl_totalAmount_exact : ∀ (rows : List CartRow) (acc : Double) (A : Int),
    acc.toRat = (A : ℚ) / 100 → 25 ∣ A → (∀ row ∈ rows, 25 ∣ row.price) →
    |A| + (rows.map (fun r => |r.price * r.cart_qty|)).sum < 25 * 2 ^ 53 →
    (rows.foldl (fun sum row =>
      sum.add ((Double.ofCents (numberOr0 row.price)).mul
        (Double.ofInt (numberOr0 row.cart_qty)))) acc).toRat =
      ((A + (rows.map (fun r => r.price * r.cart_qty)).sum : Int) : ℚ) / 100 := by
  intro rows
  induction rows with
  | nil =>
    intro acc A hacc _ _ _
    simp [hacc]
  | cons r rest ih =>
    intro acc A hacc h25 hp hb
    simp only [List.map_cons, List.sum_cons] at hb ⊢
    have hrest_nonneg : 0 ≤ (rest.map (fun r => |r.price * r.cart_qty|)).sum := by
      apply List.sum_nonneg
      intro x hx
      rw [List.mem_map] at hx
      obtain ⟨row, _, rfl⟩ := hx
      exact abs_nonneg _
    have hr25 : 25 ∣ r.price := hp r (List.mem_cons_self _ _)
    have hline := lineAmount_exact r.price r.cart_qty hr25
      (by have := abs_nonneg A; omega)
    have hsum : acc.toRat +
        ((Double.ofCents (numberOr0 r.price)).mul (Double.ofInt (numberOr0 r.cart_qty))).toRat =
        ((A + r.price * r.cart_qty : Int) : ℚ) / 100 := by
      rw [hacc, hline]
      push_cast
      ring
    have hA' : |A + r.price * r.cart_qty| ≤ |A| + |r.price * r.cart_qty| := abs_add _ _
    have h25' : 25 ∣ A + r.price * r.cart_qty :=
      Dvd.dvd.add h25 (Dvd.dvd.mul_right hr25 _)
    have hnext := Double.add_exact acc
      ((Double.ofCents (numberOr0 r.price)).mul (Double.ofInt (numberOr0 r.cart_qty)))
      (by rw [hsum]; exact representable_cents _ h25' (by omega))
    rw [List.foldl_cons]
    rw [ih _ (A + r.price * r.cart_qty) (by rw [hnext, hsum]) h25'
      (fun row hrow => hp row (List.mem_cons_of_mem _ hrow)) (by omega)]
    congr 2
    ring

theorem totalAmount_exact (rows : List CartRow) (hp : ∀ row ∈ rows, 25 ∣ row.price)
    (hb : (rows.map (fun r => |r.price * r.cart_qty|)).sum < 25 * 2 ^ 53) :
    (totalAmount rows).toRat = ((exactTotal rows : Int) : ℚ) / 100 := by
  have h := foldl_totalAmount_exact rows ⟨0, 0⟩ 0 (by simp [Double.toRat]) (dvd_zero _) hp
    (by simpa using hb)
  unfold totalAmount exactTotal
  rw [h]
  simp

theorem roundHalfAway_mul (V : Int) (D : Nat) (hD : 0 < D) : roundHalfAway (V * D) D = V := by
  unfold roundHalfAway
  have h1 : (V * (D : Int)).natAbs = V.natAbs * D := by
    rw [Int.natAbs_mul, Int.natAbs_ofNat]
  have h2 : (2 * (V.natAbs * D) + D) / (2 * D) = V.natAbs := by
    have : 2 * (V.natAbs * D) + D = D + (2 * D) * V.natAbs := by ring
    rw [this, Nat.add_mul_div_left _ _ (by omega)]
    have : D / (2 * D) = 0 := Nat.div_eq_of_lt (by omega)
    omega
  have h3 : (V * (D : Int)).sign = V.sign := by
    rw [Int.sign_mul]
    have : ((D : Int)).sign = 1 := Int.sign_eq_one_of_pos (by exact_mod_cast hD)
    rw [this, mul_one]
  rw [h1, h2, h3, Int.sign_mul_natAbs]

theorem amountColumn_exact (x : Double) (V : Int) (h : x.toRat = (V : ℚ) / 100) :
    amountColumn x = V := by
  unfold Double.toRat at h
  have h100 : (100 : ℚ) * (x.mantissa : ℚ) * (2 : ℚ) ^ x.exponent = V := by
    rw [mul_assoc, h]
    ring
  unfold amountColumn
  split
  · rename_i he
    have hcast : x.exponent = ((x.exponent.toNat : Nat) : Int) := (Int.toNat_of_nonneg he).symm
    rw [hcast, zpow_natCast] at h100
    have : ((100 * x.mantissa * 2 ^ x.exponent.toNat : Int) : ℚ) = (V : ℚ) := by
      push_cast
      exact h100
    exact_mod_cast this
  · rename_i he
    have hneg : 0 ≤ -x.exponent := by omega
    have hcast : x.exponent = -(((-x.exponent).toNat : Nat) : Int) := by
      rw [Int.toNat_of_nonneg hneg]; ring
    rw [hcast, zpow_neg, zpow_natCast] at h100
    have hD : (0 : ℚ) < ((2 : ℚ) ^ (-x.exponent).toNat) := by positivity
    have : ((100 * x.mantissa : Int) : ℚ) = ((V * ((2 ^ (-x.exponent).toNat : Nat) : Int) : Int) : ℚ) := by
      push_cast
      rw [← h100]
      field_simp
    have hint : 100 * x.mantissa = V * ((2 ^ (-x.exponent).toNat : Nat) : Int) := by
      exact_mod_cast this
    rw [hint]
    exact roundHalfAway_mul V _ (by positivity)

theorem orderItemsOf_eq (orderId now : Nat) (rows : List CartRow) :
    orderItemsOf orderId now rows =
      rows.map (fun row => ⟨orderId, row.product_id, row.cart_qty, row.price, now⟩) := by
  unfold orderItemsOf
  simp only [numberOr0_eq]

theorem requestedOf_single (rows : List CartRow) (row : CartRow)
    (h : rows.filter (fun r => decide (r.product_id = row.product_id)) = [row]) :
    requestedOf rows row.product_id = row.cart_qty := by
  unfold requestedOf
  rw [h]
  simp

theorem requestedOf_absent (rows : List CartRow) (id : Nat)
    (h : ∀ row ∈ rows, row.product_id ≠ id) : requestedOf rows id = 0 := by
  unfold requestedOf
  have : rows.filter (fun r => decide (r.product_id = id)) = [] := by
    rw [List.filter_eq_nil_iff]
    intro r hr
    simpa using h r hr
  rw [this]
  rfl

theorem receipt_of_eq (r : CheckoutResponse) (orderId : Nat)
    (h : r = .redirectReceipt orderId) : r.isReceipt = true := by
  rw [h]
  rfl

theorem checkout_out_of_stock (db : Db) (req : Request) (env : Env) (row : CartRow)
    (hu : sessionUserId req ≠ 0) (hb : env.faults.begin = false)
    (hl : env.faults.loadCart = false)
    (hrow : row ∈ cartSql db.tables (sessionUserId req))
    (hgt : row.cart_qty > row.stock_qty) :
    (checkout db req env).1 = .redirectCart "Not enough stock for one or more items." := by
  have hlen : ¬ (cartSql db.tables (sessionUserId req)).length = 0 := by
    intro h0
    rw [List.length_eq_zero.mp h0] at hrow
    exact absurd hrow (List.not_mem_nil _)
  have hfind : ∃ r, (cartSql db.tables (sessionUserId req)).find?
      (fun row => decide (row.cart_qty > row.stock_qty)) = some r := by
    cases hf : (cartSql db.tables (sessionUserId req)).find?
        (fun row => decide (row.cart_qty > row.stock_qty)) with
    | some r => exact ⟨r, rfl⟩
    | none =>
      exfalso
      have := List.find?_eq_none.mp hf _ hrow
      simp only [gt_iff_lt, decide_eq_true_eq, not_lt] at this
      omega
  obtain ⟨r, hr⟩ := hfind
  unfold checkout cartStep
  simp only [hu, hb, hl, if_false, Bool.false_eq_true, Db.beginTransaction, hlen, hr]
  rfl

theorem cartSql_withoutDangling (t : Tables) (userId : Nat) :
    cartSql (withoutDangling t) userId = cartSql t userId := by
  unfold cartSql withoutDangling
  simp only
  induction t.cart_items with
  | nil => rfl
  | cons ci rest ih =>
    by_cases hu : ci.user_id = userId <;> cases hp : t.products ci.product_id <;>
      simp only [List.filter_cons, hu, hp, Option.isSome_none, Option.isSome_some,
        Bool.false_eq_true, if_false, if_true, decide_True, decide_False,
        List.filterMap_cons, ih]

theorem Tables.agreeOffCart_refl (t : Tables) : t.agreeOffCart t :=
  ⟨rfl, rfl, rfl⟩

theorem rollback_agree (a b : Db) (c : Code) (h : a.agreeOffCart b) :
    (rollback a c).1 = (rollback b c).1 ∧ (rollback a c).2.agreeOffCart (rollback b c).2 := by
  refine ⟨by cases c <;> rfl, ?_⟩
  rw [rollback_snd, rollback_snd]
  obtain ⟨ht, hn, hs⟩ := h
  unfold Db.rollback
  cases ha : a.snapshot <;> cases hb : b.snapshot <;> rw [ha, hb] at hs
  · exact ⟨ht, hn, by simp [ha, hb]⟩
  · exact absurd hs (by simp)
  · exact absurd hs (by simp)
  · exact ⟨hs, hn, by simp⟩

theorem commitStep_agree (a b : Db) (env : Env) (orderId : Nat) (h : a.agreeOffCart b) :
    (commitStep a env orderId).1 = (commitStep b env orderId).1 ∧
      (commitStep a env orderId).2.agreeOffCart (commitStep b env orderId).2 := by
  unfold commitStep
  split
  · exact rollback_agree a b _ h
  · exact ⟨rfl, h.1, h.2.1, by simp [Db.commit]⟩

theorem clearCartStep_agree (a b : Db) (env : Env) (userId orderId : Nat)
    (h : a.agreeOffCart b) :
    (clearCartStep a env userId orderId).1 = (clearCartStep b env userId orderId).1 ∧
      (clearCartStep a env userId orderId).2.agreeOffCart
        (clearCartStep b env userId orderId).2 := by
  unfold clearCartStep
  split
  · exact rollback_agree a b _ h
  · exact commitStep_agree _ _ env orderId ⟨h.1, h.2.1, h.2.2⟩

theorem stockUpdates_agree (fails : Nat → Bool) (rows : List CartRow) :
    ∀ (i : Nat) (s t : Tables), s.agreeOffCart t →
      (stockUpdates fails i rows s).2 = (stockUpdates fails i rows t).2 ∧
      (stockUpdates fails i rows s).1.agreeOffCart (stockUpdates fails i rows t).1 := by
  induction rows with
  | nil => intro i s t h; exact ⟨rfl, h⟩
  | cons row rest ih =>
    intro i s t h
    unfold stockUpdates
    split
    · exact ⟨rfl, (ih (i + 1) s t h).2⟩
    · apply ih
      refine ⟨h.1, h.2.1, ?_⟩
      unfold Tables.decrementStock
      simp only [h.2.2]

theorem stockStep_agree (a b : Db) (env : Env) (userId orderId : Nat)
    (cartRows : List CartRow) (h : a.agreeOffCart b) :
    (stockStep a env userId orderId cartRows).1 =
        (stockStep b env userId orderId cartRows).1 ∧
      (stockStep a env userId orderId cartRows).2.agreeOffCart
        (stockStep b env userId orderId cartRows).2 := by
  have hs := stockUpdates_agree env.faults.stockUpdate cartRows 0 a.tables b.tables h.1
  have hdb : Db.agreeOffCart
      { a with tables := (stockUpdates env.faults.stockUpdate 0 cartRows a.tables).1 }
      { b with tables := (stockUpdates env.faults.stockUpdate 0 cartRows b.tables).1 } :=
    ⟨hs.2, h.2.1, h.2.2⟩
  unfold stockStep
  simp only [hs.1]
  split
  · exact rollback_agree _ _ _ hdb
  · exact clearCartStep_agree _ _ env userId orderId hdb

theorem itemsStep_agree (a b : Db) (env : Env) (userId orderId : Nat)
    (cartRows : List CartRow) (h : a.agreeOffCart b) :
    (itemsStep a env userId orderId cartRows).1 =
        (itemsStep b env userId orderId cartRows).1 ∧
      (itemsStep a env userId orderId cartRows).2.agreeOffCart
        (itemsStep b env userId orderId cartRows).2 := by
  unfold itemsStep
  split
  · exact rollback_agree a b _ h
  · apply stockStep_agree
    refine ⟨⟨h.1.1, ?_, h.1.2.2⟩, h.2.1, h.2.2⟩
    simp only [Db.insertOrderItems, h.1.2.1]

theorem orderStep_agree (a b : Db) (env : Env) (userId : Nat)
    (cartRows : List CartRow) (h : a.agreeOffCart b) :
    (orderStep a env userId cartRows).1 = (orderStep b env userId cartRows).1 ∧
      (orderStep a env userId cartRows).2.agreeOffCart
        (orderStep b env userId cartRows).2 := by
  unfold orderStep
  rw [h.2.1]
  split
  · exact rollback_agree a b _ h
  · apply itemsStep_agree
    refine ⟨⟨?_, h.1.2.1, h.1.2.2⟩, ?_, h.2.2⟩
    · simp only [Db.insertOrder, h.1.1, h.2.1]
    · simp only [Db.insertOrder, h.2.1]

theorem cartStep_agree (a b : Db) (env : Env) (userId : Nat) (h : a.agreeOffCart b)
    (hrows : cartSql a.tables userId = cartSql b.tables userId) :
    (cartStep a env userId).1 = (cartStep b env userId).1 ∧
      (cartStep a env userId).2.agreeOffCart (cartStep b env userId).2 := by
  unfold cartStep
  simp only [hrows]
  split
  · exact rollback_agree a b _ h
  · split
    · exact rollback_agree a b _ h
    · split
      · exact rollback_agree a b _ h
      · exact orderStep_agree a b env userId _ h

theorem checkout_agree (a b : Db) (req : Request) (env : Env) (h : a.agreeOffCart b)
    (hrows : cartSql a.tables (sessionUserId req) = cartSql b.tables (sessionUserId req)) :
    (checkout a req env).1 = (checkout b req env).1 ∧
      (checkout a req env).2.agreeOffCart (checkout b req env).2 := by
  unfold checkout
  simp only
  split
  · exact ⟨rfl, h⟩
  · split
    · exact rollback_agree a b _ h
    · apply cartStep_agree
      · exact ⟨h.1, h.2.1, h.1⟩
      · exact hrows

theorem cartSql_stock (t : Tables) (userId : Nat) (row : CartRow)
    (hrow : row ∈ cartSql t userId) :
    ∃ p : Product, t.products row.product_id = some p ∧ p.quantity = row.stock_qty := by
  unfold cartSql at hrow
  rw [List.mem_filterMap] at hrow
  obtain ⟨line, _, hline⟩ := hrow
  cases hp : t.products line.product_id with
  | none => rw [hp] at hline; exact absurd hline (by simp)
  | some p =>
    rw [hp] at hline
    simp only [Option.some.injEq] at hline
    subst hline
    exact ⟨p, hp, rfl⟩

theorem cartSql_pairwise (t : Tables) (userId : Nat) (h : OneLinePerProduct t) :
    (cartSql t userId).Pairwise (fun a b => a.product_id ≠ b.product_id) := by
  unfold cartSql
  apply List.Pairwise.filterMap _ _ 
    ((List.Pairwise.filter _ h).imp_of_mem (S := fun a b => a.product_id ≠ b.product_id) ?_)
  · intro a a' hne b hb b' hb'
    cases hp : t.products a.product_id with
    | none => rw [hp] at hb; exact absurd hb (by simp)
    | some p =>
      cases hp' : t.products a'.product_id with
      | none => rw [hp'] at hb'; exact absurd hb' (by simp)
      | some p' =>
        rw [hp] at hb
        rw [hp'] at hb'
        simp only [Option.mem_def, Option.some.injEq] at hb hb'
        subst hb hb'
        exact hne
  · intro a b ha hb hab
    rw [List.mem_filter] at ha hb
    have hau : a.user_id = userId := by simpa using ha.2
    have hbu : b.user_id = userId := by simpa using hb.2
    exact hab (hau.trans hbu.symm)

theorem requestedOf_le (id : Nat) (q : Int) (hq : 0 ≤ q) (rows : List CartRow)
    (hpw : rows.Pairwise (fun a b => a.product_id ≠ b.product_id))
    (hle : ∀ row ∈ rows, row.product_id = id → row.cart_qty ≤ q) :
    requestedOf rows id ≤ q := by
  induction rows with
  | nil => simpa [requestedOf] using hq
  | cons row rest ih =>
    rw [requestedOf_cons]
    rw [List.pairwise_cons] at hpw
    by_cases hid : row.product_id = id
    · have hrest : requestedOf rest id = 0 := by
        apply requestedOf_absent
        intro r hr e
        exact hpw.1 r hr (hid.trans e.symm)
      rw [hrest, if_pos hid, add_zero]
      exact hle row (List.mem_cons_self _ _) hid
    · rw [if_neg hid, zero_add]
      exact ih hpw.2 (fun r hr => hle r (List.mem_cons_of_mem _ hr))

theorem checkout_keeps_invariant (db : Db) (req : Request) (env : Env)
    (hidle : db.snapshot = none) (hstock : StockNonneg db.tables)
    (hone : OneLinePerProduct db.tables) :
    (checkout db req env).2.snapshot = none ∧ StockNonneg (checkout db req env).2.tables ∧
      OneLinePerProduct (checkout db req env).2.tables := by
  refine ⟨checkout_snapshot db req env hidle, ?_⟩
  rcases checkout_cases db req env (Or.inl hidle) with hr | hs
  · rw [hr.2]
    exact ⟨hstock, hone⟩
  · rw [hs.2.2.2]
    constructor
    · intro id p hp
      simp only [committedTables, productsAfter] at hp
      cases hq : db.tables.products id with
      | none => rw [hq] at hp; exact absurd hp (by simp)
      | some p0 =>
        rw [hq] at hp
        simp only [Option.map_some', Option.some.injEq] at hp
        subst hp
        have hreq : requestedOf (cartSql db.tables (sessionUserId req)) id ≤ p0.quantity := by
          apply requestedOf_le id p0.quantity (hstock id p0 hq) _
            (cartSql_pairwise db.tables _ hone)
          intro row hrow hid
          obtain ⟨p1, hp1, hq1⟩ := cartSql_stock db.tables _ row hrow
          rw [hid, hq] at hp1
          simp only [Option.some.injEq] at hp1
          subst hp1
          rw [hq1]
          exact hs.2.2.1 row hrow
        simp only
        omega
    · exact List.Pairwise.filter _ hone

/-- Over any run of checkouts that starts with no transaction open, stock at
least zero and at most one cart line per user and product, every product's
stock stays at least zero. -/
theorem runCheckouts_stock_nonneg_of_one_line (calls : List (Request × Env)) :
    ∀ db : Db, db.snapshot = none → StockNonneg db.tables → OneLinePerProduct db.tables →
      StockNonneg (runCheckouts db calls).tables := by
  induction calls with
  | nil => intro db _ hstock _; exact hstock
  | cons call rest ih =>
    intro db hidle hstock hone
    obtain ⟨h1, h2, h3⟩ := checkout_keeps_invariant db call.1 call.2 hidle hstock hone
    exact ih _ h1 h2 h3

/-! ## The claims -/

/-- C1 (atomicity).  For every state of the connection on which no transaction
is open (or whose `beginTransaction` succeeds), every request and every choice
of failing statements: if checkout does not end in the redirect to the
receipt, the four tables are exactly what they were before the call. -/
theorem checkout_atomic (db : Db) (req : Request) (env : Env)
    (hstart : db.snapshot = none ∨ env.faults.begin = false)
    (hfail : (checkout db req env).1.isReceipt = false) :
    (checkout db req env).2.tables = db.tables :=
  checkout_failure_tables db req env hstart hfail

/-- Witness of C1: scenario 1 with the commit failing is rolled back. -/
theorem checkout_atomic_witness :
    (scenario1.snapshot = none ∨ commitFails.faults.begin = false) ∧
      (checkout scenario1 (requestOf 1) commitFails).1.isReceipt = false ∧
      (checkout scenario1 (requestOf 1) commitFails).2.tables = scenario1.tables :=
  ⟨Or.inl rfl, by decide,
    checkout_atomic scenario1 (requestOf 1) commitFails (Or.inl rfl) (by decide)⟩

/-- C3.  If a cart line of the logged-in user asks for more than the current
stock of its product, checkout changes none of the four tables (no order, no
order line, stock and cart as before) whatever else fails, and, when the
transaction begins and the cart loads, answers with the insufficient-stock
flash and the redirect to the cart. -/
theorem checkout_insufficient_stock (db : Db) (req : Request) (env : Env)
    (line : CartItem) (p : Product)
    (hidle : db.snapshot = none) (hu : sessionUserId req ≠ 0)
    (hline : line ∈ db.tables.cart_items) (huser : line.user_id = sessionUserId req)
    (hp : db.tables.products line.product_id = some p) (hqty : line.quantity > p.quantity) :
    (checkout db req env).2.tables = db.tables ∧
      (checkout db req env).1.isReceipt = false ∧
      (env.faults.begin = false → env.faults.loadCart = false →
        (checkout db req env).1 =
          .redirectCart "Not enough stock for one or more items.") := by
  have hrow : (⟨line.id, line.product_id, line.quantity, p.quantity, p.price⟩ : CartRow) ∈
      cartSql db.tables (sessionUserId req) := by
    unfold cartSql
    rw [List.mem_filterMap]
    refine ⟨line, ?_, ?_⟩
    · rw [List.mem_filter]
      exact ⟨hline, by simpa using huser⟩
    · rw [hp]
  have hnot : (checkout db req env).1.isReceipt = false := by
    cases hrec : (checkout db req env).1.isReceipt with
    | false => rfl
    | true =>
      exfalso
      have hle := (checkout_receipt db req env hrec).2.2.1 _ hrow
      simp only at hle
      omega
  exact ⟨checkout_failure_tables db req env (Or.inl hidle) hnot, hnot,
    fun hb hl => checkout_out_of_stock db req env _ hu hb hl hrow hqty⟩

/-- Witness of C3: scenario 2 (3 requested against stock 2). -/
theorem checkout_insufficient_stock_witness :
    (checkout scenario2 (requestOf 1) calmEnv).2.tables = scenario2.tables ∧
      (checkout scenario2 (requestOf 1) calmEnv).1.isReceipt = false ∧
      (calmEnv.faults.begin = false → calmEnv.faults.loadCart = false →
        (checkout scenario2 (requestOf 1) calmEnv).1 =
          .redirectCart "Not enough stock for one or more items.") :=
  checkout_insufficient_stock scenario2 (requestOf 1) calmEnv ⟨1, 1, 1, 3⟩ ⟨"A", 2, 1000⟩
    rfl (by decide) (by decide) (by decide) (by decide) (by decide)

/-- C9.  For a logged-in user without cart lines, checkout changes none of the
four tables (no order, no order line, no stock change) whatever else fails,
and, when the transaction begins and the cart loads, answers with the
empty-cart flash and the redirect to the cart, not with an error passed to
`next`. -/
theorem checkout_empty_cart (db : Db) (req : Request) (env : Env)
    (hidle : db.snapshot = none) (hu : sessionUserId req ≠ 0)
    (hempty : ∀ line ∈ db.tables.cart_items, line.user_id ≠ sessionUserId req) :
    (checkout db req env).2.tables = db.tables ∧
      (checkout db req env).1.isReceipt = false ∧
      (env.faults.begin = false → env.faults.loadCart = false →
        (checkout db req env).1 = .redirectCart "Your cart is empty.") := by
  have hrows : cartSql db.tables (sessionUserId req) = [] := by
    unfold cartSql
    have : db.tables.cart_items.filter
        (fun ci => decide (ci.user_id = sessionUserId req)) = [] := by
      rw [List.filter_eq_nil_iff]
      intro line hl
      simpa using hempty line hl
    rw [this]
    rfl
  have hnot : (checkout db req env).1.isReceipt = false := by
    cases hrec : (checkout db req env).1.isReceipt with
    | false => rfl
    | true => exact absurd hrows (checkout_receipt db req env hrec).2.1
  refine ⟨checkout_failure_tables db req env (Or.inl hidle) hnot, hnot, ?_⟩
  intro hb hl
  unfold checkout cartStep
  simp only [hu, hb, hl, if_false, Bool.false_eq_true, Db.beginTransaction, hrows,
    List.length_nil, if_true]
  rfl

/-- Witness of C9: user 2 has no line in scenario 1. -/
theorem checkout_empty_cart_witness :
    (checkout scenario1 (requestOf 2) calmEnv).2.tables = scenario1.tables ∧
      (checkout scenario1 (requestOf 2) calmEnv).1.isReceipt = false ∧
      (calmEnv.faults.begin = false → calmEnv.faults.loadCart = false →
        (checkout scenario1 (requestOf 2) calmEnv).1 = .redirectCart "Your cart is empty.") :=
  checkout_empty_cart scenario1 (requestOf 2) calmEnv rfl (by decide) (by decide)

/-- C5 (counterexample).  User 1 holds 3 of a product that costs 0.10: checkout
ends in the receipt, and the total it computes and gives to the insert is the
double `5404319552844596 * 2 ^ -54`, which prints as 0.30000000000000004; it is
not the exact sum 0.30 (30 minor units). -/
theorem checkout_total_not_exact :
    exactTotal (cartSql threeDimes.tables 1) = 30 ∧
    (checkout threeDimes (requestOf 1) calmEnv).1 = .redirectReceipt 1 ∧
    totalAmount (cartSql threeDimes.tables 1) = ⟨5404319552844596, -54⟩ ∧
    (totalAmount (cartSql threeDimes.tables 1)).toRat ≠
      ((exactTotal (cartSql threeDimes.tables 1) : Int) : ℚ) / 100 := by
  have h1 : exactTotal (cartSql threeDimes.tables 1) = 30 := by decide
  have h3 : totalAmount (cartSql threeDimes.tables 1) = ⟨5404319552844596, -54⟩ := by
    decide
  refine ⟨h1, by decide, h3, ?_⟩
  rw [h3, h1]
  norm_num [Double.toRat]

/-- C5 (amended).  For a logged-in user whose cart query returns rows, each
asking for at most the stock, and with no statement failing, checkout appends
exactly one order for that user, and the `totalAmount` it gives to the insert
is the sum over the cart rows, from left to right, of the price read by the
in-transaction cart query times the cart quantity, computed in doubles: each
price, each product and each partial sum is rounded to the nearest double.
When every price is a multiple of 0.25 and the line amounts add up to less
than `10 ^ 13` currency units (`10 ^ 15` minor units), no rounding occurs: the
total is the exact sum, and so is the amount the order row keeps. -/
theorem checkout_total_amount (db : Db) (req : Request) (env : Env)
    (hu : sessionUserId req ≠ 0) (hcalm : env.faults = Faults.none)
    (hne : cartSql db.tables (sessionUserId req) ≠ [])
    (hok : ∀ row ∈ cartSql db.tables (sessionUserId req), row.cart_qty ≤ row.stock_qty) :
    ∃ order : Order,
      (checkout db req env).2.tables.orders = db.tables.orders ++ [order] ∧
      order.user_id = sessionUserId req ∧
      order.totalAmount =
        amountColumn (totalAmount (cartSql db.tables (sessionUserId req))) ∧
      totalAmount (cartSql db.tables (sessionUserId req)) =
        (cartSql db.tables (sessionUserId req)).foldl (fun sum row =>
          sum.add ((Double.ofCents row.price).mul (Double.ofInt row.cart_qty))) ⟨0, 0⟩ ∧
      ((∀ row ∈ cartSql db.tables (sessionUserId req), 25 ∣ row.price) →
        ((cartSql db.tables (sessionUserId req)).map
          (fun row => |row.price * row.cart_qty|)).sum < 10 ^ 15 →
        (totalAmount (cartSql db.tables (sessionUserId req))).toRat =
          ((exactTotal (cartSql db.tables (sessionUserId req)) : Int) : ℚ) / 100 ∧
        order.totalAmount = exactTotal (cartSql db.tables (sessionUserId req))) := by
  rw [checkout_calm db req env hu hcalm hne hok]
  refine ⟨_, rfl, rfl, rfl, ?_, ?_⟩
  · unfold totalAmount
    simp only [numberOr0_eq]
  · intro h25 hb
    have hexact := totalAmount_exact _ h25 (lt_trans hb (by norm_num))
    exact ⟨hexact, amountColumn_exact _ _ hexact⟩

/-- Witness of C5 (amended): in scenario 1 the prices 10.00 and 3.50 are
multiples of 0.25, and the total is 2 x 10.00 + 1 x 3.50 = 23.50 exactly. -/
theorem checkout_total_amount_witness :
    (exactTotal (cartSql scenario1.tables (sessionUserId (requestOf 1))) = 2350 ∧
      (∀ row ∈ cartSql scenario1.tables (sessionUserId (requestOf 1)), 25 ∣ row.price) ∧
      ((cartSql scenario1.tables (sessionUserId (requestOf 1))).map
        (fun row => |row.price * row.cart_qty|)).sum < 10 ^ 15 ∧
      (checkout scenario1 (requestOf 1) calmEnv).2.tables.orders =
        [⟨1, 1, 7, 2350, "Pending", 7⟩]) ∧
    ∃ order : Order,
      (checkout scenario1 (requestOf 1) calmEnv).2.tables.orders =
        scenario1.tables.orders ++ [order] ∧
      order.user_id = sessionUserId (requestOf 1) ∧
      order.totalAmount =
        amountColumn (totalAmount (cartSql scenario1.tables (sessionUserId (requestOf 1)))) ∧
      totalAmount (cartSql scenario1.tables (sessionUserId (requestOf 1))) =
        (cartSql scenario1.tables (sessionUserId (requestOf 1))).foldl (fun sum row =>
          sum.add ((Double.ofCents row.price).mul (Double.ofInt row.cart_qty))) ⟨0, 0⟩ ∧
      ((∀ row ∈ cartSql scenario1.tables (sessionUserId (requestOf 1)), 25 ∣ row.price) →
        ((cartSql scenario1.tables (sessionUserId (requestOf 1))).map
          (fun row => |row.price * row.cart_qty|)).sum < 10 ^ 15 →
        (totalAmount (cartSql scenario1.tables (sessionUserId (requestOf 1)))).toRat =
          ((exactTotal (cartSql scenario1.tables (sessionUserId (requestOf 1))) : Int) : ℚ) /
            100 ∧
        order.totalAmount =
          exactTotal (cartSql scenario1.tables (sessionUserId (requestOf 1)))) :=
  ⟨by decide,
    checkout_total_amount scenario1 (requestOf 1) calmEnv (by decide) rfl (by decide)
      (by decide)⟩

/-- C6.  On a checkout that ends in the receipt, every product's stock is
lowered by the total quantity the user's cart rows ask of it: a product with
exactly one cart row goes from the stock that row read to that stock minus
the row's quantity, and a product without a cart row keeps its row
unchanged. -/
theorem checkout_stock_effect (db : Db) (req : Request) (env : Env) (orderId : Nat)
    (hsucc : (checkout db req env).1 = .redirectReceipt orderId) :
    (∀ id : Nat,
      (checkout db req env).2.tables.products id =
        (db.tables.products id).map (fun p =>
          { p with quantity :=
              p.quantity - requestedOf (cartSql db.tables (sessionUserId req)) id })) ∧
    (∀ row ∈ cartSql db.tables (sessionUserId req),
      (cartSql db.tables (sessionUserId req)).filter
          (fun r => decide (r.product_id = row.product_id)) = [row] →
      ∃ p : Product, db.tables.products row.product_id = some p ∧
        p.quantity = row.stock_qty ∧
        (checkout db req env).2.tables.products row.product_id =
          some { p with quantity := row.stock_qty - row.cart_qty }) ∧
    (∀ id : Nat, (∀ row ∈ cartSql db.tables (sessionUserId req), row.product_id ≠ id) →
      (checkout db req env).2.tables.products id = db.tables.products id) := by
  have hrec := checkout_receipt db req env (receipt_of_eq _ _ hsucc)
  have hfinal : ∀ id : Nat, (checkout db req env).2.tables.products id =
      (db.tables.products id).map (fun p =>
        { p with quantity :=
            p.quantity - requestedOf (cartSql db.tables (sessionUserId req)) id }) := by
    intro id
    rw [hrec.2.2.2]
    rfl
  refine ⟨hfinal, ?_, ?_⟩
  · intro row hrow hsingle
    unfold cartSql at hrow
    rw [List.mem_filterMap] at hrow
    obtain ⟨line, _, hline⟩ := hrow
    cases hp : db.tables.products line.product_id with
    | none => rw [hp] at hline; exact absurd hline (by simp)
    | some p =>
      rw [hp] at hline
      simp only [Option.some.injEq] at hline
      subst hline
      refine ⟨p, hp, rfl, ?_⟩
      rw [hfinal, requestedOf_single _ _ hsingle]
      simp only at hp ⊢
      rw [hp]
      rfl
  · intro id habsent
    rw [hfinal, requestedOf_absent _ _ habsent]
    cases db.tables.products id <;> simp

/-- Witness of C6: in scenario 1 product 1 goes from 5 to 3 and product 2 from
1 to 0. -/
theorem checkout_stock_effect_witness :
    ((checkout scenario1 (requestOf 1) calmEnv).2.tables.products 1 = some ⟨"A", 3, 1000⟩ ∧
      (checkout scenario1 (requestOf 1) calmEnv).2.tables.products 2 = some ⟨"B", 0, 350⟩) ∧
    (checkout scenario1 (requestOf 1) calmEnv).1 = .redirectReceipt 1 ∧
    ((∀ id : Nat,
      (checkout scenario1 (requestOf 1) calmEnv).2.tables.products id =
        (scenario1.tables.products id).map (fun p =>
          { p with quantity :=
              p.quantity -
                requestedOf (cartSql scenario1.tables (sessionUserId (requestOf 1))) id })) ∧
    (∀ row ∈ cartSql scenario1.tables (sessionUserId (requestOf 1)),
      (cartSql scenario1.tables (sessionUserId (requestOf 1))).filter
          (fun r => decide (r.product_id = row.product_id)) = [row] →
      ∃ p : Product, scenario1.tables.products row.product_id = some p ∧
        p.quantity = row.stock_qty ∧
        (checkout scenario1 (requestOf 1) calmEnv).2.tables.products row.product_id =
          some { p with quantity := row.stock_qty - row.cart_qty }) ∧
    (∀ id : Nat,
      (∀ row ∈ cartSql scenario1.tables (sessionUserId (requestOf 1)), row.product_id ≠ id) →
      (checkout scenario1 (requestOf 1) calmEnv).2.tables.products id =
        scenario1.tables.products id)) :=
  ⟨by decide, by decide,
    checkout_stock_effect scenario1 (requestOf 1) calmEnv 1 (by decide)⟩

/-- C7.  A checkout that ends in the receipt appends exactly one order header,
owned by the user and carrying the new order id, and appends exactly one order
line per row of the cart query, in row order, each with the new order id, the
row's product id, its cart quantity and the price read by the cart query. -/
theorem checkout_creates_order (db : Db) (req : Request) (env : Env) (orderId : Nat)
    (hsucc : (checkout db req env).1 = .redirectReceipt orderId) :
    orderId = db.nextOrderId ∧
    (checkout db req env).2.tables.orders =
      db.tables.orders ++
        [{ id := orderId, user_id := sessionUserId req, orderDate := env.now,
           totalAmount := amountColumn (totalAmount (cartSql db.tables (sessionUserId req))),
           status := "Pending", createdAt := env.now }] ∧
    (checkout db req env).2.tables.order_items =
      db.tables.order_items ++
        (cartSql db.tables (sessionUserId req)).map (fun row =>
          ⟨orderId, row.product_id, row.cart_qty, row.price, env.now⟩) := by
  have hrec := checkout_receipt db req env (receipt_of_eq _ _ hsucc)
  have hid : orderId = db.nextOrderId := by
    have h := hsucc
    rw [hrec.2.2.2] at h
    simp only [CheckoutResponse.redirectReceipt.injEq] at h
    exact h.symm
  subst hid
  refine ⟨rfl, ?_, ?_⟩
  · rw [hrec.2.2.2]
    rfl
  · rw [hrec.2.2.2, ← orderItemsOf_eq]
    rfl

/-- Witness of C7: scenario 1 yields order 1 with two order lines. -/
theorem checkout_creates_order_witness :
    1 = scenario1.nextOrderId ∧
    (checkout scenario1 (requestOf 1) calmEnv).2.tables.orders =
      scenario1.tables.orders ++
        [{ id := 1, user_id := sessionUserId (requestOf 1), orderDate := calmEnv.now,
           totalAmount :=
             amountColumn (totalAmount (cartSql scenario1.tables (sessionUserId (requestOf 1)))),
           status := "Pending", createdAt := calmEnv.now }] ∧
    (checkout scenario1 (requestOf 1) calmEnv).2.tables.order_items =
      scenario1.tables.order_items ++
        (cartSql scenario1.tables (sessionUserId (requestOf 1))).map (fun row =>
          ⟨1, row.product_id, row.cart_qty, row.price, calmEnv.now⟩) :=
  checkout_creates_order scenario1 (requestOf 1) calmEnv 1 (by decide)

/-- C8.  After a checkout that ends in the receipt, the cart table is the old
one without the user's lines: the user has no line left, and for every other
user the lines are the same as before. -/
theorem checkout_clears_cart (db : Db) (req : Request) (env : Env) (orderId : Nat)
    (hsucc : (checkout db req env).1 = .redirectReceipt orderId) :
    (checkout db req env).2.tables.cart_items =
      db.tables.cart_items.filter (fun ci => decide (ci.user_id ≠ sessionUserId req)) ∧
    (∀ line ∈ (checkout db req env).2.tables.cart_items,
      line.user_id ≠ sessionUserId req) ∧
    (∀ other : Nat, other ≠ sessionUserId req →
      (checkout db req env).2.tables.cart_items.filter
          (fun ci => decide (ci.user_id = other)) =
        db.tables.cart_items.filter (fun ci => decide (ci.user_id = other))) := by
  have hrec := checkout_receipt db req env (receipt_of_eq _ _ hsucc)
  have hcart : (checkout db req env).2.tables.cart_items =
      db.tables.cart_items.filter (fun ci => decide (ci.user_id ≠ sessionUserId req)) := by
    rw [hrec.2.2.2]
    rfl
  refine ⟨hcart, ?_, ?_⟩
  · intro line hline
    rw [hcart, List.mem_filter] at hline
    simpa using hline.2
  · intro other hother
    rw [hcart, List.filter_filter]
    apply List.filter_congr
    intro ci _
    by_cases h : ci.user_id = other
    · simp [h, hother]
    · simp [h]

/-- Witness of C8: scenario 1 ends with an empty cart for user 1. -/
theorem checkout_clears_cart_witness :
    (checkout scenario1 (requestOf 1) calmEnv).2.tables.cart_items =
      scenario1.tables.cart_items.filter
        (fun ci => decide (ci.user_id ≠ sessionUserId (requestOf 1))) ∧
    (∀ line ∈ (checkout scenario1 (requestOf 1) calmEnv).2.tables.cart_items,
      line.user_id ≠ sessionUserId (requestOf 1)) ∧
    (∀ other : Nat, other ≠ sessionUserId (requestOf 1) →
      (checkout scenario1 (requestOf 1) calmEnv).2.tables.cart_items.filter
          (fun ci => decide (ci.user_id = other)) =
        scenario1.tables.cart_items.filter (fun ci => decide (ci.user_id = other))) :=
  checkout_clears_cart scenario1 (requestOf 1) calmEnv 1 (by decide)

/-- C2 (failing run).  With stock 3 and two cart lines of 2 units each for the
same product, both lines pass the per-line check, checkout ends in the
receipt, and the two stock updates leave the product with stock -1. -/
theorem checkout_duplicate_lines_negative_stock :
    duplicateLines.tables.products 1 = some ⟨"A", 3, 1000⟩ ∧
    cartSql duplicateLines.tables 1 = [⟨1, 1, 2, 3, 1000⟩, ⟨2, 1, 2, 3, 1000⟩] ∧
    (checkout duplicateLines (requestOf 1) calmEnv).1 = .redirectReceipt 1 ∧
    (runCheckouts duplicateLines [(requestOf 1, calmEnv)]).tables.products 1 =
      some ⟨"A", -1, 1000⟩ := by
  decide

/-- C4.  Scenario 2 (product 1: 3 requested, 2 available) and its variant
(product 2: 5 requested, 1 available) get the same response from checkout, the
fixed text 'Not enough stock for one or more items.', so no reading of the
response yields the offending lines; on scenario 2 the model's `checkout`
reports product 1 with requested 3 and available 2, and `confirmPayment` names
the product and its stock. -/
theorem checkout_outcome_hides_lines :
    insufficientLines scenario2.tables 1 = [(1, 3, 2)] ∧
    insufficientLines scenario2b.tables 1 = [(2, 5, 1)] ∧
    (checkout scenario2 (requestOf 1) calmEnv).1 =
      (checkout scenario2b (requestOf 1) calmEnv).1 ∧
    (checkout scenario2 (requestOf 1) calmEnv).1 =
      .redirectCart "Not enough stock for one or more items." ∧
    (Cart.checkout scenario2 1 ModelCheckoutFaults.none).1 =
      .insufficientStock [⟨1, "A", 3, 2⟩] ∧
    (confirmPayment sampleDefaults scenario2 (cartRequestOf 1) 7 PayFaults.none).1 =
      .renderCart 400 (.onlyHas "A" 2) ∧
    ¬ ∃ decode : CheckoutResponse → List (Nat × Int × Int),
        ∀ (db : Db) (req : Request) (env : Env),
          db.snapshot = none → env.faults = Faults.none → sessionUserId req ≠ 0 →
          insufficientLines db.tables (sessionUserId req) ≠ [] →
          decode (checkout db req env).1 = insufficientLines db.tables (sessionUserId req) := by
  refine ⟨by decide, by decide, by decide, by decide, by decide, by decide, ?_⟩
  rintro ⟨decode, h⟩
  have h1 := h scenario2 (requestOf 1) calmEnv rfl rfl (by decide) (by decide)
  have h2 := h scenario2b (requestOf 1) calmEnv rfl rfl (by decide) (by decide)
  have e : (checkout scenario2 (requestOf 1) calmEnv).1 =
      (checkout scenario2b (requestOf 1) calmEnv).1 := by decide
  rw [e, h2] at h1
  exact absurd h1 (by decide)

/-- Whenever some cart row of the logged-in user asks for more than the stock,
and the transaction begins and the cart loads, the response of checkout is one
fixed flash message with the redirect to the cart. -/
theorem checkout_insufficient_outcome_fixed (db : Db) (req : Request) (env : Env)
    (hu : sessionUserId req ≠ 0) (hb : env.faults.begin = false)
    (hl : env.faults.loadCart = false)
    (hins : insufficientLines db.tables (sessionUserId req) ≠ []) :
    (checkout db req env).1 = .redirectCart "Not enough stock for one or more items." := by
  unfold insufficientLines at hins
  obtain ⟨x, hx⟩ := List.exists_mem_of_ne_nil _ hins
  rw [List.mem_map] at hx
  obtain ⟨row, hrow, _⟩ := hx
  rw [List.mem_filter] at hrow
  exact checkout_out_of_stock db req env row hu hb hl hrow.1 (by simpa using hrow.2)

/-- The fixed message on the variant of scenario 2. -/
theorem checkout_insufficient_outcome_fixed_witness :
    insufficientLines scenario2b.tables (sessionUserId (requestOf 1)) ≠ [] ∧
      (checkout scenario2b (requestOf 1) calmEnv).1 =
        .redirectCart "Not enough stock for one or more items." :=
  ⟨by decide,
    checkout_insufficient_outcome_fixed scenario2b (requestOf 1) calmEnv (by decide) rfl rfl
      (by decide)⟩

/-- C10 (counterexample).  User 1 holds a line for product 1 (1 of stock 5)
and a line for product 99, which does not exist: checkout ends in the receipt,
one order and one order line are created, and the cart is cleared, the
dangling line included. -/
theorem checkout_dangling_line_succeeds :
    danglingCart.tables.products 99 = none ∧
    (checkout danglingCart (requestOf 1) calmEnv).1 = .redirectReceipt 1 ∧
    (checkout danglingCart (requestOf 1) calmEnv).2.tables.orders =
      [⟨1, 1, 7, 1000, "Pending", 7⟩] ∧
    (checkout danglingCart (requestOf 1) calmEnv).2.tables.order_items =
      [⟨1, 1, 1, 1000, 7⟩] ∧
    (checkout danglingCart (requestOf 1) calmEnv).2.tables.cart_items = [] := by
  decide

/-- C10 (amended).  A cart line whose product has no row is dropped by the
inner join of the cart query, so checkout answers, and writes orders, order
lines and stock, exactly as it does on the same tables without such lines. -/
theorem checkout_ignores_dangling (db : Db) (req : Request) (env : Env) :
    cartSql (withoutDangling db.tables) (sessionUserId req) =
      cartSql db.tables (sessionUserId req) ∧
    (checkout { db with tables := withoutDangling db.tables } req env).1 =
      (checkout db req env).1 ∧
    (checkout { db with tables := withoutDangling db.tables } req env).2.tables.orders =
      (checkout db req env).2.tables.orders ∧
    (checkout { db with tables := withoutDangling db.tables } req env).2.tables.order_items =
      (checkout db req env).2.tables.order_items ∧
    (checkout { db with tables := withoutDangling db.tables } req env).2.tables.products =
      (checkout db req env).2.tables.products := by
  have hrows := cartSql_withoutDangling db.tables (sessionUserId req)
  have hagree : Db.agreeOffCart { db with tables := withoutDangling db.tables } db := by
    refine ⟨⟨rfl, rfl, rfl⟩, rfl, ?_⟩
    cases hs : db.snapshot with
    | none => simp
    | some s => exact Tables.agreeOffCart_refl s
  have h := checkout_agree _ db req env hagree hrows
  exact ⟨hrows, h.1, h.2.1.1, h.2.1.2.1, h.2.1.2.2⟩

/-! ## Claims on the boundary of the stock check and on runs of checkouts -/

theorem checkout_line_above_stock (db : Db) (req : Request) (env : Env)
    (line : CartItem) (p : Product)
    (hidle : db.snapshot = none) (hu : sessionUserId req ≠ 0)
    (hline : line ∈ db.tables.cart_items) (huser : line.user_id = sessionUserId req)
    (hp : db.tables.products line.product_id = some p) (hqty : line.quantity > p.quantity) :
    (checkout db req env).2.tables = db.tables ∧
      (env.faults.begin = false → env.faults.loadCart = false →
        (checkout db req env).1 =
          .redirectCart "Not enough stock for one or more items.") := by
  have hrow : (⟨line.id, line.product_id, line.quantity, p.quantity, p.price⟩ : CartRow) ∈
      cartSql db.tables (sessionUserId req) := by
    unfold cartSql
    rw [List.mem_filterMap]
    refine ⟨line, ?_, ?_⟩
    · rw [List.mem_filter]
      exact ⟨hline, by simpa using huser⟩
    · rw [hp]
  have hnot : (checkout db req env).1.isReceipt = false := by
    cases hrec : (checkout db req env).1.isReceipt with
    | false => rfl
    | true =>
      exfalso
      have hle := (checkout_receipt db req env hrec).2.2.1 _ hrow
      simp only at hle
      omega
  exact ⟨checkout_failure_tables db req env (Or.inl hidle) hnot,
    fun hb hl => checkout_out_of_stock db req env _ hu hb hl hrow hqty⟩

/-- C11.  For a logged-in user whose cart query returns rows, each asking for
at most the stock (equality included), and with no statement failing, checkout
ends in the receipt; and a row that asks for exactly the stock, being the only
row of its product, leaves that product with stock 0. -/
theorem checkout_accepts_exact_stock (db : Db) (req : Request) (env : Env)
    (hu : sessionUserId req ≠ 0) (hcalm : env.faults = Faults.none)
    (hne : cartSql db.tables (sessionUserId req) ≠ [])
    (hok : ∀ row ∈ cartSql db.tables (sessionUserId req), row.cart_qty ≤ row.stock_qty) :
    (checkout db req env).1 = .redirectReceipt db.nextOrderId ∧
    (∀ row ∈ cartSql db.tables (sessionUserId req),
      row.cart_qty = row.stock_qty →
      (cartSql db.tables (sessionUserId req)).filter
          (fun r => decide (r.product_id = row.product_id)) = [row] →
      ∃ p : Product, db.tables.products row.product_id = some p ∧
        (checkout db req env).2.tables.products row.product_id =
          some { p with quantity := 0 }) := by
  have hrun := checkout_calm db req env hu hcalm hne hok
  refine ⟨by rw [hrun], ?_⟩
  intro row hrow heq hsingle
  obtain ⟨p, hp, hq⟩ := cartSql_stock db.tables _ row hrow
  refine ⟨p, hp, ?_⟩
  rw [hrun]
  simp only [committedTables, productsAfter, hp, Option.map_some',
    requestedOf_single _ _ hsingle, heq, hq, sub_self]

/-- Witness of C11: in scenario 1 product 2 has stock 1 and 1 requested. -/
theorem checkout_accepts_exact_stock_witness :
    (cartSql scenario1.tables (sessionUserId (requestOf 1))).map
        (fun row => (row.cart_qty, row.stock_qty)) = [(2, 5), (1, 1)] ∧
    (checkout scenario1 (requestOf 1) calmEnv).2.tables.products 2 = some ⟨"B", 0, 350⟩ ∧
    ((checkout scenario1 (requestOf 1) calmEnv).1 = .redirectReceipt scenario1.nextOrderId ∧
    (∀ row ∈ cartSql scenario1.tables (sessionUserId (requestOf 1)),
      row.cart_qty = row.stock_qty →
      (cartSql scenario1.tables (sessionUserId (requestOf 1))).filter
          (fun r => decide (r.product_id = row.product_id)) = [row] →
      ∃ p : Product, scenario1.tables.products row.product_id = some p ∧
        (checkout scenario1 (requestOf 1) calmEnv).2.tables.products row.product_id =
          some { p with quantity := 0 })) :=
  ⟨by decide, by decide,
    checkout_accepts_exact_stock scenario1 (requestOf 1) calmEnv (by decide) rfl (by decide)
      (by decide)⟩

/-- C12 (failing run).  With stock 1 and two cart lines of 1 unit each for the
same product, no stock update is rejected: the second update runs against
stock 0, the call ends in the receipt instead of `DECREMENT_FAIL`, and the
commit leaves stock -1. -/
theorem checkout_decrement_is_unconditional :
    cartSql duplicateSingles.tables 1 = [⟨1, 1, 1, 1, 1000⟩, ⟨2, 1, 1, 1, 1000⟩] ∧
    ((duplicateSingles.tables.decrementStock 1 1).products 1 = some ⟨"A", 0, 1000⟩ ∧
      ((duplicateSingles.tables.decrementStock 1 1).decrementStock 1 1).products 1 =
        some ⟨"A", -1, 1000⟩) ∧
    (stockUpdates calmEnv.faults.stockUpdate 0 (cartSql duplicateSingles.tables 1)
      duplicateSingles.tables).2 = false ∧
    (checkout duplicateSingles (requestOf 1) calmEnv).1 = .redirectReceipt 1 ∧
    (checkout duplicateSingles (requestOf 1) calmEnv).1 ≠ .nextError .DECREMENT_FAIL ∧
    (checkout duplicateSingles (requestOf 1) calmEnv).2.tables.products 1 =
      some ⟨"A", -1, 1000⟩ ∧
    (checkout duplicateSingles (requestOf 1) calmEnv).2.snapshot.isNone = true := by
  decide

/-- C20.  Checkouts run one after another validate against the stock the
previous one left: if, in the tables left by the first call, a cart line of
the second user asks for more than the stock, the second call changes nothing
and, when its transaction begins and its cart loads, answers with the
insufficient-stock flash. -/
theorem checkouts_serialized (db : Db) (req1 req2 : Request) (env1 env2 : Env)
    (line : CartItem) (p : Product)
    (hidle : db.snapshot = none) (hu : sessionUserId req2 ≠ 0)
    (hb : env2.faults.begin = false) (hl : env2.faults.loadCart = false)
    (hline : line ∈ (checkout db req1 env1).2.tables.cart_items)
    (huser : line.user_id = sessionUserId req2)
    (hp : (checkout db req1 env1).2.tables.products line.product_id = some p)
    (hqty : line.quantity > p.quantity) :
    (runCheckouts db [(req1, env1), (req2, env2)]).tables =
        (checkout db req1 env1).2.tables ∧
      (checkout (checkout db req1 env1).2 req2 env2).1 =
        .redirectCart "Not enough stock for one or more items." := by
  have h := checkout_line_above_stock (checkout db req1 env1).2 req2 env2 line p
    (checkout_snapshot db req1 env1 hidle) hu hline huser hp hqty
  exact ⟨h.1, h.2 hb hl⟩

/-- Witness of C20 (scenario 4): with stock 1 and two users asking for 1 each,
the first call ends in the receipt and leaves stock 0, the second is rejected,
stock is still 0 and there is one order. -/
theorem checkouts_serialized_witness :
    ((checkout scenario4 (requestOf 1) calmEnv).1 = .redirectReceipt 1 ∧
      (checkout scenario4 (requestOf 1) calmEnv).2.tables.products 1 = some ⟨"A", 0, 1000⟩ ∧
      (runCheckouts scenario4 [(requestOf 1, calmEnv), (requestOf 2, calmEnv)]).tables.products 1
        = some ⟨"A", 0, 1000⟩ ∧
      (runCheckouts scenario4
        [(requestOf 1, calmEnv), (requestOf 2, calmEnv)]).tables.orders.length = 1) ∧
    ((runCheckouts scenario4 [(requestOf 1, calmEnv), (requestOf 2, calmEnv)]).tables =
        (checkout scenario4 (requestOf 1) calmEnv).2.tables ∧
      (checkout (checkout scenario4 (requestOf 1) calmEnv).2 (requestOf 2) calmEnv).1 =
        .redirectCart "Not enough stock for one or more items.") :=
  ⟨by decide,
    checkouts_serialized scenario4 (requestOf 1) (requestOf 2) calmEnv calmEnv
      ⟨2, 2, 1, 1⟩ ⟨"A", 0, 1000⟩ rfl (by decide) rfl rfl (by decide) (by decide) (by decide)
      (by decide)⟩

/-! ## Claims on the conditional decrement and on clearing the cart -/

/-- C13.  For every product and every amount (those of at least zero
included), `Product.reduceStock` lowers the stock by the amount exactly when the stock is at least the amount
and otherwise leaves the tables as they are; it calls back with 1 affected row
when the decrement applied and with 0, not with an error, when it did not; no
other product is touched; a stock of at least zero stays at least zero; only a
failed query is reported as an error, and then nothing changes. -/
theorem reduceStock_conditional (t : Tables) (productId : Nat) (p : Product) (amount : Int)
    (hp : t.products productId = some p) :
    (amount ≤ p.quantity →
      (reduceStock t productId amount false).1 = .result 1 ∧
      (reduceStock t productId amount false).2.products productId =
        some { p with quantity := p.quantity - amount }) ∧
    (p.quantity < amount → reduceStock t productId amount false = (.result 0, t)) ∧
    (∀ id : Nat, id ≠ productId →
      (reduceStock t productId amount false).2.products id = t.products id) ∧
    ((reduceStock t productId amount false).2.orders = t.orders ∧
      (reduceStock t productId amount false).2.order_items = t.order_items ∧
      (reduceStock t productId amount false).2.cart_items = t.cart_items) ∧
    (0 ≤ p.quantity → ∀ q : Product,
      (reduceStock t productId amount false).2.products productId = some q →
        0 ≤ q.quantity) ∧
    reduceStock t productId amount true = (.error, t) := by
  have hcases : p.quantity ≥ amount ∨ p.quantity < amount := by omega
  rcases hcases with hge | hlt
  · have hrun : reduceStock t productId amount false =
        (.result 1, t.setProduct productId { p with quantity := p.quantity - amount }) := by
      simp [reduceStock, Tables.reduceStockSql, numberOr0_eq, hp, hge]
    refine ⟨fun _ => ?_, fun h => absurd h (by omega), ?_, ?_, ?_, rfl⟩
    · rw [hrun]
      simp [Tables.setProduct]
    · intro id hid
      rw [hrun]
      simp [Tables.setProduct, hid]
    · rw [hrun]
      exact ⟨rfl, rfl, rfl⟩
    · intro hq q hfinal
      rw [hrun] at hfinal
      simp only [Tables.setProduct, if_true, Option.some.injEq] at hfinal
      subst hfinal
      simp only
      omega
  · have hrun : reduceStock t productId amount false = (.result 0, t) := by
      have : ¬ p.quantity ≥ amount := by omega
      simp [reduceStock, Tables.reduceStockSql, numberOr0_eq, hp, this]
    refine ⟨fun h => absurd h (by omega), fun _ => hrun, ?_, ?_, ?_, rfl⟩
    · intro id _
      rw [hrun]
    · rw [hrun]
      exact ⟨rfl, rfl, rfl⟩
    · intro hq q hfinal
      rw [hrun, hp] at hfinal
      simp only [Option.some.injEq] at hfinal
      subst hfinal
      exact hq

/-- Witness of C13: on scenario 1, product 1 (stock 5) takes a decrement of 5
and refuses one of 6. -/
theorem reduceStock_conditional_witness :
    ((reduceStock scenario1.tables 1 5 false).2.products 1 = some ⟨"A", 0, 1000⟩ ∧
      (reduceStock scenario1.tables 1 6 false).1 = .result 0 ∧
      (reduceStock scenario1.tables 1 6 false).2.products 1 = some ⟨"A", 5, 1000⟩) ∧
    ((5 ≤ (⟨"A", 5, 1000⟩ : Product).quantity →
      (reduceStock scenario1.tables 1 5 false).1 = .result 1 ∧
      (reduceStock scenario1.tables 1 5 false).2.products 1 =
        some { (⟨"A", 5, 1000⟩ : Product) with quantity := (⟨"A", 5, 1000⟩ : Product).quantity - 5 }) ∧
    ((⟨"A", 5, 1000⟩ : Product).quantity < 5 →
      reduceStock scenario1.tables 1 5 false = (.result 0, scenario1.tables)) ∧
    (∀ id : Nat, id ≠ 1 →
      (reduceStock scenario1.tables 1 5 false).2.products id = scenario1.tables.products id) ∧
    ((reduceStock scenario1.tables 1 5 false).2.orders = scenario1.tables.orders ∧
      (reduceStock scenario1.tables 1 5 false).2.order_items = scenario1.tables.order_items ∧
      (reduceStock scenario1.tables 1 5 false).2.cart_items = scenario1.tables.cart_items) ∧
    (0 ≤ (⟨"A", 5, 1000⟩ : Product).quantity → ∀ q : Product,
      (reduceStock scenario1.tables 1 5 false).2.products 1 = some q → 0 ≤ q.quantity) ∧
    reduceStock scenario1.tables 1 5 true = (.error, scenario1.tables)) :=
  ⟨by decide, reduceStock_conditional scenario1.tables 1 ⟨"A", 5, 1000⟩ 5 (by decide)⟩

theorem deleteCart_idem (t : Tables) (userId : Nat) :
    (t.deleteCart userId).deleteCart userId = t.deleteCart userId := by
  unfold Tables.deleteCart
  simp [List.filter_filter]

theorem deleteCart_none_left (t : Tables) (userId : Nat) :
    (t.deleteCart userId).cart_items.filter (fun ci => decide (ci.user_id = userId)) = [] := by
  unfold Tables.deleteCart
  simp only [List.filter_filter]
  rw [List.filter_eq_nil_iff]
  intro ci _
  simp

theorem deleteCart_of_empty (t : Tables) (userId : Nat)
    (h : t.cart_items.filter (fun ci => decide (ci.user_id = userId)) = []) :
    t.deleteCart userId = t := by
  unfold Tables.deleteCart
  have : t.cart_items.filter (fun ci => decide (ci.user_id ≠ userId)) = t.cart_items := by
    rw [List.filter_eq_self]
    intro ci hci
    rw [List.filter_eq_nil_iff] at h
    simpa using h ci hci
  rw [this]

/-- C15.  Clearing a cart, by `Cart.clearByUser` or by `CartController.clear`,
removes the lines of that user and no other line and reports how many it
removed; on a cart that is already empty it reports 0, without an error, and
changes nothing; clearing twice leaves the same tables as clearing once. -/
theorem clear_idempotent (t : Tables) (req : CartRequest) :
    ((Cart.clearByUser t (uid req) false).2.cart_items =
        t.cart_items.filter (fun ci => decide (ci.user_id ≠ uid req)) ∧
      (Cart.clearByUser t (uid req) false).1 =
        .result (t.cart_items.filter (fun ci => decide (ci.user_id = uid req))).length ∧
      (Cart.clearByUser (Cart.clearByUser t (uid req) false).2 (uid req) false) =
        (.result 0, (Cart.clearByUser t (uid req) false).2) ∧
      (t.cart_items.filter (fun ci => decide (ci.user_id = uid req)) = [] →
        Cart.clearByUser t (uid req) false = (.result 0, t))) ∧
    (uid req ≠ 0 →
      (CartController.clear t req false).2.cart_items =
        t.cart_items.filter (fun ci => decide (ci.user_id ≠ uid req)) ∧
      (CartController.clear t { req with wantsJSON := true } false).1 =
        .json 200 true none
          (.removed (t.cart_items.filter (fun ci => decide (ci.user_id = uid req))).length) ∧
      CartController.clear (CartController.clear t req false).2
          { req with wantsJSON := true } false =
        (.json 200 true none (.removed 0), (CartController.clear t req false).2) ∧
      (t.cart_items.filter (fun ci => decide (ci.user_id = uid req)) = [] →
        CartController.clear t { req with wantsJSON := true } false =
          (.json 200 true none (.removed 0), t))) := by
  refine ⟨⟨rfl, rfl, ?_, ?_⟩, ?_⟩
  · simp only [Cart.clearByUser, Bool.false_eq_true, if_false]
    rw [deleteCart_none_left, deleteCart_idem]
    rfl
  · intro hempty
    simp only [Cart.clearByUser, Bool.false_eq_true, if_false]
    rw [hempty, deleteCart_of_empty t _ hempty]
    rfl
  · intro hu
    have huj : uid { req with wantsJSON := true } = uid req := rfl
    refine ⟨?_, ?_, ?_, ?_⟩
    · simp [CartController.clear, hu, Tables.deleteCart]
    · simp [CartController.clear, huj, hu]
    · simp only [CartController.clear, huj, hu, Bool.false_eq_true, if_false]
      rw [deleteCart_none_left, deleteCart_idem]
      rfl
    · intro hempty
      simp only [CartController.clear, huj, hu, Bool.false_eq_true, if_false]
      rw [hempty, deleteCart_of_empty t _ hempty]
      rfl

/-! ## Claims on the cart lines -/

theorem pairwise_map_same_keys (l : List CartItem) (g : CartItem → CartItem)
    (hg : ∀ ci, (g ci).user_id = ci.user_id ∧ (g ci).product_id = ci.product_id)
    (h : l.Pairwise (fun a b => a.user_id = b.user_id → a.product_id ≠ b.product_id)) :
    (l.map g).Pairwise (fun a b => a.user_id = b.user_id → a.product_id ≠ b.product_id) := by
  rw [List.pairwise_map]
  refine h.imp ?_
  intro a b hab
  rw [(hg a).1, (hg a).2, (hg b).1, (hg b).2]
  exact hab

theorem updateCartQuantityById_unique (t : Tables) (quantity : Int) (id : Nat)
    (h : OneLinePerProduct t) : OneLinePerProduct (t.updateCartQuantityById quantity id) := by
  unfold OneLinePerProduct Tables.updateCartQuantityById
  apply pairwise_map_same_keys _ _ _ h
  intro ci
  by_cases hc : ci.id = id <;> simp [hc]

theorem updateCartQuantityByIdUser_unique (t : Tables) (quantity : Int) (id userId : Nat)
    (h : OneLinePerProduct t) :
    OneLinePerProduct (t.updateCartQuantityByIdUser quantity id userId) := by
  unfold OneLinePerProduct Tables.updateCartQuantityByIdUser
  apply pairwise_map_same_keys _ _ _ h
  intro ci
  by_cases hc : ci.id = id ∧ ci.user_id = userId <;> simp [hc]

theorem addToCartQuantity_unique (t : Tables) (quantity : ℚ) (userId productId : Nat)
    (h : OneLinePerProduct t) :
    OneLinePerProduct (t.addToCartQuantity quantity userId productId).1 := by
  unfold OneLinePerProduct Tables.addToCartQuantity
  apply pairwise_map_same_keys _ _ _ h
  intro ci
  by_cases hc : ci.user_id = userId ∧ ci.product_id = productId <;> simp [hc]

theorem insertCartItem_unique (t : Tables) (insertId userId productId : Nat) (quantity : Int)
    (hnone : ∀ ci ∈ t.cart_items, ¬ (ci.user_id = userId ∧ ci.product_id = productId))
    (h : OneLinePerProduct t) :
    OneLinePerProduct (t.insertCartItem insertId userId productId quantity) := by
  unfold OneLinePerProduct Tables.insertCartItem
  rw [List.pairwise_append]
  refine ⟨h, List.pairwise_singleton _ _, ?_⟩
  intro a ha b hb hab
  rw [List.mem_singleton] at hb
  subst hb
  intro hprod
  exact hnone a ha ⟨hab, hprod⟩

theorem cartLineOf_none (t : Tables) (userId productId : Nat)
    (h : t.cartLineOf userId productId = none) :
    ∀ ci ∈ t.cart_items, ¬ (ci.user_id = userId ∧ ci.product_id = productId) := by
  unfold Tables.cartLineOf at h
  rw [List.find?_eq_none] at h
  intro ci hci
  simpa using h ci hci

theorem deleteCartItemByIdUser_unique (t : Tables) (id userId : Nat)
    (h : OneLinePerProduct t) : OneLinePerProduct (t.deleteCartItemByIdUser id userId) :=
  List.Pairwise.filter _ h

theorem deleteCartItemByUserProduct_unique (t : Tables) (userId productId : Nat)
    (h : OneLinePerProduct t) :
    OneLinePerProduct (t.deleteCartItemByUserProduct userId productId) :=
  List.Pairwise.filter _ h

theorem add_keeps_unique (t : Tables) (req : CartRequest) (insertId : Nat) (f : AddFaults)
    (h : OneLinePerProduct t) : OneLinePerProduct (CartController.add t req insertId f).2 := by
  unfold CartController.add
  simp only
  split
  · exact h
  · split
    · exact h
    · split
      · exact h
      · split
        · exact h
        · split
          · exact h
          · split
            · exact h
            · split
              · split
                · exact h
                · exact updateCartQuantityById_unique t _ _ h
              · rename_i hnone
                split
                · exact h
                · exact insertCartItem_unique t _ _ _ _ (cartLineOf_none t _ _ hnone) h

theorem performUpdateFor_keeps_unique (t : Tables) (wantsJSON : Bool) (userId : Nat)
    (quantity : ℚ) (insertId : Nat) (f : UpdateFaults) (productId cartRowId : Nat)
    (h : OneLinePerProduct t) :
    OneLinePerProduct
      (performUpdateFor t wantsJSON userId quantity insertId f productId cartRowId).2 := by
  unfold performUpdateFor
  simp only
  split
  · exact h
  · split
    · exact h
    · split
      · split
        · exact h
        · simp only
          split
          · exact deleteCartItemByIdUser_unique t _ _ h
          · exact deleteCartItemByUserProduct_unique t _ _ h
      · split
        · exact h
        · split
          · split
            · exact h
            · exact updateCartQuantityByIdUser_unique t _ _ _ h
          · split
            · exact h
            · split
              · split
                · exact h
                · exact updateCartQuantityById_unique t _ _ h
              · rename_i hnone
                split
                · exact h
                · exact insertCartItem_unique t _ _ _ _ (cartLineOf_none t _ _ hnone) h

theorem update_keeps_unique (t : Tables) (req : CartRequest) (insertId : Nat)
    (f : UpdateFaults) (h : OneLinePerProduct t) :
    OneLinePerProduct (CartController.update t req insertId f).2 := by
  unfold CartController.update
  simp only
  split
  · exact h
  · split
    · exact h
    · split
      · split
        · exact h
        · split
          · exact h
          · split
            · exact h
            · exact performUpdateFor_keeps_unique _ _ _ _ _ _ _ _ h
      · exact performUpdateFor_keeps_unique _ _ _ _ _ _ _ _ h

theorem cartAdd_keeps_unique (t : Tables) (data : CartAddData) (insertId : Nat)
    (updateFails insertFails : Bool) (h : OneLinePerProduct t) :
    OneLinePerProduct (Cart.add t data insertId updateFails insertFails).2 := by
  unfold Cart.add
  simp only
  split
  · exact h
  · split
    · split
      · exact h
      · split
        · exact addToCartQuantity_unique t _ _ _ h
        · rename_i hzero
          split
          · exact h
          · apply insertCartItem_unique _ _ _ _ _ _ h
            intro ci hci hmatch
            apply hzero
            simp only [Tables.addToCartQuantity, gt_iff_lt, List.length_pos]
            intro hnil
            rw [List.filter_eq_nil_iff] at hnil
            exact hnil ci hci (by simpa using hmatch)
    · exact h

/-- C16.  If the cart table holds at most one line per user and product, it
still does after any call of `CartController.add`, of `CartController.update`
or of the model's `Cart.add`, whatever the request and whichever queries
fail. -/
theorem cart_lines_stay_unique (t : Tables) (h : OneLinePerProduct t) :
    (∀ (req : CartRequest) (insertId : Nat) (f : AddFaults),
      OneLinePerProduct (CartController.add t req insertId f).2) ∧
    (∀ (req : CartRequest) (insertId : Nat) (f : UpdateFaults),
      OneLinePerProduct (CartController.update t req insertId f).2) ∧
    (∀ (data : CartAddData) (insertId : Nat) (updateFails insertFails : Bool),
      OneLinePerProduct (Cart.add t data insertId updateFails insertFails).2) :=
  ⟨fun req insertId f => add_keeps_unique t req insertId f h,
    fun req insertId f => update_keeps_unique t req insertId f h,
    fun data insertId uf inf => cartAdd_keeps_unique t data insertId uf inf h⟩

theorem addQty_pos (body : CartBody) : 1 ≤ addQty body := by
  unfold addQty
  simp only
  split <;> omega

theorem add_cases (t : Tables) (req : CartRequest) (insertId : Nat) (f : AddFaults) :
    (CartController.add t req insertId f).2 = t ∨
    (∃ (product : Product) (row : CartItem) (allowed : Int),
      t.products (addProductId req.body) = some product ∧
      t.cartLineOf (uid req) (addProductId req.body) = some row ∧
      1 ≤ allowed ∧ allowed = min (addQty req.body) (product.quantity - row.quantity) ∧
      (CartController.add t req insertId f).2 =
        t.updateCartQuantityById (row.quantity + allowed) row.id) ∨
    (∃ (product : Product) (allowed : Int),
      t.products (addProductId req.body) = some product ∧
      t.cartLineOf (uid req) (addProductId req.body) = none ∧
      1 ≤ allowed ∧ allowed = min (addQty req.body) product.quantity ∧
      (CartController.add t req insertId f).2 =
        t.insertCartItem insertId (uid req) (addProductId req.body) allowed) := by
  have hq := addQty_pos req.body
  unfold CartController.add
  simp only
  by_cases hu : uid req = 0
  · simp only [hu, if_true, true_or]
  simp only [hu, if_false]
  by_cases hpid : addProductId req.body = 0
  · simp only [hpid, if_true, true_or]
  simp only [hpid, if_false]
  by_cases hf1 : f.selectProduct = true
  · simp only [hf1, if_true, true_or]
  simp only [hf1, Bool.false_eq_true, if_false]
  cases hp : t.products (addProductId req.body) with
  | none => exact Or.inl rfl
  | some product =>
    simp only [numberOr0_eq]
    by_cases hf2 : f.selectCart = true
    · simp only [hf2, if_true, true_or]
    simp only [hf2, Bool.false_eq_true, if_false]
    cases hrow : t.cartLineOf (uid req) (addProductId req.body) with
    | none =>
      simp only [sub_zero]
      by_cases hcan : max 0 product.quantity ≤ 0
      · simp only [hcan, if_true, true_or]
      simp only [hcan, if_false]
      by_cases hf3 : f.write = true
      · simp only [hf3, if_true, true_or]
      simp only [hf3, Bool.false_eq_true, if_false]
      refine Or.inr (Or.inr ⟨product,
        (if addQty req.body > max 0 product.quantity then max 0 product.quantity
         else addQty req.body), ?_, ?_, ?_, ?_, ?_⟩)
      · rfl
      · trivial
      rotate_left 2
      · rfl
      · have : 0 < max 0 product.quantity := by omega
        split <;> omega
      · have hpos : 0 < product.quantity := by
          rcases max_cases 0 product.quantity with h | h <;> omega
        rw [max_eq_right (le_of_lt hpos)]
        split
        · rw [min_eq_right]; omega
        · rw [min_eq_left]; omega
    | some row =>
      simp only
      by_cases hcan : max 0 (product.quantity - row.quantity) ≤ 0
      · simp only [hcan, if_true, true_or]
      simp only [hcan, if_false]
      by_cases hf3 : f.write = true
      · simp only [hf3, if_true, true_or]
      simp only [hf3, Bool.false_eq_true, if_false]
      refine Or.inr (Or.inl ⟨product, row,
        (if addQty req.body > max 0 (product.quantity - row.quantity) then
           max 0 (product.quantity - row.quantity)
         else addQty req.body), ?_, ?_, ?_, ?_, ?_⟩)
      · rfl
      · rfl
      rotate_left 2
      · rfl
      · have : 0 < max 0 (product.quantity - row.quantity) := by omega
        split <;> omega
      · have hpos : 0 < product.quantity - row.quantity := by
          rcases max_cases 0 (product.quantity - row.quantity) with h | h <;> omega
        rw [max_eq_right (le_of_lt hpos)]
        split
        · rw [min_eq_right]; omega
        · rw [min_eq_left]; omega

theorem mysqlRound_pos (q : ℚ) (h : 1 / 2 ≤ q) : 0 < mysqlRound q := by
  unfold mysqlRound
  have h0 : (0 : ℚ) ≤ q := by linarith
  rw [if_pos h0]
  have : (1 : Int) ≤ ⌊q + 1 / 2⌋ := by
    rw [Int.le_floor]
    push_cast
    linarith
  omega

/-- C17 (failing run).  User 1 holds 2 of product 1 (stock 5) in cart line 1
and posts `quantity=0.4` to `/cart/update/1`: the value is neither 0 nor above
the stock, the handler answers 'Cart updated', and the line is stored with
quantity 0. -/
theorem update_stores_zero_quantity :
    oneLine.cart_items = [⟨1, 1, 1, 2⟩] ∧
    updateQuantity (updateRequestOf 1 1 fieldPointFour).body = 2 / 5 ∧
    mysqlRound (2 / 5) = 0 ∧
    CartController.update oneLine (updateRequestOf 1 1 fieldPointFour) 9 UpdateFaults.none =
      (.json 200 true (some .cartUpdated) (.updated 1 (2 / 5)),
        { oneLine with cart_items := [⟨1, 1, 1, 0⟩] }) := by
  refine ⟨rfl, ?_, ?_, ?_⟩
  · norm_num [updateQuantity, updateRequestOf, fieldPointFour]
  · norm_num [mysqlRound, Int.floor_eq_iff]
  · norm_num [CartController.update, performUpdateFor, updateQuantity, updateRequestOf,
      fieldPointFour, uid, updateCartItemId, updateProductId, UpdateFaults.none, oneLine,
      Tables.cartLineById, Tables.updateCartQuantityByIdUser, productsOf, List.lookup,
      numberOr0, mysqlRound, Int.floor_eq_iff]

theorem find?_id_of_mem (line : CartItem) :
    ∀ l : List CartItem, line ∈ l → (l.map (fun ci => ci.id)).Nodup →
      l.find? (fun ci => decide (ci.id = line.id)) = some line := by
  intro l
  induction l with
  | nil => intro hmem _; exact absurd hmem (List.not_mem_nil _)
  | cons ci rest ih =>
    intro hmem hpk
    rw [List.map_cons, List.nodup_cons] at hpk
    rw [List.mem_cons] at hmem
    rcases hmem with heq | hrest
    · subst heq
      simp [List.find?_cons]
    · have hne : ci.id ≠ line.id := by
        intro e
        apply hpk.1
        rw [e]
        exact List.mem_map_of_mem (fun ci => ci.id) hrest
      rw [List.find?_cons]
      simp only [hne, decide_False]
      exact ih hrest hpk.2

theorem cartLineById_of_mem (t : Tables) (line : CartItem) (hmem : line ∈ t.cart_items)
    (hpk : (t.cart_items.map (fun ci => ci.id)).Nodup) :
    t.cartLineById line.id = some line :=
  find?_id_of_mem line t.cart_items hmem hpk

theorem performUpdateFor_zero (t : Tables) (wantsJSON : Bool) (userId insertId : Nat)
    (f : UpdateFaults) (productId cartRowId : Nat) (product : Product)
    (hp : t.products productId = some product)
    (hs : f.selectProduct = false) (hw : f.write = false) :
    performUpdateFor t wantsJSON userId 0 insertId f productId cartRowId =
      (if wantsJSON then .json 200 true (some .itemRemoved) .none
       else .flash "success" .itemRemoved "/cart",
        if cartRowId ≠ 0 then t.deleteCartItemByIdUser cartRowId userId
        else t.deleteCartItemByUserProduct userId productId) := by
  unfold performUpdateFor
  simp only [hs, hw, hp, Bool.false_eq_true, if_false, if_true]

theorem updateQuantity_clamped (body : CartBody) (h : body.quantity.truthy = true)
    (hbad : body.quantity.number = .nan ∨ body.quantity.number = .posInf ∨
      body.quantity.number = .negInf ∨
      ∃ q : ℚ, q ≤ 0 ∧ body.quantity.number = .finite q) :
    updateQuantity body = 0 := by
  unfold updateQuantity
  simp only [h, if_true]
  rcases hbad with hn | hn | hn | ⟨q, hq, hn⟩
  · rw [hn]
  · rw [hn]
  · rw [hn]
  · rw [hn]
    simp only
    split
    · rfl
    · linarith

/-- C18 (counterexample).  User 1 posts quantity 0 for cart line 1, whose
product 99 has no row: the handler answers 404 'Product not found' and the
line stays in the cart. -/
theorem update_zero_keeps_dangling_line :
    danglingLine.cart_items = [⟨1, 1, 99, 2⟩, ⟨2, 1, 1, 1⟩] ∧
    danglingLine.products 99 = none ∧
    updateQuantity (updateRequestOf 1 1 fieldZero).body = 0 ∧
    CartController.update danglingLine (updateRequestOf 1 1 fieldZero) 9 UpdateFaults.none =
      (.json 404 false (some .productNotFound) .none, danglingLine) := by
  refine ⟨rfl, by decide, ?_, ?_⟩
  · norm_num [updateQuantity, updateRequestOf, fieldZero]
  · norm_num [CartController.update, performUpdateFor, updateQuantity, updateRequestOf,
      fieldZero, uid, updateCartItemId, updateProductId, UpdateFaults.none, danglingLine,
      Tables.cartLineById, productsOf, List.lookup, sendError]
    rfl

/-- C18 (amended).  For a cart line owned by the session user whose product
still has a row, `CartController.update` with a quantity of 0 (a negative or
non-finite quantity counts as 0), no query failing, deletes the line instead
of storing 0 and keeps every other line: through `/cart/update/:id` it deletes
the rows with that id and user, through the product id in the body it deletes
the rows of that user and product. -/
theorem update_zero_deletes (t : Tables) (req : CartRequest) (insertId : Nat)
    (line : CartItem) (product : Product)
    (hmem : line ∈ t.cart_items) (hpk : (t.cart_items.map (fun ci => ci.id)).Nodup)
    (hown : line.user_id = uid req) (hu : uid req ≠ 0)
    (hp : t.products line.product_id = some product)
    (hq : updateQuantity req.body = 0) :
    (updateCartItemId req = line.id → line.id ≠ 0 →
      (CartController.update t req insertId UpdateFaults.none).2.cart_items =
          t.cart_items.filter (fun ci => decide (¬ (ci.id = line.id ∧ ci.user_id = uid req))) ∧
        line ∉ (CartController.update t req insertId UpdateFaults.none).2.cart_items ∧
        (∀ other ∈ t.cart_items, other.id ≠ line.id →
          other ∈ (CartController.update t req insertId UpdateFaults.none).2.cart_items)) ∧
    (updateCartItemId req = 0 → updateProductId req.body = line.product_id →
      line.product_id ≠ 0 →
      (CartController.update t req insertId UpdateFaults.none).2.cart_items =
          t.cart_items.filter
            (fun ci => decide (¬ (ci.user_id = uid req ∧ ci.product_id = line.product_id))) ∧
        line ∉ (CartController.update t req insertId UpdateFaults.none).2.cart_items ∧
        (∀ other ∈ t.cart_items,
          ¬ (other.user_id = uid req ∧ other.product_id = line.product_id) →
          other ∈ (CartController.update t req insertId UpdateFaults.none).2.cart_items)) ∧
    (∀ body : CartBody, body.quantity.truthy = true →
      (body.quantity.number = .nan ∨ body.quantity.number = .posInf ∨
        body.quantity.number = .negInf ∨
        ∃ q : ℚ, q ≤ 0 ∧ body.quantity.number = .finite q) →
      updateQuantity body = 0) := by
  refine ⟨?_, ?_, updateQuantity_clamped⟩
  · intro hid hnz
    have hrun : (CartController.update t req insertId UpdateFaults.none).2 =
        t.deleteCartItemByIdUser line.id (uid req) := by
      unfold CartController.update
      simp only [hu, hid, hnz, hq, if_false, false_and, ne_eq, not_false_eq_true, if_true,
        UpdateFaults.none, Bool.false_eq_true, cartLineById_of_mem t line hmem hpk, hown,
        not_true_eq_false]
      rw [performUpdateFor_zero _ _ _ _ _ _ _ product hp rfl rfl]
      simp only [hnz, ne_eq, not_false_eq_true, if_true]
    rw [hrun]
    refine ⟨rfl, ?_, ?_⟩
    · simp [Tables.deleteCartItemByIdUser, hown]
    · intro other hother hne
      simp [Tables.deleteCartItemByIdUser, hother, hne]
  · intro hid hpid hnz
    have hrun : (CartController.update t req insertId UpdateFaults.none).2 =
        t.deleteCartItemByUserProduct (uid req) line.product_id := by
      unfold CartController.update
      simp only [hu, hid, hpid, hnz, hq, if_false, and_false, ne_eq, not_true_eq_false]
      rw [performUpdateFor_zero _ _ _ _ _ _ _ product hp rfl rfl]
      simp only [ne_eq, not_true_eq_false, if_false]
    rw [hrun]
    refine ⟨rfl, ?_, ?_⟩
    · simp [Tables.deleteCartItemByUserProduct, hown]
    · intro other hother hne
      simp only [Tables.deleteCartItemByUserProduct, List.mem_filter, hother, true_and,
        decide_eq_true_eq]
      exact hne

/-- Witness of C16: the one-line cart. -/
theorem cart_lines_stay_unique_witness :
    OneLinePerProduct oneLine ∧
    ((∀ (req : CartRequest) (insertId : Nat) (f : AddFaults),
      OneLinePerProduct (CartController.add oneLine req insertId f).2) ∧
    (∀ (req : CartRequest) (insertId : Nat) (f : UpdateFaults),
      OneLinePerProduct (CartController.update oneLine req insertId f).2) ∧
    (∀ (data : CartAddData) (insertId : Nat) (updateFails insertFails : Bool),
      OneLinePerProduct (Cart.add oneLine data insertId updateFails insertFails).2)) :=
  ⟨by simp [OneLinePerProduct, oneLine],
    cart_lines_stay_unique oneLine (by simp [OneLinePerProduct, oneLine])⟩

/-- Witness of C18 (amended): user 1 posts quantity 0 for cart line 1 of the
one-line cart. -/
theorem update_zero_deletes_witness :
    updateQuantity (updateRequestOf 1 1 fieldZero).body = 0 ∧
    ((CartController.update oneLine (updateRequestOf 1 1 fieldZero) 9
          UpdateFaults.none).2.cart_items =
        oneLine.cart_items.filter
          (fun ci => decide (¬ (ci.id = (⟨1, 1, 1, 2⟩ : CartItem).id ∧
            ci.user_id = uid (updateRequestOf 1 1 fieldZero)))) ∧
      (⟨1, 1, 1, 2⟩ : CartItem) ∉
        (CartController.update oneLine (updateRequestOf 1 1 fieldZero) 9
          UpdateFaults.none).2.cart_items ∧
      (∀ other ∈ oneLine.cart_items, other.id ≠ (⟨1, 1, 1, 2⟩ : CartItem).id →
        other ∈ (CartController.update oneLine (updateRequestOf 1 1 fieldZero) 9
          UpdateFaults.none).2.cart_items)) :=
  ⟨by norm_num [updateQuantity, updateRequestOf, fieldZero],
    (update_zero_deletes oneLine (updateRequestOf 1 1 fieldZero) 9 ⟨1, 1, 1, 2⟩ ⟨"A", 5, 1000⟩
      (by simp [oneLine]) (by simp [oneLine]) rfl (by decide) (by decide)
      (by norm_num [updateQuantity, updateRequestOf, fieldZero])).1 rfl (by decide)⟩

theorem positive_map (l : List CartItem) (g : CartItem → CartItem)
    (hg : ∀ ci ∈ l, 0 < ci.quantity → 0 < (g ci).quantity)
    (h : ∀ line ∈ l, 0 < line.quantity) : ∀ line ∈ l.map g, 0 < line.quantity := by
  intro line hline
  rw [List.mem_map] at hline
  obtain ⟨ci, hci, rfl⟩ := hline
  exact hg ci hci (h ci hci)

theorem updateCartQuantityById_positive (t : Tables) (quantity : Int) (id : Nat)
    (hq : 0 < quantity) (h : QuantitiesPositive t) :
    QuantitiesPositive (t.updateCartQuantityById quantity id) := by
  unfold QuantitiesPositive Tables.updateCartQuantityById
  apply positive_map _ _ _ h
  intro ci _ hci
  by_cases hc : ci.id = id <;> simp [hc, hq, hci]

theorem updateCartQuantityByIdUser_positive (t : Tables) (quantity : Int) (id userId : Nat)
    (hq : 0 < quantity) (h : QuantitiesPositive t) :
    QuantitiesPositive (t.updateCartQuantityByIdUser quantity id userId) := by
  unfold QuantitiesPositive Tables.updateCartQuantityByIdUser
  apply positive_map _ _ _ h
  intro ci _ hci
  by_cases hc : ci.id = id ∧ ci.user_id = userId <;> simp [hc, hq, hci]

theorem insertCartItem_positive (t : Tables) (insertId userId productId : Nat)
    (quantity : Int) (hq : 0 < quantity) (h : QuantitiesPositive t) :
    QuantitiesPositive (t.insertCartItem insertId userId productId quantity) := by
  unfold QuantitiesPositive Tables.insertCartItem
  intro line hline
  rw [List.mem_append, List.mem_singleton] at hline
  rcases hline with hl | hl
  · exact h line hl
  · rw [hl]
    exact hq

theorem filter_positive (t : Tables) (keep : CartItem → Bool) (h : QuantitiesPositive t) :
    ∀ line ∈ t.cart_items.filter keep, 0 < line.quantity := by
  intro line hline
  exact h line (List.mem_filter.mp hline).1

theorem cartLineOf_mem (t : Tables) (userId productId : Nat) (row : CartItem)
    (h : t.cartLineOf userId productId = some row) : row ∈ t.cart_items :=
  List.mem_of_find?_eq_some h

theorem add_keeps_positive (t : Tables) (req : CartRequest) (insertId : Nat) (f : AddFaults)
    (h : QuantitiesPositive t) : QuantitiesPositive (CartController.add t req insertId f).2 := by
  rcases add_cases t req insertId f with hsame | ⟨_, row, allowed, _, hrow, ha, _, hrun⟩ |
    ⟨_, allowed, _, _, ha, _, hrun⟩
  · rw [hsame]
    exact h
  · rw [hrun]
    apply updateCartQuantityById_positive _ _ _ _ h
    have := h row (cartLineOf_mem t _ _ row hrow)
    omega
  · rw [hrun]
    exact insertCartItem_positive _ _ _ _ _ (by omega) h

theorem performUpdateFor_keeps_positive (t : Tables) (wantsJSON : Bool) (userId : Nat)
    (quantity : ℚ) (insertId : Nat) (f : UpdateFaults) (productId cartRowId : Nat)
    (hq : quantity = 0 ∨ 1 / 2 ≤ quantity) (h : QuantitiesPositive t) :
    QuantitiesPositive
      (performUpdateFor t wantsJSON userId quantity insertId f productId cartRowId).2 := by
  unfold performUpdateFor
  simp only
  split
  · exact h
  · split
    · exact h
    · split
      · split
        · exact h
        · simp only
          split
          · exact filter_positive t _ h
          · exact filter_positive t _ h
      · rename_i hne
        have hpos : 0 < mysqlRound quantity := by
          rcases hq with h0 | hhalf
          · exact absurd h0 hne
          · exact mysqlRound_pos quantity hhalf
        split
        · exact h
        · split
          · split
            · exact h
            · exact updateCartQuantityByIdUser_positive t _ _ _ hpos h
          · split
            · exact h
            · split
              · split
                · exact h
                · exact updateCartQuantityById_positive t _ _ hpos h
              · split
                · exact h
                · exact insertCartItem_positive t _ _ _ _ hpos h

/-- Positive quantities survive `CartController.update` when the submitted
quantity is 0 after clamping or at least one half. -/
theorem update_keeps_positive_of_half (t : Tables) (req : CartRequest) (insertId : Nat)
    (f : UpdateFaults)
    (hq : updateQuantity req.body = 0 ∨ 1 / 2 ≤ updateQuantity req.body)
    (h : QuantitiesPositive t) :
    QuantitiesPositive (CartController.update t req insertId f).2 := by
  unfold CartController.update
  simp only
  split
  · exact h
  · split
    · exact h
    · split
      · split
        · exact h
        · split
          · exact h
          · split
            · exact h
            · exact performUpdateFor_keeps_positive _ _ _ _ _ _ _ _ hq h
      · exact performUpdateFor_keeps_positive _ _ _ _ _ _ _ _ hq h

theorem cartAddQuantity_ge_one (data : CartAddData) (q : ℚ)
    (h : cartAddQuantity data = .finite q) : 1 ≤ q := by
  unfold cartAddQuantity at h
  simp only at h
  split at h
  · simp only [JsNumber.finite.injEq] at h
    rw [← h]
    exact le_max_left _ _
  · exact absurd h (by simp)
  · exact absurd h (by simp)
  · simp only [JsNumber.finite.injEq] at h
    rw [← h]

/-- Positive quantities survive the model's `Cart.add`. -/
theorem cartAdd_keeps_positive (t : Tables) (data : CartAddData) (insertId : Nat)
    (updateFails insertFails : Bool) (h : QuantitiesPositive t) :
    QuantitiesPositive (Cart.add t data insertId updateFails insertFails).2 := by
  unfold Cart.add
  simp only
  split
  · exact h
  · split
    · rename_i quantity hquantity
      have hone := cartAddQuantity_ge_one data quantity hquantity
      split
      · exact h
      · split
        · unfold QuantitiesPositive Tables.addToCartQuantity
          apply positive_map _ _ _ h
          intro ci _ hci
          by_cases hc : ci.user_id = cartAddUserId data ∧ ci.product_id = cartAddProductId data
          · simp only [hc, and_self, if_true]
            apply mysqlRound_pos
            have : (0 : ℚ) < (ci.quantity : ℚ) := by exact_mod_cast hci
            linarith
          · simp only [hc, if_false]
            exact hci
        · split
          · exact h
          · exact insertCartItem_positive t _ _ _ _
              (mysqlRound_pos quantity (by linarith)) h
    · exact h

/-! ## Claims on the price snapshot and on the order headers -/

theorem updateProductSql_ledger (t : Tables) (id : Nat) (row : Product) :
    (t.updateProductSql id row).1.orders = t.orders ∧
      (t.updateProductSql id row).1.order_items = t.order_items := by
  unfold Tables.updateProductSql
  split <;> exact ⟨rfl, rfl⟩

theorem productUpdate_ledger (t : Tables) (id : Nat) (data : ProductData) (queryFails : Bool) :
    (Product.update t id data queryFails).2.orders = t.orders ∧
      (Product.update t id data queryFails).2.order_items = t.order_items := by
  unfold Product.update
  split
  · split
    · exact ⟨rfl, rfl⟩
    · split
      · exact ⟨rfl, rfl⟩
      · exact updateProductSql_ledger t id _
  · exact ⟨rfl, rfl⟩

theorem adminUpdate_ledger (t : Tables) (id : Nat) (body : AdminUpdateBody)
    (queryFails : Bool) :
    (ProductController.adminUpdate t id body queryFails).2.orders = t.orders ∧
      (ProductController.adminUpdate t id body queryFails).2.order_items = t.order_items := by
  unfold ProductController.adminUpdate
  split
  · exact ⟨rfl, rfl⟩
  · exact updateProductSql_ledger t id _

theorem itemsSql_prices (t : Tables) (orderId : Nat) :
    (itemsSql t orderId).map (fun item => item.price) =
      (t.order_items.filter (fun oi => decide (oi.order_id = orderId))).map
        (fun oi => oi.price) := by
  unfold itemsSql
  rw [List.map_map]
  rfl

theorem showReceipt_render_items (t : Tables) (req : Request) (orderId : Nat)
    (f : ReceiptFaults) (oid createdAt : Nat) (items : List ReceiptItem) (total : Int)
    (h : showReceipt t req orderId f = .render oid createdAt items total) :
    items = itemsSql t orderId := by
  unfold showReceipt at h
  simp only at h
  split at h
  · exact absurd h (by simp)
  · split at h
    · exact absurd h (by simp)
    · split at h
      · exact absurd h (by simp)
      · split at h
        · exact absurd h (by simp)
        · split at h
          · exact absurd h (by simp)
          · simp only [ReceiptResponse.render.injEq] at h
            exact h.2.2.1.symm

theorem showReceipt_prices_congr (s t : Tables) (req : Request) (orderId : Nat)
    (f : ReceiptFaults) (ho : s.orders = t.orders) (hi : s.order_items = t.order_items) :
    (showReceipt s req orderId f).prices = (showReceipt t req orderId f).prices := by
  unfold showReceipt
  simp only [ho]
  split
  · rfl
  · split
    · rfl
    · split
      · rfl
      · split
        · rfl
        · split
          · rfl
          · simp only [ReceiptResponse.prices, itemsSql_prices, hi]

/-- C14.  A product edit, by the model's `Product.update` or by
`ProductController.adminUpdate`, whatever it submits, leaves every order line
(its price included) and every order as stored; the receipt shows, for each
line of the order, the price stored on the order line; and so the prices on a
receipt are the same before and after the edit. -/
theorem price_snapshot (t : Tables) (id : Nat) (data : ProductData) (body : AdminUpdateBody)
    (queryFails : Bool) :
    ((Product.update t id data queryFails).2.order_items = t.order_items ∧
      (ProductController.adminUpdate t id body queryFails).2.order_items = t.order_items) ∧
    (∀ (req : Request) (orderId : Nat) (f : ReceiptFaults) (oid createdAt : Nat)
        (items : List ReceiptItem) (total : Int),
      showReceipt t req orderId f = .render oid createdAt items total →
      items.map (fun item => item.price) =
        (t.order_items.filter (fun oi => decide (oi.order_id = orderId))).map
          (fun oi => oi.price)) ∧
    (∀ (req : Request) (orderId : Nat) (f : ReceiptFaults),
      (showReceipt (Product.update t id data queryFails).2 req orderId f).prices =
          (showReceipt t req orderId f).prices ∧
        (showReceipt (ProductController.adminUpdate t id body queryFails).2 req orderId
            f).prices =
          (showReceipt t req orderId f).prices) := by
  refine ⟨⟨(productUpdate_ledger t id data queryFails).2,
    (adminUpdate_ledger t id body queryFails).2⟩, ?_, ?_⟩
  · intro req orderId f oid createdAt items total h
    rw [showReceipt_render_items t req orderId f oid createdAt items total h]
    exact itemsSql_prices t orderId
  · intro req orderId f
    exact ⟨showReceipt_prices_congr _ t req orderId f
        (productUpdate_ledger t id data queryFails).1
        (productUpdate_ledger t id data queryFails).2,
      showReceipt_prices_congr _ t req orderId f
        (adminUpdate_ledger t id body queryFails).1
        (adminUpdate_ledger t id body queryFails).2⟩

/-- The function `create` of `models/Order.js`, which the module does not
export in the end, writes the status of its payload ('Shipped' here) and,
without one, the lower-case 'pending'. -/
theorem modelCreate_status :
    (Order.create (payloadWithStatus "Shipped") 7).map (fun p => p.status) =
      some (some "Shipped") ∧
    (Order.create (payloadWithStatus "") 7).map (fun p => p.status) =
      some (some "pending") := by
  decide

/-! ## Claims on the Order model's exports and on `placeOrder` -/

theorem placeOrderStatement_fallback (userId : Nat) (total : Double) (createdAt : Nat) :
    placeOrderStatement orderExports userId total createdAt =
      some (placeOrderInsert userId total createdAt) := by
  rfl

/-- C30.  The last assignment to `module.exports` in `models/Order.js` leaves
only `getAll` and `updateStatus`: `create`, `getById` and `getByUser` are not
exported, the bindings `orderCreate`, `orderGetById` and `orderListByUser` are
null, `orderHistory` and `viewOrder` answer 501 to every request with a
session user, and `placeOrder` creates the order by its direct insert. -/
theorem order_exports_final :
    orderExports = [("getAll", .getAll), ("updateStatus", .updateStatus)] ∧
    (orderExports.lookup "create" = none ∧ orderExports.lookup "getById" = none ∧
      orderExports.lookup "getByUser" = none) ∧
    (orderCreate orderExports = none ∧ orderGetById orderExports = none ∧
      orderListByUser orderExports = none) ∧
    (∀ (t : Tables) (req : Request) (queryFails : Bool),
      (req.session.bind (fun s => s.user)).isSome = true →
      orderHistory orderExports t req queryFails =
        .error 501 "Order.getByUser not implemented") ∧
    (∀ (t : Tables) (req : Request) (orderId : Nat) (queryFails : Bool),
      (req.session.bind (fun s => s.user)).isSome = true →
      viewOrder orderExports t req orderId queryFails =
        .error 501 "Order.getById not implemented") ∧
    (∀ (userId : Nat) (total : Double) (createdAt : Nat),
      placeOrderStatement orderExports userId total createdAt =
        some (placeOrderInsert userId total createdAt)) := by
  refine ⟨by decide, by decide, by decide, ?_, ?_, placeOrderStatement_fallback⟩
  · intro t req queryFails hauth
    unfold orderHistory
    cases hs : req.session.bind (fun s => s.user) with
    | none => rw [hs] at hauth; exact absurd hauth (by decide)
    | some user =>
      have : orderListByUser orderExports = none := by decide
      simp only [this]
  · intro t req orderId queryFails hauth
    unfold viewOrder
    cases hs : req.session.bind (fun s => s.user) with
    | none => rw [hs] at hauth; exact absurd hauth (by decide)
    | some user =>
      have : orderGetById orderExports = none := by decide
      simp only [this]

theorem insertOrderItems_frame (fails : Nat → Bool) (orderId now : Nat)
    (items : List CartViewRow) :
    ∀ (i : Nat) (t : Tables),
      (insertOrderItems fails orderId now i items t).orders = t.orders ∧
      (insertOrderItems fails orderId now i items t).products = t.products ∧
      (insertOrderItems fails orderId now i items t).cart_items = t.cart_items := by
  induction items with
  | nil => intro i t; exact ⟨rfl, rfl, rfl⟩
  | cons it rest ih =>
    intro i t
    unfold insertOrderItems
    split
    · exact ih (i + 1) t
    · exact ih (i + 1) _

theorem placeOrder_products (order : List (String × OrderFn))
    (defaults : OrderColumnDefaults) (db : Db) (req : Request) (now : Nat)
    (f : PlaceOrderFaults) :
    (placeOrder order defaults db req now f).2.tables.products = db.tables.products := by
  unfold placeOrder
  simp only
  split
  · rfl
  · split
    · rfl
    · split
      · rfl
      · split
        · rfl
        · split
          · rfl
          · unfold placeOrderFinish
            simp only
            split
            · exact (insertOrderItems_frame _ _ _ _ _ _).2.1
            · exact (insertOrderItems_frame _ _ _ _ _ _).2.1

/-- C27.  `placeOrder` checks no stock and changes none: no call changes the
products table; and for a logged-in user whose cart rows load and are not
empty, whatever the quantities and the stock, once the order insert succeeds
it appends an order for the user, redirects to the receipt of that order, and
clears the user's cart unless the delete itself fails, also when inserts of
order lines fail. -/
theorem placeOrder_no_stock_check (defaults : OrderColumnDefaults) (db : Db) (req : Request)
    (now : Nat) (f : PlaceOrderFaults)
    (hu : receiptUserId req ≠ 0) (hl : f.loadCart = false) (ho : f.insertOrder = false)
    (hne : Cart.getByUser db.tables (receiptUserId req) ≠ []) :
    (placeOrder orderExports defaults db req now f).1 = .redirectReceipt db.nextOrderId ∧
    (∃ o : Order,
      (placeOrder orderExports defaults db req now f).2.tables.orders =
        db.tables.orders ++ [o] ∧
      o.id = db.nextOrderId ∧ o.user_id = receiptUserId req ∧
      o.totalAmount =
        amountColumn (placeOrderTotal (Cart.getByUser db.tables (receiptUserId req)))) ∧
    (placeOrder orderExports defaults db req now f).2.tables.products = db.tables.products ∧
    (f.clearCart = false →
      (placeOrder orderExports defaults db req now f).2.tables.cart_items =
        db.tables.cart_items.filter (fun ci => decide (ci.user_id ≠ receiptUserId req))) := by
  have hlen : ¬ (Cart.getByUser db.tables (receiptUserId req)).length = 0 := by
    intro h0
    exact hne (List.length_eq_zero.mp h0)
  have hrun : placeOrder orderExports defaults db req now f =
      placeOrderFinish
        { db.runOrderInsert
            (placeOrderInsert (receiptUserId req)
              (placeOrderTotal (Cart.getByUser db.tables (receiptUserId req))) now) defaults with
          tables := insertOrderItems f.insertItem db.nextOrderId now 0
            (Cart.getByUser db.tables (receiptUserId req))
            (db.runOrderInsert
              (placeOrderInsert (receiptUserId req)
                (placeOrderTotal (Cart.getByUser db.tables (receiptUserId req))) now)
              defaults).tables }
        (receiptUserId req) db.nextOrderId f.clearCart := by
    unfold placeOrder
    simp only [hu, hl, ho, hlen, if_false, Bool.false_eq_true, placeOrderStatement_fallback]
  refine ⟨by rw [hrun]; rfl, ?_, placeOrder_products _ _ _ _ _ _, ?_⟩
  · refine ⟨{ id := db.nextOrderId, user_id := receiptUserId req,
               orderDate := defaults.orderDate,
               totalAmount :=
                 amountColumn (placeOrderTotal (Cart.getByUser db.tables (receiptUserId req))),
               status := defaults.status, createdAt := now }, ?_, rfl, rfl, rfl⟩
    rw [hrun]
    unfold placeOrderFinish
    simp only
    split
    · rw [(insertOrderItems_frame _ _ _ _ _ _).1]
      rfl
    · simp only [Tables.deleteCart]
      rw [(insertOrderItems_frame _ _ _ _ _ _).1]
      rfl
  · intro hc
    rw [hrun]
    unfold placeOrderFinish
    simp only [hc, Bool.false_eq_true, if_false, Tables.deleteCart]
    rw [(insertOrderItems_frame _ _ _ _ _ _).2.2]
    rfl

/-- Witness of C27: scenario 2 (3 in the cart, stock 2) with every order-line
insert failing: an order is created, no order line is stored, the stock stays
2, the cart is cleared and the answer is the redirect to the receipt. -/
theorem placeOrder_no_stock_check_witness :
    ((placeOrder orderExports sampleDefaults scenario2 (requestOf 1) 7
        itemInsertsFail).2.tables.order_items = [] ∧
      (placeOrder orderExports sampleDefaults scenario2 (requestOf 1) 7
        itemInsertsFail).2.tables.products 1 = some ⟨"A", 2, 1000⟩ ∧
      (placeOrder orderExports sampleDefaults scenario2 (requestOf 1) 7
        itemInsertsFail).2.tables.cart_items = [] ∧
      (placeOrder orderExports sampleDefaults scenario2 (requestOf 1) 7
        itemInsertsFail).2.tables.orders.length = 1) ∧
    ((placeOrder orderExports sampleDefaults scenario2 (requestOf 1) 7 itemInsertsFail).1 =
      .redirectReceipt scenario2.nextOrderId ∧
    (∃ o : Order,
      (placeOrder orderExports sampleDefaults scenario2 (requestOf 1) 7
        itemInsertsFail).2.tables.orders = scenario2.tables.orders ++ [o] ∧
      o.id = scenario2.nextOrderId ∧ o.user_id = receiptUserId (requestOf 1) ∧
      o.totalAmount =
        amountColumn
          (placeOrderTotal (Cart.getByUser scenario2.tables (receiptUserId (requestOf 1))))) ∧
    (placeOrder orderExports sampleDefaults scenario2 (requestOf 1) 7
      itemInsertsFail).2.tables.products = scenario2.tables.products ∧
    (itemInsertsFail.clearCart = false →
      (placeOrder orderExports sampleDefaults scenario2 (requestOf 1) 7
        itemInsertsFail).2.tables.cart_items =
        scenario2.tables.cart_items.filter
          (fun ci => decide (ci.user_id ≠ receiptUserId (requestOf 1))))) :=
  ⟨by decide,
    placeOrder_no_stock_check sampleDefaults scenario2 (requestOf 1) 7 itemInsertsFail
      (by decide) rfl rfl (by decide)⟩

/-! ## Claims on the guarded decrement and on `confirmPayment` -/

theorem decrementable_ok (items : List DecrementItem) :
    ∀ it ∈ decrementable items, it.productId ≠ 0 ∧ 0 < it.quantity := by
  intro it hit
  unfold decrementable at hit
  have h := (List.mem_filter.mp hit).2
  simp only [Bool.and_eq_true, decide_eq_true_eq] at h
  exact ⟨h.2, h.1⟩

theorem demandOf_nil (pid : Nat) : demandOf pid [] = 0 := by
  simp [demandOf]

theorem demandOf_cons (a : DecrementItem) (rest : List DecrementItem) (pid : Nat) :
    demandOf pid (a :: rest) =
      (if a.productId = pid then a.quantity else 0) + demandOf pid rest := by
  unfold demandOf
  by_cases h : a.productId = pid <;> simp [List.filter_cons, h]

theorem decrementNext_cons_queryError (fails : Nat → Bool) (i : Nat) (a : DecrementItem)
    (rest : List DecrementItem) (t : Tables) (hid : a.productId ≠ 0) (hq : 0 < a.quantity)
    (hf : fails i = true) :
    decrementNext fails i (a :: rest) t = (.queryError, t) := by
  have hq2 : ¬ a.quantity ≤ 0 := by omega
  rw [decrementNext]
  simp only [numberOr0_eq, hid, hq2, or_self, if_false, hf, if_true]

theorem decrementNext_cons_missing (fails : Nat → Bool) (i : Nat) (a : DecrementItem)
    (rest : List DecrementItem) (t : Tables) (hid : a.productId ≠ 0) (hq : 0 < a.quantity)
    (hf : fails i = false) (hp : t.products a.productId = none) :
    decrementNext fails i (a :: rest) t = (.insufficientStock a.productId, t) := by
  have hq2 : ¬ a.quantity ≤ 0 := by omega
  rw [decrementNext]
  simp only [numberOr0_eq, hid, hq2, or_self, if_false, hf, Bool.false_eq_true,
    Tables.reduceStockSql, hp, if_true]

theorem decrementNext_cons_short (fails : Nat → Bool) (i : Nat) (a : DecrementItem)
    (rest : List DecrementItem) (t : Tables) (p : Product) (hid : a.productId ≠ 0)
    (hq : 0 < a.quantity) (hf : fails i = false) (hp : t.products a.productId = some p)
    (hlt : p.quantity < a.quantity) :
    decrementNext fails i (a :: rest) t = (.insufficientStock a.productId, t) := by
  have hq2 : ¬ a.quantity ≤ 0 := by omega
  have hge : ¬ p.quantity ≥ a.quantity := by omega
  rw [decrementNext]
  simp only [numberOr0_eq, hid, hq2, or_self, if_false, hf, Bool.false_eq_true,
    Tables.reduceStockSql, hp, hge, if_true]

theorem decrementNext_cons_hit (fails : Nat → Bool) (i : Nat) (a : DecrementItem)
    (rest : List DecrementItem) (t : Tables) (p : Product) (hid : a.productId ≠ 0)
    (hq : 0 < a.quantity) (hf : fails i = false) (hp : t.products a.productId = some p)
    (hge : a.quantity ≤ p.quantity) :
    decrementNext fails i (a :: rest) t =
      decrementNext fails (i + 1) rest
        (t.setProduct a.productId { p with quantity := p.quantity - a.quantity }) := by
  have hq2 : ¬ a.quantity ≤ 0 := by omega
  have hge2 : p.quantity ≥ a.quantity := hge
  rw [decrementNext]
  simp only [numberOr0_eq, hid, hq2, or_self, if_false, hf, Bool.false_eq_true,
    Tables.reduceStockSql, hp, hge2, if_true, Nat.one_ne_zero]

theorem turn_after_hit (t : Tables) (a : DecrementItem) (rest : List DecrementItem)
    (p : Product) (k : Nat) (it : DecrementItem) (hp : t.products a.productId = some p) :
    ((t.setProduct a.productId { p with quantity := p.quantity - a.quantity }).products
        it.productId = none ∨
      ShortAtTurn (t.setProduct a.productId { p with quantity := p.quantity - a.quantity })
        rest k it) ↔
    (t.products it.productId = none ∨ ShortAtTurn t (a :: rest) (k + 1) it) := by
  unfold ShortAtTurn
  by_cases hid : it.productId = a.productId
  · have hid2 : a.productId = it.productId := hid.symm
    rw [hid]
    simp only [Tables.setProduct, if_true, hp, List.take_succ_cons, demandOf_cons,
      Option.some.injEq, false_or, exists_eq_left', reduceCtorEq]
    rw [← hid]
    constructor <;> intro h <;> omega
  · have hid2 : ¬ a.productId = it.productId := fun e => hid e.symm
    simp only [Tables.setProduct, hid, if_false, List.take_succ_cons, demandOf_cons, hid2,
      zero_add]

theorem decrementNext_error_iff (fails : Nat → Bool) (items : List DecrementItem)
    (hok : ∀ it ∈ items, it.productId ≠ 0 ∧ 0 < it.quantity) :
    ∀ (i : Nat) (t : Tables),
      (decrementNext fails i items t).1 ≠ .done ↔
        ∃ (k : Nat) (it : DecrementItem), items[k]? = some it ∧
          (fails (i + k) = true ∨ t.products it.productId = none ∨
            ShortAtTurn t items k it) := by
  induction items with
  | nil =>
    intro i t
    simp [decrementNext]
  | cons a rest ih =>
    intro i t
    have ha := hok a (List.mem_cons_self _ _)
    have hrest : ∀ it ∈ rest, it.productId ≠ 0 ∧ 0 < it.quantity :=
      fun it hit => hok it (List.mem_cons_of_mem _ hit)
    by_cases hf : fails i = true
    · rw [decrementNext_cons_queryError fails i a rest t ha.1 ha.2 hf]
      constructor
      · intro _
        exact ⟨0, a, List.getElem?_cons_zero, Or.inl hf⟩
      · intro _ h
        simp at h
    · have hf2 : fails i = false := by
        cases hfi : fails i with
        | false => rfl
        | true => exact absurd hfi hf
      cases hp : t.products a.productId with
      | none =>
        rw [decrementNext_cons_missing fails i a rest t ha.1 ha.2 hf2 hp]
        constructor
        · intro _
          exact ⟨0, a, List.getElem?_cons_zero, Or.inr (Or.inl hp)⟩
        · intro _ h
          simp at h
      | some p =>
        by_cases hge : a.quantity ≤ p.quantity
        · rw [decrementNext_cons_hit fails i a rest t p ha.1 ha.2 hf2 hp hge, ih hrest]
          constructor
          · rintro ⟨k, it, hk, h⟩
            refine ⟨k + 1, it, by simpa using hk, ?_⟩
            rcases h with h | h
            · left
              rw [← h]
              congr 1
              omega
            · right
              exact (turn_after_hit t a rest p k it hp).mp h
          · rintro ⟨k, it, hk, h⟩
            cases k with
            | zero =>
              exfalso
              simp only [List.getElem?_cons_zero, Option.some.injEq] at hk
              subst hk
              rcases h with h | h | h
              · rw [Nat.add_zero] at h
                exact hf h
              · rw [hp] at h
                simp at h
              · obtain ⟨q, hq, hlt⟩ := h
                rw [hp] at hq
                simp only [Option.some.injEq] at hq
                subst hq
                simp only [List.take_zero, demandOf_nil, sub_zero] at hlt
                omega
            | succ k =>
              refine ⟨k, it, by simpa using hk, ?_⟩
              rcases h with h | h
              · left
                rw [← h]
                congr 1
                omega
              · right
                exact (turn_after_hit t a rest p k it hp).mpr h
        · have hlt : p.quantity < a.quantity := by omega
          rw [decrementNext_cons_short fails i a rest t p ha.1 ha.2 hf2 hp hlt]
          constructor
          · intro _
            refine ⟨0, a, List.getElem?_cons_zero, Or.inr (Or.inr ⟨p, hp, ?_⟩)⟩
            simp only [List.take_zero, demandOf_nil, sub_zero]
            exact hlt
          · intro _ h
            simp at h

theorem productsLess_nil (products : Nat → Option Product) :
    productsLess products [] = products := by
  funext id
  unfold productsLess
  cases products id <;> simp [demandOf_nil]

theorem decrementNext_done (fails : Nat → Bool) (items : List DecrementItem)
    (hok : ∀ it ∈ items, it.productId ≠ 0 ∧ 0 < it.quantity) :
    ∀ (i : Nat) (t : Tables), (decrementNext fails i items t).1 = .done →
      (decrementNext fails i items t).2 =
        { t with products := productsLess t.products items } := by
  induction items with
  | nil =>
    intro i t _
    rw [productsLess_nil]
    rfl
  | cons a rest ih =>
    intro i t hdone
    have ha := hok a (List.mem_cons_self _ _)
    have hrest : ∀ it ∈ rest, it.productId ≠ 0 ∧ 0 < it.quantity :=
      fun it hit => hok it (List.mem_cons_of_mem _ hit)
    by_cases hf : fails i = true
    · rw [decrementNext_cons_queryError fails i a rest t ha.1 ha.2 hf] at hdone
      simp at hdone
    · have hf2 : fails i = false := by
        cases hfi : fails i with
        | false => rfl
        | true => exact absurd hfi hf
      cases hp : t.products a.productId with
      | none =>
        rw [decrementNext_cons_missing fails i a rest t ha.1 ha.2 hf2 hp] at hdone
        simp at hdone
      | some p =>
        by_cases hge : a.quantity ≤ p.quantity
        · rw [decrementNext_cons_hit fails i a rest t p ha.1 ha.2 hf2 hp hge] at hdone ⊢
          rw [ih hrest _ _ hdone]
          have hprod : productsLess
              (t.setProduct a.productId { p with quantity := p.quantity - a.quantity }).products
              rest = productsLess t.products (a :: rest) := by
            funext id
            unfold productsLess
            by_cases hid : id = a.productId
            · subst hid
              simp only [Tables.setProduct, if_true, hp, Option.map_some', demandOf_cons,
                sub_sub]
            · have hid2 : ¬ a.productId = id := fun e => hid e.symm
              simp only [Tables.setProduct, hid, if_false, demandOf_cons, hid2, zero_add]
          rw [hprod]
          rfl
        · have hlt : p.quantity < a.quantity := by omega
          rw [decrementNext_cons_short fails i a rest t p ha.1 ha.2 hf2 hp hlt] at hdone
          simp at hdone

theorem reduceStockSql_nonneg (t : Tables) (qty : Int) (pid : Nat) (h : StockNonneg t) :
    StockNonneg (t.reduceStockSql qty pid qty).1 := by
  unfold Tables.reduceStockSql
  split
  · rename_i p hp
    split
    · rename_i hge
      intro id q hq
      simp only [Tables.setProduct] at hq
      split at hq
      · simp only [Option.some.injEq] at hq
        subst hq
        simp only
        omega
      · exact h id q hq
    · exact h
  · exact h

theorem reduceStockSql_frame (t : Tables) (qty : Int) (pid : Nat) (atLeast : Int) :
    (t.reduceStockSql qty pid atLeast).1.orders = t.orders ∧
    (t.reduceStockSql qty pid atLeast).1.order_items = t.order_items ∧
    (t.reduceStockSql qty pid atLeast).1.cart_items = t.cart_items := by
  unfold Tables.reduceStockSql
  split
  · split
    · exact ⟨rfl, rfl, rfl⟩
    · exact ⟨rfl, rfl, rfl⟩
  · exact ⟨rfl, rfl, rfl⟩

theorem decrementNext_nonneg (fails : Nat → Bool) (items : List DecrementItem) :
    ∀ (i : Nat) (t : Tables), StockNonneg t →
      StockNonneg (decrementNext fails i items t).2 := by
  induction items with
  | nil => intro i t h; exact h
  | cons a rest ih =>
    intro i t h
    rw [decrementNext]
    split
    · exact ih _ _ h
    · split
      · exact h
      · split
        · exact reduceStockSql_nonneg t _ _ h
        · exact ih _ _ (reduceStockSql_nonneg t _ _ h)

theorem decrementNext_frame (fails : Nat → Bool) (items : List DecrementItem) :
    ∀ (i : Nat) (t : Tables),
      (decrementNext fails i items t).2.orders = t.orders ∧
      (decrementNext fails i items t).2.order_items = t.order_items ∧
      (decrementNext fails i items t).2.cart_items = t.cart_items := by
  induction items with
  | nil => intro i t; exact ⟨rfl, rfl, rfl⟩
  | cons a rest ih =>
    intro i t
    rw [decrementNext]
    split
    · exact ih _ _
    · split
      · exact ⟨rfl, rfl, rfl⟩
      · split
        · exact reduceStockSql_frame t _ _ _
        · have h1 := ih (i + 1)
            (t.reduceStockSql (numberOr0 a.quantity) a.productId (numberOr0 a.quantity)).1
          have h2 := reduceStockSql_frame t (numberOr0 a.quantity) a.productId
            (numberOr0 a.quantity)
          exact ⟨h1.1.trans h2.1, h1.2.1.trans h2.2.1, h1.2.2.trans h2.2.2⟩

/-- C23, the claim as stated fails.  One item for product 99, which has no row
in `products`: no query fails and no item finds a stock below its quantity,
since there is no stock row at all, yet the callback gets the error
'Insufficient stock for product id 99'. -/
theorem decrementStockUsingConn_missing_product :
    (decrementStockUsingConn scenario1.tables [⟨99, 1⟩] (fun _ => false)).1 =
      .insufficientStock 99 ∧
    scenario1.tables.products 99 = none ∧
    ¬ ∃ (k : Nat) (it : DecrementItem), (decrementable [⟨99, 1⟩])[k]? = some it ∧
        ShortAtTurn scenario1.tables (decrementable [⟨99, 1⟩]) k it := by
  refine ⟨by decide, by decide, ?_⟩
  rintro ⟨k, it, hk, p, hp, _⟩
  have hlist : decrementable [⟨99, 1⟩] = [⟨99, 1⟩] := by decide
  rw [hlist] at hk
  cases k with
  | zero =>
    simp only [List.getElem?_cons_zero, Option.some.injEq] at hk
    subst hk
    have hnone : scenario1.tables.products 99 = none := by decide
    rw [hnone] at hp
    simp at hp
  | succ k => simp at hk

/-- C23, amended.  `decrementStockUsingConn` takes the items with a positive
quantity and a non-zero product id in list order against the running stock.  It
calls back with an error exactly when for some item the query fails, or the
item's product has no row, or the item finds the stock (the initial stock less
what the items before it took) below its quantity.  When it calls back without
error, every product's stock is its initial stock less the total quantity the
items ask of it and no other table changed; and a stock of at least zero
everywhere stays so in every case. -/
theorem decrementStockUsingConn_guarded (t : Tables) (items : List DecrementItem)
    (fails : Nat → Bool) :
    ((decrementStockUsingConn t items fails).1 ≠ .done ↔
      ∃ (k : Nat) (it : DecrementItem), (decrementable items)[k]? = some it ∧
        (fails k = true ∨ t.products it.productId = none ∨
          ShortAtTurn t (decrementable items) k it)) ∧
    ((decrementStockUsingConn t items fails).1 = .done →
      (decrementStockUsingConn t items fails).2 =
        { t with products := productsLess t.products (decrementable items) }) ∧
    (StockNonneg t → StockNonneg (decrementStockUsingConn t items fails).2) := by
  refine ⟨?_, ?_, ?_⟩
  · have h := decrementNext_error_iff fails (decrementable items) (decrementable_ok items) 0 t
    simp only [Nat.zero_add] at h
    exact h
  · exact decrementNext_done fails (decrementable items) (decrementable_ok items) 0 t
  · exact decrementNext_nonneg fails (decrementable items) 0 t

theorem afterItemsInsert_receipt (db : Db) (orderId shown : Nat) (cartRows : List PayRow)
    (fails : Nat → Bool)
    (h : (afterItemsInsert db orderId cartRows fails).1 = .redirectReceipt shown) :
    (afterItemsInsert db orderId cartRows fails).2.tables.cart_items = db.tables.cart_items ∧
    (afterItemsInsert db orderId cartRows fails).2.snapshot = db.snapshot := by
  unfold afterItemsInsert at h ⊢
  split
  · exact ⟨rfl, rfl⟩
  · rename_i hlen
    simp only [hlen, if_false] at h
    split
    · exact ⟨(decrementNext_frame _ _ _ _).2.2, rfl⟩
    · rename_i hne
      split at h
      · rename_i hdone
        exact absurd hdone (hne)
      · simp [rollbackFail] at h

/-- C22.  On scenario 1, after `confirmPayment` of user 1 has inserted the
order and its two lines, the stock decrement succeeds and `finalize` redirects
to the receipt, but nothing clears the cart and nothing commits: both cart
lines are still there, the transaction is still open, and rolling it back
removes the order and restores the stock.  The handler as a whole does not get
that far: its `order_items` insert names five columns and gives four values
per tuple, so it answers 400 'Failed to create order items' and rolls back. -/
theorem confirmPayment_finalize_only_redirects :
    ((decrementStockUsingConn paidScenario1.tables
        (itemsToDecrement (payCartSql scenario1.tables 1)) (fun _ => false)).1 = .done ∧
      (afterItemsInsert paidScenario1 1 (payCartSql scenario1.tables 1) (fun _ => false)).1 =
        .redirectReceipt 1 ∧
      (afterItemsInsert paidScenario1 1 (payCartSql scenario1.tables 1)
        (fun _ => false)).2.tables.cart_items = [⟨1, 1, 1, 2⟩, ⟨2, 1, 2, 1⟩] ∧
      (afterItemsInsert paidScenario1 1 (payCartSql scenario1.tables 1)
        (fun _ => false)).2.snapshot.isSome = true ∧
      (afterItemsInsert paidScenario1 1 (payCartSql scenario1.tables 1)
        (fun _ => false)).2.tables.products 1 = some ⟨"A", 3, 1000⟩ ∧
      (afterItemsInsert paidScenario1 1 (payCartSql scenario1.tables 1)
        (fun _ => false)).2.rollback.tables.orders = [] ∧
      (afterItemsInsert paidScenario1 1 (payCartSql scenario1.tables 1)
        (fun _ => false)).2.rollback.tables.products 1 = some ⟨"A", 5, 1000⟩) ∧
    ((confirmPayment sampleDefaults scenario1 (cartRequestOf 1) 7 PayFaults.none).1 =
        .renderCart 400 (.text "Failed to create order items") ∧
      (confirmPayment sampleDefaults scenario1 (cartRequestOf 1) 7
        PayFaults.none).2.tables.orders = [] ∧
      (confirmPayment sampleDefaults scenario1 (cartRequestOf 1) 7
        PayFaults.none).2.tables.order_items = [] ∧
      (confirmPayment sampleDefaults scenario1 (cartRequestOf 1) 7
        PayFaults.none).2.tables.cart_items = [⟨1, 1, 1, 2⟩, ⟨2, 1, 2, 1⟩] ∧
      (confirmPayment sampleDefaults scenario1 (cartRequestOf 1) 7
        PayFaults.none).2.tables.products 1 = some ⟨"A", 5, 1000⟩) := by
  decide

/-! ## Claims on the receipt, on `details` and on adding to the cart -/

/-- C24.  For a logged-in request and an order that exists, `showReceipt`
answers 403 'Forbidden', and so renders nothing, when the order belongs to
another user and the session user's role is not admin; for the order's owner
and for an admin it renders the receipt of that order once the items query
succeeds. -/
theorem showReceipt_ownership (t : Tables) (req : Request) (orderId : Nat) (order : Order)
    (f : ReceiptFaults) (hu : receiptUserId req ≠ 0) (hsel : f.selectOrder = false)
    (hfind : t.orders.find? (fun o => decide (o.id = orderId)) = some order) :
    (order.user_id ≠ receiptUserId req → sessionIsAdmin req = false →
      showReceipt t req orderId f = .send 403 "Forbidden") ∧
    ((order.user_id = receiptUserId req ∨ sessionIsAdmin req = true) →
      f.selectItems = false →
      showReceipt t req orderId f =
        .render order.id order.createdAt (itemsSql t orderId) order.totalAmount) := by
  constructor
  · intro hother hadmin
    unfold showReceipt
    simp only [hu, hsel, hfind, if_false, Bool.false_eq_true]
    rw [if_pos ⟨hother, hadmin⟩]
  · intro hown hitems
    have hnot : ¬ (order.user_id ≠ receiptUserId req ∧ sessionIsAdmin req = false) := by
      rintro ⟨h1, h2⟩
      rcases hown with h | h
      · exact h1 h
      · rw [h2] at h
        exact absurd h (by decide)
    unfold showReceipt
    simp only [hu, hsel, hfind, if_false, Bool.false_eq_true]
    rw [if_neg hnot]
    simp only [hitems, if_false, Bool.false_eq_true]

/-- Witness of C24: order 1 of user 1 is refused to user 2, and shown to user 1
and to the administrator 2. -/
theorem showReceipt_ownership_witness :
    (showReceipt orderedOnce (requestOf 2) 1 ⟨false, false⟩ = .send 403 "Forbidden" ∧
      showReceipt orderedOnce (requestOf 1) 1 ⟨false, false⟩ =
        .render 1 7 [⟨1, 2, 1000, some "A"⟩] 2000 ∧
      showReceipt orderedOnce (adminRequestOf 2) 1 ⟨false, false⟩ =
        .render 1 7 [⟨1, 2, 1000, some "A"⟩] 2000) ∧
    (((⟨1, 1, 7, 2000, "Pending", 7⟩ : Order).user_id ≠ receiptUserId (requestOf 2) →
        sessionIsAdmin (requestOf 2) = false →
        showReceipt orderedOnce (requestOf 2) 1 ⟨false, false⟩ = .send 403 "Forbidden") ∧
      (((⟨1, 1, 7, 2000, "Pending", 7⟩ : Order).user_id = receiptUserId (requestOf 2) ∨
          sessionIsAdmin (requestOf 2) = true) →
        (⟨false, false⟩ : ReceiptFaults).selectItems = false →
        showReceipt orderedOnce (requestOf 2) 1 ⟨false, false⟩ =
          .render (⟨1, 1, 7, 2000, "Pending", 7⟩ : Order).id
            (⟨1, 1, 7, 2000, "Pending", 7⟩ : Order).createdAt (itemsSql orderedOnce 1)
            (⟨1, 1, 7, 2000, "Pending", 7⟩ : Order).totalAmount)) :=
  ⟨by decide,
    showReceipt_ownership orderedOnce (requestOf 2) 1 ⟨1, 1, 7, 2000, "Pending", 7⟩
      ⟨false, false⟩ (by decide) rfl (by decide)⟩

theorem detailsLocals_unbound :
    detailsLocals.find? (fun name => !detailsScope.contains name) = some "orderRow" := by
  decide

theorem details_throws (t : Tables) (req : Request) (orderId : Nat) (order : Order)
    (f : ReceiptFaults) (hu : receiptUserId req ≠ 0) (hsel : f.selectOrder = false)
    (hitems : f.selectItems = false)
    (hfind : t.orders.find? (fun o => decide (o.id = orderId)) = some order)
    (hown : order.user_id = receiptUserId req ∨ sessionIsAdmin req = true) :
    details t req orderId f = .referenceError "orderRow" := by
  have hnot : ¬ (order.user_id ≠ receiptUserId req ∧ sessionIsAdmin req = false) := by
    rintro ⟨h1, h2⟩
    rcases hown with h | h
    · exact h1 h
    · rw [h2] at h
      exact absurd h (by decide)
  unfold details
  simp only [hu, hsel, hfind, if_false, Bool.false_eq_true]
  rw [if_neg hnot]
  simp only [hitems, if_false, Bool.false_eq_true, detailsLocals_unbound]

theorem details_never_renders (t : Tables) (req : Request) (orderId : Nat)
    (f : ReceiptFaults) (order : Order) (items : List ReceiptItem) :
    details t req orderId f ≠ .render order items := by
  unfold details
  simp only [detailsLocals_unbound]
  split
  · simp
  · split
    · simp
    · split
      · simp
      · split
        · simp
        · split
          · simp
          · simp

/-- C25.  On the tables with order 1 of user 1, `details` for order 1 loads the
order and its items without a failing query and then throws `ReferenceError:
orderRow is not defined`, for the owner and for an administrator alike: the
object it builds for the view reads `orderRow`, `orderItems` and
`totalAmount`, none of which is bound there.  It renders nothing, on any
input. -/
theorem details_reference_error :
    details orderedOnce (requestOf 1) 1 ⟨false, false⟩ = .referenceError "orderRow" ∧
    details orderedOnce (adminRequestOf 2) 1 ⟨false, false⟩ = .referenceError "orderRow" ∧
    (detailsScope.contains "orderRow" = false ∧ detailsScope.contains "orderItems" = false ∧
      detailsScope.contains "totalAmount" = false) ∧
    showReceipt orderedOnce (requestOf 1) 1 ⟨false, false⟩ =
      .render 1 7 [⟨1, 2, 1000, some "A"⟩] 2000 ∧
    (∀ (t : Tables) (req : Request) (orderId : Nat) (f : ReceiptFaults) (order : Order)
      (items : List ReceiptItem), details t req orderId f ≠ .render order items) :=
  ⟨by decide, by decide, by decide, by decide, details_never_renders⟩

theorem find?_after_update (P : CartItem → Bool) (id : Nat) (quantity : Int)
    (hP : ∀ ci : CartItem, P { ci with quantity := quantity } = P ci) :
    ∀ (l : List CartItem) (row : CartItem), l.find? P = some row → row.id = id →
      (l.map (fun ci => if ci.id = id then { ci with quantity := quantity } else ci)).find? P =
        some { row with quantity := quantity } := by
  intro l
  induction l with
  | nil => intro row h; simp at h
  | cons c rest ih =>
    intro row h hid
    rw [List.find?_cons] at h
    rw [List.map_cons, List.find?_cons]
    cases hc : P c with
    | true =>
      rw [hc] at h
      simp only [Option.some.injEq] at h
      subst h
      have hhead : P (if c.id = id then { c with quantity := quantity } else c) = true := by
        rw [if_pos hid, hP]
        exact hc
      rw [hhead, if_pos hid]
    | false =>
      rw [hc] at h
      have hmapped : P (if c.id = id then { c with quantity := quantity } else c) = false := by
        split
        · rw [hP]; exact hc
        · exact hc
      rw [hmapped]
      exact ih row h hid

theorem cartLineOf_after_update (t : Tables) (userId productId : Nat) (row : CartItem)
    (quantity : Int) (h : t.cartLineOf userId productId = some row) :
    (t.updateCartQuantityById quantity row.id).cartLineOf userId productId =
      some { row with quantity := quantity } := by
  unfold Tables.cartLineOf Tables.updateCartQuantityById at *
  exact find?_after_update
    (fun ci => decide (ci.user_id = userId ∧ ci.product_id = productId)) row.id quantity
    (fun _ => rfl) t.cart_items row h rfl

theorem cartLineOf_after_insert (t : Tables) (insertId userId productId : Nat)
    (quantity : Int) (h : t.cartLineOf userId productId = none) :
    (t.insertCartItem insertId userId productId quantity).cartLineOf userId productId =
      some ⟨insertId, userId, productId, quantity⟩ := by
  unfold Tables.cartLineOf Tables.insertCartItem at *
  simp only [List.find?_append, h, Option.none_or]
  simp [List.find?_cons]

/-- C26.  For a logged-in user and a product that exists, with no failing
query: when the user's line holds less than the stock, `CartController.add`
answers 200 and sets the line to its previous quantity plus min(requested,
stock - previous), which is at most the stock and, the previous quantity being
at least 0, at least 1; when the user has no line and the stock is positive it
inserts a line of min(requested, stock), between 1 and the stock; when the
line already holds the stock or more, it answers 400 and the tables are
unchanged. -/
theorem add_within_stock (t : Tables) (req : CartRequest) (insertId : Nat) (product : Product)
    (hu : uid req ≠ 0) (hpid : addProductId req.body ≠ 0)
    (hp : t.products (addProductId req.body) = some product) :
    (∀ row : CartItem, t.cartLineOf (uid req) (addProductId req.body) = some row →
      row.quantity < product.quantity →
      CartController.add t req insertId AddFaults.none =
        (reply req.wantsJSON 200 true "success"
          (if min (addQty req.body) (product.quantity - row.quantity) < addQty req.body then
            .addedLimited (min (addQty req.body) (product.quantity - row.quantity))
           else .added)
          (.cartItem none (addProductId req.body)
            (row.quantity + min (addQty req.body) (product.quantity - row.quantity))
            product.quantity)
          (req.referer.getD "/"),
         t.updateCartQuantityById
          (row.quantity + min (addQty req.body) (product.quantity - row.quantity)) row.id) ∧
      (CartController.add t req insertId AddFaults.none).2.cartLineOf (uid req)
          (addProductId req.body) =
        some { row with
          quantity := row.quantity + min (addQty req.body) (product.quantity - row.quantity) } ∧
      row.quantity + min (addQty req.body) (product.quantity - row.quantity) ≤
        product.quantity ∧
      (0 ≤ row.quantity →
        1 ≤ row.quantity + min (addQty req.body) (product.quantity - row.quantity))) ∧
    (t.cartLineOf (uid req) (addProductId req.body) = none → 0 < product.quantity →
      (CartController.add t req insertId AddFaults.none).2 =
        t.insertCartItem insertId (uid req) (addProductId req.body)
          (min (addQty req.body) product.quantity) ∧
      (CartController.add t req insertId AddFaults.none).2.cartLineOf (uid req)
          (addProductId req.body) =
        some ⟨insertId, uid req, addProductId req.body,
          min (addQty req.body) product.quantity⟩ ∧
      1 ≤ min (addQty req.body) product.quantity ∧
      min (addQty req.body) product.quantity ≤ product.quantity) ∧
    (∀ row : CartItem, t.cartLineOf (uid req) (addProductId req.body) = some row →
      product.quantity ≤ row.quantity →
      CartController.add t req insertId AddFaults.none =
        (reply req.wantsJSON 400 false "error" (.cannotAdd product.quantity row.quantity)
          (.stock product.quantity row.quantity) (req.referer.getD "/"), t)) := by
  have hq := addQty_pos req.body
  refine ⟨?_, ?_, ?_⟩
  · intro row hrow hlt
    have hmax : max 0 (product.quantity - row.quantity) = product.quantity - row.quantity :=
      max_eq_right (by omega)
    have hcan : ¬ (product.quantity - row.quantity ≤ 0) := by omega
    have hallowed :
        (if addQty req.body > product.quantity - row.quantity then
          product.quantity - row.quantity else addQty req.body) =
          min (addQty req.body) (product.quantity - row.quantity) := by
      split
      · rw [min_eq_right]; omega
      · rw [min_eq_left]; omega
    have hrun : CartController.add t req insertId AddFaults.none =
        (reply req.wantsJSON 200 true "success"
          (if min (addQty req.body) (product.quantity - row.quantity) < addQty req.body then
            .addedLimited (min (addQty req.body) (product.quantity - row.quantity))
           else .added)
          (.cartItem none (addProductId req.body)
            (row.quantity + min (addQty req.body) (product.quantity - row.quantity))
            product.quantity)
          (req.referer.getD "/"),
         t.updateCartQuantityById
          (row.quantity + min (addQty req.body) (product.quantity - row.quantity)) row.id) := by
      unfold CartController.add
      simp only [hu, hpid, hp, hrow, AddFaults.none, numberOr0_eq, hmax, hcan, hallowed,
        if_false, Bool.false_eq_true]
    refine ⟨hrun, ?_, ?_, ?_⟩
    · rw [hrun]
      exact cartLineOf_after_update t _ _ row _ hrow
    · have := min_le_right (addQty req.body) (product.quantity - row.quantity)
      omega
    · intro h0
      have : 1 ≤ min (addQty req.body) (product.quantity - row.quantity) :=
        le_min hq (by omega)
      omega
  · intro hnone hpos
    have hmax : max 0 product.quantity = product.quantity := max_eq_right (by omega)
    have hcan : ¬ (product.quantity ≤ 0) := by omega
    have hallowed :
        (if addQty req.body > product.quantity then product.quantity else addQty req.body) =
          min (addQty req.body) product.quantity := by
      split
      · rw [min_eq_right]; omega
      · rw [min_eq_left]; omega
    have hrun : (CartController.add t req insertId AddFaults.none).2 =
        t.insertCartItem insertId (uid req) (addProductId req.body)
          (min (addQty req.body) product.quantity) := by
      unfold CartController.add
      simp only [hu, hpid, hp, hnone, AddFaults.none, numberOr0_eq, sub_zero, hmax, hcan,
        hallowed, if_false, Bool.false_eq_true]
    refine ⟨hrun, ?_, le_min hq (by omega), min_le_right _ _⟩
    rw [hrun]
    exact cartLineOf_after_insert t _ _ _ _ hnone
  · intro row hrow hge
    have hcan : max 0 (product.quantity - row.quantity) ≤ 0 := by
      rw [max_eq_left (by omega)]
    unfold CartController.add
    simp only [hu, hpid, hp, hrow, AddFaults.none, numberOr0_eq, hcan, if_true, if_false,
      Bool.false_eq_true]

/-- Witness of C26: user 1 holds 2 of product 1 (stock 5) and asks for 9 more:
the line goes to 5. -/
theorem add_within_stock_witness :
    ((CartController.add oneLine (addRequestOf 1 1 9) 7 AddFaults.none).2.cart_items =
      [⟨1, 1, 1, 5⟩]) ∧
    ((∀ row : CartItem,
      oneLine.cartLineOf (uid (addRequestOf 1 1 9)) (addProductId (addRequestOf 1 1 9).body) =
        some row →
      row.quantity < (⟨"A", 5, 1000⟩ : Product).quantity →
      CartController.add oneLine (addRequestOf 1 1 9) 7 AddFaults.none =
        (reply (addRequestOf 1 1 9).wantsJSON 200 true "success"
          (if min (addQty (addRequestOf 1 1 9).body)
              ((⟨"A", 5, 1000⟩ : Product).quantity - row.quantity) <
                addQty (addRequestOf 1 1 9).body then
            .addedLimited (min (addQty (addRequestOf 1 1 9).body)
              ((⟨"A", 5, 1000⟩ : Product).quantity - row.quantity))
           else .added)
          (.cartItem none (addProductId (addRequestOf 1 1 9).body)
            (row.quantity + min (addQty (addRequestOf 1 1 9).body)
              ((⟨"A", 5, 1000⟩ : Product).quantity - row.quantity))
            (⟨"A", 5, 1000⟩ : Product).quantity)
          ((addRequestOf 1 1 9).referer.getD "/"),
         oneLine.updateCartQuantityById
          (row.quantity + min (addQty (addRequestOf 1 1 9).body)
            ((⟨"A", 5, 1000⟩ : Product).quantity - row.quantity)) row.id) ∧
      (CartController.add oneLine (addRequestOf 1 1 9) 7 AddFaults.none).2.cartLineOf
          (uid (addRequestOf 1 1 9)) (addProductId (addRequestOf 1 1 9).body) =
        some { row with
          quantity := row.quantity + min (addQty (addRequestOf 1 1 9).body)
            ((⟨"A", 5, 1000⟩ : Product).quantity - row.quantity) } ∧
      row.quantity + min (addQty (addRequestOf 1 1 9).body)
          ((⟨"A", 5, 1000⟩ : Product).quantity - row.quantity) ≤
        (⟨"A", 5, 1000⟩ : Product).quantity ∧
      (0 ≤ row.quantity →
        1 ≤ row.quantity + min (addQty (addRequestOf 1 1 9).body)
          ((⟨"A", 5, 1000⟩ : Product).quantity - row.quantity))) ∧
    (oneLine.cartLineOf (uid (addRequestOf 1 1 9)) (addProductId (addRequestOf 1 1 9).body) =
        none →
      0 < (⟨"A", 5, 1000⟩ : Product).quantity →
      (CartController.add oneLine (addRequestOf 1 1 9) 7 AddFaults.none).2 =
        oneLine.insertCartItem 7 (uid (addRequestOf 1 1 9))
          (addProductId (addRequestOf 1 1 9).body)
          (min (addQty (addRequestOf 1 1 9).body) (⟨"A", 5, 1000⟩ : Product).quantity) ∧
      (CartController.add oneLine (addRequestOf 1 1 9) 7 AddFaults.none).2.cartLineOf
          (uid (addRequestOf 1 1 9)) (addProductId (addRequestOf 1 1 9).body) =
        some ⟨7, uid (addRequestOf 1 1 9), addProductId (addRequestOf 1 1 9).body,
          min (addQty (addRequestOf 1 1 9).body) (⟨"A", 5, 1000⟩ : Product).quantity⟩ ∧
      1 ≤ min (addQty (addRequestOf 1 1 9).body) (⟨"A", 5, 1000⟩ : Product).quantity ∧
      min (addQty (addRequestOf 1 1 9).body) (⟨"A", 5, 1000⟩ : Product).quantity ≤
        (⟨"A", 5, 1000⟩ : Product).quantity) ∧
    (∀ row : CartItem,
      oneLine.cartLineOf (uid (addRequestOf 1 1 9)) (addProductId (addRequestOf 1 1 9).body) =
        some row →
      (⟨"A", 5, 1000⟩ : Product).quantity ≤ row.quantity →
      CartController.add oneLine (addRequestOf 1 1 9) 7 AddFaults.none =
        (reply (addRequestOf 1 1 9).wantsJSON 400 false "error"
          (.cannotAdd (⟨"A", 5, 1000⟩ : Product).quantity row.quantity)
          (.stock (⟨"A", 5, 1000⟩ : Product).quantity row.quantity)
          ((addRequestOf 1 1 9).referer.getD "/"), oneLine))) :=
  ⟨by decide,
    add_within_stock oneLine (addRequestOf 1 1 9) 7 ⟨"A", 5, 1000⟩ (by decide) (by decide)
      (by decide)⟩

/-! ## Claims on the model's `checkout` -/

theorem updates_eq_stockUpdates (fails : Nat → Bool) (t0 : Tables) (user_id : Nat) :
    ∀ (i : Nat) (t : Tables),
      updates fails i (selectSql t0 user_id) t = stockUpdates fails i (cartSql t0 user_id) t := by
  unfold selectSql cartSql
  generalize t0.cart_items.filter (fun ci => decide (ci.user_id = user_id)) = l
  induction l with
  | nil => intro i t; rfl
  | cons c rest ih =>
    intro i t
    simp only [List.filterMap_cons]
    cases hp : t0.products c.product_id with
    | none => exact ih i t
    | some p =>
      simp only
      rw [updates, stockUpdates]
      simp only [ih]

theorem selectSql_rows (t : Tables) (user_id : Nat) :
    (selectSql t user_id).map (fun r => (r.product_id, r.cartQty, r.stock)) =
      (cartSql t user_id).map (fun row => (row.product_id, row.cart_qty, row.stock_qty)) := by
  unfold selectSql cartSql
  generalize t.cart_items.filter (fun ci => decide (ci.user_id = user_id)) = l
  induction l with
  | nil => rfl
  | cons c rest ih =>
    simp only [List.filterMap_cons]
    cases hp : t.products c.product_id with
    | none => exact ih
    | some p =>
      simp only [List.map_cons, ih]

theorem selectSql_length (t : Tables) (user_id : Nat) :
    (selectSql t user_id).length = (cartSql t user_id).length := by
  have h := congrArg List.length (selectSql_rows t user_id)
  simpa using h

theorem selectSql_ok_iff (t : Tables) (user_id : Nat) :
    (∀ r ∈ selectSql t user_id, r.cartQty ≤ r.stock) ↔
      (∀ row ∈ cartSql t user_id, row.cart_qty ≤ row.stock_qty) := by
  have h := selectSql_rows t user_id
  constructor
  · intro hall row hrow
    have hmem : (row.product_id, row.cart_qty, row.stock_qty) ∈
        (selectSql t user_id).map (fun r => (r.product_id, r.cartQty, r.stock)) := by
      rw [h]
      exact List.mem_map.mpr ⟨row, hrow, rfl⟩
    obtain ⟨r, hr, heq⟩ := List.mem_map.mp hmem
    have := hall r hr
    simp only [Prod.mk.injEq] at heq
    omega
  · intro hall r hr
    have hmem : (r.product_id, r.cartQty, r.stock) ∈
        (cartSql t user_id).map (fun row => (row.product_id, row.cart_qty, row.stock_qty)) := by
      rw [← h]
      exact List.mem_map.mpr ⟨r, hr, rfl⟩
    obtain ⟨row, hrow, heq⟩ := List.mem_map.mp hmem
    have := hall row hrow
    simp only [Prod.mk.injEq] at heq
    omega

theorem insufficientItems_eq_shortLines (t : Tables) (user_id : Nat) :
    insufficientItems (selectSql t user_id) = shortLines t user_id := by
  unfold insufficientItems selectSql shortLines
  generalize t.cart_items.filter (fun ci => decide (ci.user_id = user_id)) = l
  induction l with
  | nil => rfl
  | cons c rest ih =>
    simp only [List.filterMap_cons]
    cases hp : t.products c.product_id with
    | none => exact ih
    | some p =>
      simp only [List.filter_cons]
      by_cases hlt : p.quantity < c.quantity
      · simp only [hlt, decide_True, if_true, List.map_cons, ih]
      · simp only [hlt, decide_False, if_false, Bool.false_eq_true, ih]

theorem insufficientItems_nil_iff (items : List ModelCartRow) :
    (insufficientItems items).length = 0 ↔ ∀ r ∈ items, r.cartQty ≤ r.stock := by
  unfold insufficientItems
  rw [List.length_map, List.length_eq_zero, List.filter_eq_nil_iff]
  constructor
  · intro h r hr
    have := h r hr
    simp only [decide_eq_true_eq, not_lt] at this
    exact this
  · intro h r hr
    have := h r hr
    simp only [decide_eq_true_eq, not_lt]
    exact this

theorem modelCheckout_frame (db : Db) (user_id : Nat) (f : ModelCheckoutFaults) :
    (Cart.checkout db user_id f).2.tables.orders = db.tables.orders ∧
    (Cart.checkout db user_id f).2.tables.order_items = db.tables.order_items := by
  have hfr := stockUpdates_frame f.update (cartSql db.tables user_id) 0 db.tables
  unfold Cart.checkout
  simp only [updates_eq_stockUpdates]
  split
  · exact ⟨rfl, rfl⟩
  · split
    · exact ⟨rfl, rfl⟩
    · split
      · exact ⟨rfl, rfl⟩
      · split
        · exact ⟨rfl, rfl⟩
        · split
          · exact ⟨rfl, rfl⟩
          · split
            · exact ⟨rfl, rfl⟩
            · split
              · exact ⟨rfl, rfl⟩
              · split
                · exact ⟨hfr.1, hfr.2.1⟩
                · exact ⟨hfr.1, hfr.2.1⟩

theorem modelCheckout_unsatisfiable (db : Db) (user_id : Nat) (f : ModelCheckoutFaults)
    (hconn : f.getConn = false) (hbegin : f.begin = false) (hsel : f.select = false)
    (h : cartSql db.tables user_id = [] ∨
      ¬ ∀ row ∈ cartSql db.tables user_id, row.cart_qty ≤ row.stock_qty) :
    (Cart.checkout db user_id f).2.tables = db.tables ∧
    (Cart.checkout db user_id f).2.snapshot = none := by
  unfold Cart.checkout
  simp only [hconn, hbegin, hsel, if_false, Bool.false_eq_true]
  rcases h with hempty | hshort
  · have hlen : (selectSql db.tables user_id).length = 0 := by
      rw [selectSql_length, hempty]
      rfl
    simp only [hlen, if_true]
    exact ⟨rfl, rfl⟩
  · have hne : ¬ (insufficientItems (selectSql db.tables user_id)).length = 0 := by
      rw [insufficientItems_nil_iff, selectSql_ok_iff]
      exact hshort
    split
    · exact ⟨rfl, rfl⟩
    · simp only [ne_eq, hne, not_false_eq_true, if_true]
      exact ⟨rfl, rfl⟩

theorem modelCheckout_calm (db : Db) (user_id : Nat)
    (hne : cartSql db.tables user_id ≠ [])
    (hok : ∀ row ∈ cartSql db.tables user_id, row.cart_qty ≤ row.stock_qty) :
    (Cart.checkout db user_id ModelCheckoutFaults.none).2.tables =
      modelCommittedTables db.tables user_id := by
  have hlen : ¬ (selectSql db.tables user_id).length = 0 := by
    rw [selectSql_length]
    intro h0
    exact hne (List.length_eq_zero.mp h0)
  have hins : (insufficientItems (selectSql db.tables user_id)).length = 0 := by
    rw [insufficientItems_nil_iff, selectSql_ok_iff]
    exact hok
  have hcalm := stockUpdates_calm (cartSql db.tables user_id) 0 db.tables
  have hfst := stockUpdates_fst (fun _ => false) (cartSql db.tables user_id) db.tables hcalm
  unfold Cart.checkout
  simp only [ModelCheckoutFaults.none, if_false, Bool.false_eq_true, hlen, hins, ne_eq,
    not_true_eq_false, updates_eq_stockUpdates, hcalm, hfst]
  rfl

/-- C29.  When the select of the model's `checkout` succeeds and some line of
the user's cart asks for more than the stock of its product, the callback gets
the `INSUFFICIENT_STOCK` error whose items are exactly those lines in cart
order, each with its product id, requested = cart quantity and available =
stock; the connection is rolled back and every table is as before. -/
theorem modelCheckout_insufficient (db : Db) (user_id : Nat) (f : ModelCheckoutFaults)
    (hconn : f.getConn = false) (hbegin : f.begin = false) (hsel : f.select = false)
    (hshort : shortLines db.tables user_id ≠ []) :
    (Cart.checkout db user_id f).1 = .insufficientStock (shortLines db.tables user_id) ∧
    (Cart.checkout db user_id f).2.tables = db.tables ∧
    (Cart.checkout db user_id f).2.snapshot = none := by
  have hne : ¬ (shortLines db.tables user_id).length = 0 :=
    fun h0 => hshort (List.length_eq_zero.mp h0)
  have hlen : ¬ (selectSql db.tables user_id).length = 0 := by
    intro h0
    apply hne
    rw [← insufficientItems_eq_shortLines, List.length_eq_zero.mp h0]
    rfl
  unfold Cart.checkout
  simp only [hconn, hbegin, hsel, if_false, Bool.false_eq_true, hlen,
    insufficientItems_eq_shortLines, ne_eq, hne, not_false_eq_true, if_true]
  exact ⟨trivial, rfl, rfl⟩

/-- Witness of C29: on scenario 2 (3 in the cart, stock 2) the error lists
product 1 with requested 3 and available 2, and nothing changes. -/
theorem modelCheckout_insufficient_witness :
    (shortLines scenario2.tables 1 = [⟨1, "A", 3, 2⟩] ∧
      (Cart.checkout scenario2 1 ModelCheckoutFaults.none).2.tables.products 1 =
        some ⟨"A", 2, 1000⟩ ∧
      (Cart.checkout scenario2 1 ModelCheckoutFaults.none).2.tables.cart_items =
        [⟨1, 1, 1, 3⟩]) ∧
    ((Cart.checkout scenario2 1 ModelCheckoutFaults.none).1 =
        .insufficientStock (shortLines scenario2.tables 1) ∧
      (Cart.checkout scenario2 1 ModelCheckoutFaults.none).2.tables = scenario2.tables ∧
      (Cart.checkout scenario2 1 ModelCheckoutFaults.none).2.snapshot = none) :=
  ⟨by decide,
    modelCheckout_insufficient scenario2 1 ModelCheckoutFaults.none rfl rfl rfl (by decide)⟩

theorem modelCheckout_commit_failure :
    (Cart.checkout scenario1 1 modelCommitFails).2.tables.cart_items = [] ∧
    (Cart.checkout scenario1 1 modelCommitFails).2.tables.products 1 = some ⟨"A", 3, 1000⟩ ∧
    (checkout scenario1 (requestOf 1) commitFails).2.tables.cart_items =
      [⟨1, 1, 1, 2⟩, ⟨2, 1, 2, 1⟩] ∧
    (checkout scenario1 (requestOf 1) commitFails).2.tables.products 1 =
      some ⟨"A", 5, 1000⟩ := by
  decide

/-- C28.  For every store state and logged-in user, with no failing statement,
`OrderController.checkout` and the model's `checkout` leave the same products
table and the same cart: when the user's cart rows are not empty and none asks
for more than the stock, both lower the stock per row and delete the user's
lines, the controller also writing the order and its lines; otherwise both
leave every table as it was.  The model's `checkout` never changes `orders` or
`order_items`. -/
theorem checkout_agrees_with_model (db : Db) (req : Request) (env : Env)
    (hu : sessionUserId req ≠ 0) (hcalm : env.faults = Faults.none) :
    (checkout db req env).2.tables.products =
      (Cart.checkout db (sessionUserId req) ModelCheckoutFaults.none).2.tables.products ∧
    (checkout db req env).2.tables.cart_items =
      (Cart.checkout db (sessionUserId req) ModelCheckoutFaults.none).2.tables.cart_items ∧
    ((Cart.checkout db (sessionUserId req) ModelCheckoutFaults.none).2.tables.orders =
        db.tables.orders ∧
      (Cart.checkout db (sessionUserId req) ModelCheckoutFaults.none).2.tables.order_items =
        db.tables.order_items) ∧
    ((cartSql db.tables (sessionUserId req) ≠ [] ∧
        ∀ row ∈ cartSql db.tables (sessionUserId req), row.cart_qty ≤ row.stock_qty) →
      (checkout db req env).2.tables =
        committedTables db.tables (sessionUserId req) db.nextOrderId env.now ∧
      (Cart.checkout db (sessionUserId req) ModelCheckoutFaults.none).2.tables =
        modelCommittedTables db.tables (sessionUserId req)) ∧
    (¬ (cartSql db.tables (sessionUserId req) ≠ [] ∧
        ∀ row ∈ cartSql db.tables (sessionUserId req), row.cart_qty ≤ row.stock_qty) →
      (checkout db req env).2.tables = db.tables ∧
      (Cart.checkout db (sessionUserId req) ModelCheckoutFaults.none).2.tables = db.tables) := by
  have hbegin : env.faults.begin = false := by rw [hcalm]; rfl
  have hgood : (cartSql db.tables (sessionUserId req) ≠ [] ∧
        ∀ row ∈ cartSql db.tables (sessionUserId req), row.cart_qty ≤ row.stock_qty) →
      (checkout db req env).2.tables =
        committedTables db.tables (sessionUserId req) db.nextOrderId env.now ∧
      (Cart.checkout db (sessionUserId req) ModelCheckoutFaults.none).2.tables =
        modelCommittedTables db.tables (sessionUserId req) := by
    rintro ⟨hne, hok⟩
    refine ⟨?_, modelCheckout_calm db _ hne hok⟩
    rw [checkout_calm db req env hu hcalm hne hok]
  have hbad : ¬ (cartSql db.tables (sessionUserId req) ≠ [] ∧
        ∀ row ∈ cartSql db.tables (sessionUserId req), row.cart_qty ≤ row.stock_qty) →
      (checkout db req env).2.tables = db.tables ∧
      (Cart.checkout db (sessionUserId req) ModelCheckoutFaults.none).2.tables = db.tables := by
    intro hnot
    have hcase : cartSql db.tables (sessionUserId req) = [] ∨
        ¬ ∀ row ∈ cartSql db.tables (sessionUserId req), row.cart_qty ≤ row.stock_qty := by
      by_cases hne : cartSql db.tables (sessionUserId req) = []
      · exact Or.inl hne
      · exact Or.inr (fun hok => hnot ⟨hne, hok⟩)
    refine ⟨?_, (modelCheckout_unsatisfiable db _ _ rfl rfl rfl hcase).1⟩
    rcases checkout_cases db req env (Or.inr hbegin) with hr | hs
    · exact hr.2
    · exact absurd ⟨hs.2.1, hs.2.2.1⟩ hnot
  refine ⟨?_, ?_, modelCheckout_frame db _ _, hgood, hbad⟩
  · by_cases h : (cartSql db.tables (sessionUserId req) ≠ [] ∧
        ∀ row ∈ cartSql db.tables (sessionUserId req), row.cart_qty ≤ row.stock_qty)
    · rw [(hgood h).1, (hgood h).2]
      rfl
    · rw [(hbad h).1, (hbad h).2]
  · by_cases h : (cartSql db.tables (sessionUserId req) ≠ [] ∧
        ∀ row ∈ cartSql db.tables (sessionUserId req), row.cart_qty ≤ row.stock_qty)
    · rw [(hgood h).1, (hgood h).2]
      rfl
    · rw [(hbad h).1, (hbad h).2]

/-- Witness of C28: on scenario 1 both leave stock 3 and 0 and an empty cart;
the controller has written order 1, the model none. -/
theorem checkout_agrees_with_model_witness :
    ((checkout scenario1 (requestOf 1) calmEnv).2.tables.products 1 = some ⟨"A", 3, 1000⟩ ∧
      (Cart.checkout scenario1 1 ModelCheckoutFaults.none).2.tables.products 1 =
        some ⟨"A", 3, 1000⟩ ∧
      (checkout scenario1 (requestOf 1) calmEnv).2.tables.products 2 = some ⟨"B", 0, 350⟩ ∧
      (Cart.checkout scenario1 1 ModelCheckoutFaults.none).2.tables.products 2 =
        some ⟨"B", 0, 350⟩ ∧
      (checkout scenario1 (requestOf 1) calmEnv).2.tables.cart_items = [] ∧
      (Cart.checkout scenario1 1 ModelCheckoutFaults.none).2.tables.cart_items = [] ∧
      (checkout scenario1 (requestOf 1) calmEnv).2.tables.orders.length = 1 ∧
      (Cart.checkout scenario1 1 ModelCheckoutFaults.none).2.tables.orders = []) ∧
    ((checkout scenario1 (requestOf 1) calmEnv).2.tables.products =
      (Cart.checkout scenario1 (sessionUserId (requestOf 1))
        ModelCheckoutFaults.none).2.tables.products ∧
    (checkout scenario1 (requestOf 1) calmEnv).2.tables.cart_items =
      (Cart.checkout scenario1 (sessionUserId (requestOf 1))
        ModelCheckoutFaults.none).2.tables.cart_items ∧
    ((Cart.checkout scenario1 (sessionUserId (requestOf 1))
        ModelCheckoutFaults.none).2.tables.orders = scenario1.tables.orders ∧
      (Cart.checkout scenario1 (sessionUserId (requestOf 1))
        ModelCheckoutFaults.none).2.tables.order_items = scenario1.tables.order_items) ∧
    ((cartSql scenario1.tables (sessionUserId (requestOf 1)) ≠ [] ∧
        ∀ row ∈ cartSql scenario1.tables (sessionUserId (requestOf 1)),
          row.cart_qty ≤ row.stock_qty) →
      (checkout scenario1 (requestOf 1) calmEnv).2.tables =
        committedTables scenario1.tables (sessionUserId (requestOf 1)) scenario1.nextOrderId
          calmEnv.now ∧
      (Cart.checkout scenario1 (sessionUserId (requestOf 1))
        ModelCheckoutFaults.none).2.tables =
        modelCommittedTables scenario1.tables (sessionUserId (requestOf 1))) ∧
    (¬ (cartSql scenario1.tables (sessionUserId (requestOf 1)) ≠ [] ∧
        ∀ row ∈ cartSql scenario1.tables (sessionUserId (requestOf 1)),
          row.cart_qty ≤ row.stock_qty) →
      (checkout scenario1 (requestOf 1) calmEnv).2.tables = scenario1.tables ∧
      (Cart.checkout scenario1 (sessionUserId (requestOf 1))
        ModelCheckoutFaults.none).2.tables = scenario1.tables)) :=
  ⟨by decide, checkout_agrees_with_model scenario1 (requestOf 1) calmEnv (by decide) rfl⟩

/-! ## Further witnesses -/

/-- Witness of C23: on scenario 1 (stock 5 and 1) the items 2 and 3 of product 1
and 1 of product 2 pass, the items without product id or quantity are left
out, and the stock ends at 0 and 0. -/
theorem decrementStockUsingConn_guarded_witness :
    ((decrementStockUsingConn scenario1.tables [⟨1, 2⟩, ⟨1, 3⟩, ⟨2, 1⟩, ⟨0, 4⟩, ⟨2, 0⟩]
        (fun _ => false)).2.products 1 = some ⟨"A", 0, 1000⟩ ∧
      (decrementStockUsingConn scenario1.tables [⟨1, 2⟩, ⟨1, 3⟩, ⟨2, 1⟩, ⟨0, 4⟩, ⟨2, 0⟩]
        (fun _ => false)).2.products 2 = some ⟨"B", 0, 350⟩ ∧
      (decrementStockUsingConn scenario1.tables [⟨1, 2⟩, ⟨1, 4⟩] (fun _ => false)).1 =
        .insufficientStock 1) ∧
    (decrementStockUsingConn scenario1.tables [⟨1, 2⟩, ⟨1, 3⟩, ⟨2, 1⟩, ⟨0, 4⟩, ⟨2, 0⟩]
        (fun _ => false)).2 =
      { scenario1.tables with
        products := productsLess scenario1.tables.products
          (decrementable [⟨1, 2⟩, ⟨1, 3⟩, ⟨2, 1⟩, ⟨0, 4⟩, ⟨2, 0⟩]) } :=
  ⟨by decide,
    (decrementStockUsingConn_guarded scenario1.tables
      [⟨1, 2⟩, ⟨1, 3⟩, ⟨2, 1⟩, ⟨0, 4⟩, ⟨2, 0⟩] (fun _ => false)).2.1 (by decide)⟩

/-- Witness of C30: the logged-in user 1 gets 501 from both handlers. -/
theorem order_exports_final_witness :
    orderHistory orderExports scenario2.tables (requestOf 1) false =
      .error 501 "Order.getByUser not implemented" ∧
    viewOrder orderExports orderedOnce (requestOf 1) 1 false =
      .error 501 "Order.getById not implemented" :=
  ⟨order_exports_final.2.2.2.1 scenario2.tables (requestOf 1) false (by decide),
    order_exports_final.2.2.2.2.1 orderedOnce (requestOf 1) 1 false (by decide)⟩

/-! ## The status and timestamp of the order headers -/

theorem placeOrder_header (defaults : OrderColumnDefaults) (db : Db) (req : Request)
    (now : Nat) (f : PlaceOrderFaults) (orderId : Nat)
    (h : (placeOrder orderExports defaults db req now f).1 = .redirectReceipt orderId) :
    orderId = db.nextOrderId ∧
    (placeOrder orderExports defaults db req now f).2.tables.orders =
      db.tables.orders ++
        [{ id := db.nextOrderId, user_id := receiptUserId req,
           orderDate := defaults.orderDate,
           totalAmount :=
             amountColumn (placeOrderTotal (Cart.getByUser db.tables (receiptUserId req))),
           status := defaults.status, createdAt := now }] := by
  have hu : receiptUserId req ≠ 0 := by
    intro hc
    simp [placeOrder, hc] at h
  have hl : f.loadCart = false := by
    cases hc : f.loadCart with
    | false => rfl
    | true => simp [placeOrder, hu, hc] at h
  have hlen : ¬ (Cart.getByUser db.tables (receiptUserId req)).length = 0 := by
    intro hc
    simp [placeOrder, hu, hl, hc] at h
  have ho : f.insertOrder = false := by
    cases hc : f.insertOrder with
    | false => rfl
    | true => simp [placeOrder, hu, hl, hlen, hc] at h
  have hrun : placeOrder orderExports defaults db req now f =
      placeOrderFinish
        { db.runOrderInsert
            (placeOrderInsert (receiptUserId req)
              (placeOrderTotal (Cart.getByUser db.tables (receiptUserId req))) now) defaults with
          tables := insertOrderItems f.insertItem db.nextOrderId now 0
            (Cart.getByUser db.tables (receiptUserId req))
            (db.runOrderInsert
              (placeOrderInsert (receiptUserId req)
                (placeOrderTotal (Cart.getByUser db.tables (receiptUserId req))) now)
              defaults).tables }
        (receiptUserId req) db.nextOrderId f.clearCart := by
    unfold placeOrder
    simp only [hu, hl, ho, hlen, if_false, Bool.false_eq_true, placeOrderStatement_fallback]
  rw [hrun] at h ⊢
  unfold placeOrderFinish at h ⊢
  simp only [PlaceOrderResponse.redirectReceipt.injEq] at h
  refine ⟨h.symm, ?_⟩
  simp only
  split
  · rw [(insertOrderItems_frame _ _ _ _ _ _).1]
    rfl
  · simp only [Tables.deleteCart]
    rw [(insertOrderItems_frame _ _ _ _ _ _).1]
    rfl

/-- C19.  Every order header a handler creates has status `Pending` and a
creation timestamp.  A checkout that ends in the receipt has appended one
order with status `Pending` and the current time as `createdAt`; the insert of
`confirmPayment` appends one with status `Pending` and the current time;
`placeOrder`, whenever it redirects to the receipt, has appended one with its
own `createdAt = new Date()` and, naming no status column, the status the
table gives by default, which is `Pending` by the hypothesis on the column
defaults.  The Order model exports no `create`, so no header is created
through it. -/
theorem order_headers_pending (defaults : OrderColumnDefaults)
    (hdefault : defaults.status = "Pending") :
    (∀ (db : Db) (req : Request) (env : Env) (orderId : Nat),
      (checkout db req env).1 = .redirectReceipt orderId →
      ∃ o : Order, (checkout db req env).2.tables.orders = db.tables.orders ++ [o] ∧
        o.id = orderId ∧ o.status = "Pending" ∧ o.createdAt = env.now) ∧
    (∀ (db : Db) (userId : Nat) (total : Double) (now : Nat),
      ∃ o : Order,
        (db.runOrderInsert (confirmPaymentOrderInsert userId total now) defaults).tables.orders =
          db.tables.orders ++ [o] ∧
        o.id = db.nextOrderId ∧ o.status = "Pending" ∧ o.createdAt = now) ∧
    (∀ (db : Db) (req : Request) (now : Nat) (f : PlaceOrderFaults) (orderId : Nat),
      (placeOrder orderExports defaults db req now f).1 = .redirectReceipt orderId →
      ∃ o : Order,
        (placeOrder orderExports defaults db req now f).2.tables.orders =
          db.tables.orders ++ [o] ∧
        o.id = orderId ∧ o.status = "Pending" ∧ o.createdAt = now) ∧
    (orderExports.lookup "create" = none ∧ orderCreate orderExports = none) := by
  refine ⟨?_, ?_, ?_, by decide, by decide⟩
  · intro db req env orderId hsucc
    have hrec := checkout_receipt db req env (receipt_of_eq _ _ hsucc)
    have hid : orderId = db.nextOrderId := by
      have h := hsucc
      rw [hrec.2.2.2] at h
      simp only [CheckoutResponse.redirectReceipt.injEq] at h
      exact h.symm
    subst hid
    rw [hrec.2.2.2]
    exact ⟨_, rfl, rfl, rfl, rfl⟩
  · intro db userId total now
    exact ⟨_, rfl, rfl, rfl, rfl⟩
  · intro db req now f orderId hsucc
    obtain ⟨hid, horders⟩ := placeOrder_header defaults db req now f orderId hsucc
    rw [horders]
    exact ⟨_, rfl, hid.symm, hdefault, rfl⟩

/-- Witness of C19: with the column defaults of the examples, checkout on
scenario 1 and `placeOrder` on scenario 2 each leave one order with status
`Pending` and the time of the call. -/
theorem order_headers_pending_witness :
    sampleDefaults.status = "Pending" ∧
    (checkout scenario1 (requestOf 1) calmEnv).2.tables.orders =
      [⟨1, 1, 7, 2350, "Pending", 7⟩] ∧
    (placeOrder orderExports sampleDefaults scenario2 (requestOf 1) 7
      PlaceOrderFaults.none).2.tables.orders = [⟨1, 1, 0, 2000, "Pending", 7⟩] ∧
    (∃ o : Order,
      (placeOrder orderExports sampleDefaults scenario2 (requestOf 1) 7
        PlaceOrderFaults.none).2.tables.orders = scenario2.tables.orders ++ [o] ∧
      o.id = 1 ∧ o.status = "Pending" ∧ o.createdAt = 7) :=
  ⟨rfl, by decide, by decide,
    (order_headers_pending sampleDefaults rfl).2.2.1 scenario2 (requestOf 1) 7
      PlaceOrderFaults.none 1 (by decide)⟩

end SupermarketAppMVC
